import Mathlib

/-!
# prism-user-service: tenant-scoped user service and repository

A shallow embedding of `internal/models/user.go`, `internal/services/user.go`
and `internal/repository/user.go`, followed by theorems about them.

Conventions of the embedding

* A Go pointer result `(*T, error)` is a pair `Option T × Option Error`; the
  service inspects the error first, exactly as the Go code does.
* A service method returns a `Result` next to the final `World`: the world
  carries the repository state, the chronological list of repository calls
  and the log entries written so far.
* Dereferencing a nil pointer is the outcome `Result.panic`.
* `uuid.New()` and `bcrypt.GenerateFromPassword` are supplied by `Deps`.
* Repository implementations are taken not to write through the pointers
  they receive (the implementation in `internal/repository` does not).
-/

set_option autoImplicit false

/-! ## Models (`prism-common-libs/pkg/models`, `internal/models/user.go`) -/

/-- A `uuid.UUID`; `0` is `uuid.Nil`. -/
abbrev UUID := Nat

/-- A `time.Time`, as an instant on an integer time line; `0` is the zero time. -/
abbrev Time := Nat

/-- The `commonModels.Role` record: base model fields, name and permission set. -/
structure Role where
  ID : UUID
  CreatedAt : Time
  UpdatedAt : Time
  Name : String
  Permissions : List (String × List String)
  deriving DecidableEq, Repr

/-- The `commonModels.User` record with the fields the service and the
repository read or write. -/
structure User where
  ID : UUID
  CreatedAt : Time
  UpdatedAt : Time
  Email : String
  FirstName : String
  LastName : String
  PasswordHash : String
  Status : String
  Roles : List Role
  deriving DecidableEq, Repr

/-- Request payload of `CreateUser`. -/
structure CreateUserRequest where
  Email : String
  FirstName : String
  LastName : String
  Password : String
  Status : String
  RoleIDs : List String
  deriving DecidableEq, Repr

/-- Request payload of `UpdateUser`; a nil `*string` is `none`. -/
structure UpdateUserRequest where
  FirstName : Option String
  LastName : Option String
  Status : Option String
  RoleIDs : List String
  deriving DecidableEq, Repr

/-- Request payload of `UpdateProfile`; a nil `*string` is `none`. -/
structure UpdateProfileRequest where
  FirstName : Option String
  LastName : Option String
  deriving DecidableEq, Repr

/-- Response payload for user data. -/
structure UserResponse where
  ID : UUID
  Email : String
  FirstName : String
  LastName : String
  Status : String
  Roles : List Role
  CreatedAt : Time
  UpdatedAt : Time
  deriving DecidableEq, Repr

/-- Request payload for querying users; `Page` and `Limit` are Go `int`s and
`Sort_` is the field `Sort` (a reserved word here). -/
structure UserQueryRequest where
  Page : Int
  Limit : Int
  Status : String
  Role : String
  Sort_ : String
  Search : String
  RoleIDs : List String
  deriving DecidableEq, Repr

/-- Response payload of `ListUsers`. -/
structure UserListResponse where
  Users : List UserResponse
  Total : Int
  Page : Int
  Limit : Int
  TotalPages : Int
  deriving DecidableEq, Repr

/-- The function `ToUserResponse` of `internal/models/user.go`. -/
def ToUserResponse (u : User) : UserResponse :=
  { ID := u.ID
    Email := u.Email
    FirstName := u.FirstName
    LastName := u.LastName
    Status := u.Status
    Roles := u.Roles
    CreatedAt := u.CreatedAt
    UpdatedAt := u.UpdatedAt }

/-! ## Errors, repository interface, world -/

/-- Go `error` values. The four sentinels of `internal/services/user.go` are
compared by identity in the handlers, so each is its own constructor; any
other error is identified by its message. -/
inductive Error where
  | ErrUserNotFound
  | ErrUserExists
  | ErrInvalidPassword
  | ErrUnauthorized
  | other (msg : String)
  deriving DecidableEq, Repr

/-- The method `Error()` of an error value: its message. -/
def Error.message : Error → String
  | .ErrUserNotFound => "user not found"
  | .ErrUserExists => "user already exists"
  | .ErrInvalidPassword => "invalid password"
  | .ErrUnauthorized => "unauthorized"
  | .other msg => msg

/-- The sparse update set `map[string]interface{}` built by the service: the
entries in the order the service assigns them (every key is assigned at most
once). -/
abbrev Updates := List (String × String)

/-- One call on the `UserRepository` interface, with its arguments. -/
inductive RepoCall where
  | Create (tenantID : String) (user : User)
  | GetByID (tenantID : String) (id : UUID)
  | GetByEmail (tenantID : String) (email : String)
  | Update (tenantID : String) (id : UUID) (updates : Updates)
  | Delete (tenantID : String) (id : UUID)
  | List (tenantID : String) (query : UserQueryRequest)
  deriving DecidableEq, Repr

/-- The tenant a repository call is issued for. -/
def RepoCall.tenant : RepoCall → String
  | .Create t _ => t
  | .GetByID t _ => t
  | .GetByEmail t _ => t
  | .Update t _ _ => t
  | .Delete t _ => t
  | .List t _ => t

/-- The interface `UserRepository` over a repository state `σ`: every method
maps its arguments and the current state to its Go results and the next
state. -/
structure UserRepository (σ : Type) where
  Create : String → User → σ → Option Error × σ
  GetByID : String → UUID → σ → (Option User × Option Error) × σ
  GetByEmail : String → String → σ → (Option User × Option Error) × σ
  Update : String → UUID → Updates → σ → Option Error × σ
  Delete : String → UUID → σ → Option Error × σ
  List : String → UserQueryRequest → σ → (List User × Int × Option Error) × σ

/-- Log levels used by the service. -/
inductive Level where
  | error
  | info
  deriving DecidableEq, Repr

/-- One `logrus` entry: level, format string and the formatted argument. -/
structure LogEntry where
  level : Level
  format : String
  arg : String
  deriving DecidableEq, Repr

/-- What a service call can observe and change. -/
structure World (σ : Type) where
  store : σ
  calls : List RepoCall
  logs : List LogEntry

/-- Outcome of a service method returning `(*T, error)`: `ok r` is
`(&r, nil)`, `err e` is `(nil, e)`, `panic` is a nil-pointer dereference. -/
inductive Result (α : Type) where
  | ok (resp : α)
  | err (e : Error)
  | panic
  deriving DecidableEq, Repr

/-- The collaborators of `CreateUser` outside this repository: the value
`uuid.New()` returns in this call and `bcrypt.GenerateFromPassword` at
`bcrypt.DefaultCost`. -/
structure Deps where
  newUUID : UUID
  generateFromPassword : String → Except Error String

section Calls

variable {σ : Type}

/-- The call `s.logger.Errorf(format, arg)`. -/
def World.Errorf (w : World σ) (format arg : String) : World σ :=
  { w with logs := w.logs ++ [{ level := Level.error, format := format, arg := arg }] }

/-- The call `s.logger.Infof(format, arg)`. -/
def World.Infof (w : World σ) (format arg : String) : World σ :=
  { w with logs := w.logs ++ [{ level := Level.info, format := format, arg := arg }] }

/-- Record a repository call and install the state it leaves. -/
def World.after (w : World σ) (c : RepoCall) (s : σ) : World σ :=
  { w with store := s, calls := w.calls ++ [c] }

/-- The call `s.userRepo.Create(tenantID, user)`. -/
def callCreate (R : UserRepository σ) (tenantID : String) (user : User) (w : World σ) :
    Option Error × World σ :=
  ((R.Create tenantID user w.store).1,
    w.after (RepoCall.Create tenantID user) (R.Create tenantID user w.store).2)

/-- The call `s.userRepo.GetByID(tenantID, id)`. -/
def callGetByID (R : UserRepository σ) (tenantID : String) (id : UUID) (w : World σ) :
    (Option User × Option Error) × World σ :=
  ((R.GetByID tenantID id w.store).1,
    w.after (RepoCall.GetByID tenantID id) (R.GetByID tenantID id w.store).2)

/-- The call `s.userRepo.GetByEmail(tenantID, email)`. -/
def callGetByEmail (R : UserRepository σ) (tenantID email : String) (w : World σ) :
    (Option User × Option Error) × World σ :=
  ((R.GetByEmail tenantID email w.store).1,
    w.after (RepoCall.GetByEmail tenantID email) (R.GetByEmail tenantID email w.store).2)

/-- The call `s.userRepo.Update(tenantID, id, updates)`. -/
def callUpdate (R : UserRepository σ) (tenantID : String) (id : UUID) (updates : Updates)
    (w : World σ) : Option Error × World σ :=
  ((R.Update tenantID id updates w.store).1,
    w.after (RepoCall.Update tenantID id updates) (R.Update tenantID id updates w.store).2)

/-- The call `s.userRepo.Delete(tenantID, id)`. -/
def callDelete (R : UserRepository σ) (tenantID : String) (id : UUID) (w : World σ) :
    Option Error × World σ :=
  ((R.Delete tenantID id w.store).1,
    w.after (RepoCall.Delete tenantID id) (R.Delete tenantID id w.store).2)

/-- The call `s.userRepo.List(tenantID, query)`. -/
def callList (R : UserRepository σ) (tenantID : String) (query : UserQueryRequest)
    (w : World σ) : (List User × Int × Option Error) × World σ :=
  ((R.List tenantID query w.store).1,
    w.after (RepoCall.List tenantID query) (R.List tenantID query w.store).2)

end Calls

/-! ## IEEE-754 binary64 arithmetic used by `ListUsers`

`totalPages := int(math.Ceil(float64(total) / float64(query.Limit)))`.
The operands are integers of at most 64 bits, so every intermediate value is
a normal double; a double is represented exactly as `mant * 2 ^ exp`. -/

/-- Round the rational `num / den` (with `den > 0`) to the nearest natural
number, ties to even. -/
def roundHalfEven (num den : Nat) : Nat :=
  if 2 * (num % den) < den then num / den
  else if den < 2 * (num % den) then num / den + 1
  else if (num / den) % 2 = 0 then num / den
  else num / den + 1

/-- Position of the highest set bit of `n` (`⌊log₂ n⌋` for `0 < n < 2 ^ fuel`). -/
def ilog2 : Nat → Nat → Nat
  | 0, _ => 0
  | fuel + 1, n => if n < 2 then 0 else ilog2 fuel (n / 2) + 1

/-- The conversion `float64(n)` of a natural number below `2 ^ 64`: exact up
to `2 ^ 53`, rounded to 53 significant bits (ties to even) above; the result
is again an integer. -/
def toFloat64 (n : Nat) : Nat :=
  if n < 2 ^ 53 then n
  else roundHalfEven n (2 ^ (ilog2 64 n - 52)) * 2 ^ (ilog2 64 n - 52)

/-- The integer `⌊log₂ (num / den)⌋` for positive `num`, `den` below `2 ^ 65`. -/
def floorLog2Ratio (num den : Nat) : Int :=
  if den * 2 ^ (ilog2 65 num - ilog2 65 den) ≤ num * 2 ^ (ilog2 65 den - ilog2 65 num) then
    (ilog2 65 num : Int) - (ilog2 65 den : Int)
  else (ilog2 65 num : Int) - (ilog2 65 den : Int) - 1

/-- A non-negative finite double, `mant * 2 ^ exp`. -/
structure F64 where
  mant : Nat
  exp : Int
  deriving DecidableEq, Repr

/-- The quotient `a / b` of two doubles holding the integers `a` and `b > 0`,
rounded to nearest, ties to even: the mantissa is scaled into
`[2 ^ 52, 2 ^ 53)` before rounding. -/
def F64.div (a b : Nat) : F64 :=
  if a = 0 then { mant := 0, exp := 0 }
  else
    { mant := roundHalfEven (a * 2 ^ (52 - floorLog2Ratio a b).toNat)
        (b * 2 ^ (floorLog2Ratio a b - 52).toNat)
      exp := floorLog2Ratio a b - 52 }

/-- The function `math.Ceil` on a non-negative double. -/
def F64.ceil (x : F64) : Nat :=
  if 0 ≤ x.exp then x.mant * 2 ^ x.exp.toNat
  else (x.mant + 2 ^ (-x.exp).toNat - 1) / 2 ^ (-x.exp).toNat

/-- The function `math.Floor` on a non-negative double. -/
def F64.floor (x : F64) : Nat :=
  if 0 ≤ x.exp then x.mant * 2 ^ x.exp.toNat
  else x.mant / 2 ^ (-x.exp).toNat

/-- The conversion `int(f)` of an integral double `f`: exact inside the
`int64` range; outside it Go leaves the result to the implementation, and the
value taken here is the one amd64 produces, `-2 ^ 63`. -/
def floatToInt (f : Int) : Int :=
  if -(2 : Int) ^ 63 ≤ f ∧ f < (2 : Int) ^ 63 then f else -(2 : Int) ^ 63

/-- The expression `int(math.Ceil(float64(total) / float64(limit)))` for
`int64` operands with `limit > 0` (the only way `ListUsers` evaluates it).
For a negative `total` the quotient is the negated quotient of the absolute
values, and `Ceil (-x) = -Floor x`. -/
def totalPagesOf (total limit : Int) : Int :=
  if 0 ≤ total then
    floatToInt (F64.div (toFloat64 total.toNat) (toFloat64 limit.toNat)).ceil
  else
    floatToInt (-((F64.div (toFloat64 (-total).toNat) (toFloat64 limit.toNat)).floor : Int))

/-! ## The service (`internal/services/user.go`) -/

namespace userService

variable {σ : Type}

/-- The record `CreateUser` builds under "Set default status if not provided"
and "Create user": a fresh ID, the request's email and names, the hashed
password, and the status defaulted to `active`. -/
def buildUser (d : Deps) (req : CreateUserRequest) (hashedPassword : String) : User :=
  let status := if req.Status = "" then "active" else req.Status
  { ID := d.newUUID
    CreatedAt := 0
    UpdatedAt := 0
    Email := req.Email
    FirstName := req.FirstName
    LastName := req.LastName
    PasswordHash := hashedPassword
    Status := status
    Roles := [] }

/-- The method `CreateUser`. -/
def CreateUser (R : UserRepository σ) (d : Deps) (tenantID : String) (req : CreateUserRequest)
    (w : World σ) : Result UserResponse × World σ :=
  -- Check if user already exists
  match callGetByEmail R tenantID req.Email w with
  | ((_, some err), w1) => (Result.err err, w1.Errorf "Error checking existing user: %v" err.message)
  | ((some _, none), w1) => (Result.err Error.ErrUserExists, w1)
  | ((none, none), w1) =>
    -- Hash password
    match d.generateFromPassword req.Password with
    | Except.error err => (Result.err err, w1.Errorf "Error hashing password: %v" err.message)
    | Except.ok hashedPassword =>
      match callCreate R tenantID (buildUser d req hashedPassword) w1 with
      | (some err, w2) => (Result.err err, w2.Errorf "Error creating user: %v" err.message)
      | (none, w2) =>
        -- Get created user with roles
        match callGetByID R tenantID (buildUser d req hashedPassword).ID w2 with
        | ((_, some err), w3) =>
          (Result.err err, w3.Errorf "Error fetching created user: %v" err.message)
        | ((none, none), w3) => (Result.panic, w3)
        | ((some createdUser, none), w3) =>
          (Result.ok (ToUserResponse createdUser),
            w3.Infof "User created successfully: %s" (buildUser d req hashedPassword).Email)

/-- The method `GetUser`. -/
def GetUser (R : UserRepository σ) (tenantID : String) (id : UUID) (w : World σ) :
    Result UserResponse × World σ :=
  match callGetByID R tenantID id w with
  | ((_, some err), w1) => (Result.err err, w1.Errorf "Error fetching user: %v" err.message)
  | ((none, none), w1) => (Result.err Error.ErrUserNotFound, w1)
  | ((some user, none), w1) => (Result.ok (ToUserResponse user), w1)

/-- The method `GetUserByEmail`. -/
def GetUserByEmail (R : UserRepository σ) (tenantID email : String) (w : World σ) :
    Result UserResponse × World σ :=
  match callGetByEmail R tenantID email w with
  | ((_, some err), w1) =>
    (Result.err err, w1.Errorf "Error fetching user by email: %v" err.message)
  | ((none, none), w1) => (Result.err Error.ErrUserNotFound, w1)
  | ((some user, none), w1) => (Result.ok (ToUserResponse user), w1)

/-- The updates map `UpdateUser` builds from the non-nil request fields. -/
def updateUserUpdates (req : UpdateUserRequest) : Updates :=
  (match req.FirstName with
    | some v => [("first_name", v)]
    | none => []) ++
  (match req.LastName with
    | some v => [("last_name", v)]
    | none => []) ++
  (match req.Status with
    | some v => [("status", v)]
    | none => [])

/-- The method `UpdateUser`. -/
def UpdateUser (R : UserRepository σ) (tenantID : String) (id : UUID) (req : UpdateUserRequest)
    (w : World σ) : Result UserResponse × World σ :=
  -- Check if user exists
  match callGetByID R tenantID id w with
  | ((_, some err), w1) => (Result.err err, w1.Errorf "Error fetching user: %v" err.message)
  | ((none, none), w1) => (Result.err Error.ErrUserNotFound, w1)
  | ((some _, none), w1) =>
    -- Build updates map, update user
    match callUpdate R tenantID id (updateUserUpdates req) w1 with
    | (some err, w2) => (Result.err err, w2.Errorf "Error updating user: %v" err.message)
    | (none, w2) =>
      -- Get updated user
      match callGetByID R tenantID id w2 with
      | ((_, some err), w3) =>
        (Result.err err, w3.Errorf "Error fetching updated user: %v" err.message)
      | ((none, none), w3) => (Result.panic, w3)
      | ((some updatedUser, none), w3) =>
        (Result.ok (ToUserResponse updatedUser),
          w3.Infof "User updated successfully: %s" updatedUser.Email)

/-- The method `DeleteUser`; it returns only an error, so `ok ()` is `nil`. -/
def DeleteUser (R : UserRepository σ) (tenantID : String) (id : UUID) (w : World σ) :
    Result Unit × World σ :=
  -- Check if user exists
  match callGetByID R tenantID id w with
  | ((_, some err), w1) => (Result.err err, w1.Errorf "Error fetching user: %v" err.message)
  | ((none, none), w1) => (Result.err Error.ErrUserNotFound, w1)
  | ((some user, none), w1) =>
    match callDelete R tenantID id w1 with
    | (some err, w2) => (Result.err err, w2.Errorf "Error deleting user: %v" err.message)
    | (none, w2) => (Result.ok (), w2.Infof "User deleted successfully: %s" user.Email)

/-- The defaults `ListUsers` writes into the query before delegating. -/
def normalizeQuery (query : UserQueryRequest) : UserQueryRequest :=
  { query with
    Page := if query.Page ≤ 0 then 1 else query.Page
    Limit := if query.Limit ≤ 0 then 20 else query.Limit }

/-- The method `ListUsers`. -/
def ListUsers (R : UserRepository σ) (tenantID : String) (query : UserQueryRequest)
    (w : World σ) : Result UserListResponse × World σ :=
  -- Set defaults
  match callList R tenantID (normalizeQuery query) w with
  | ((_, _, some err), w1) => (Result.err err, w1.Errorf "Error listing users: %v" err.message)
  | ((users, total, none), w1) =>
    (Result.ok
      { Users := users.map ToUserResponse
        Total := total
        Page := (normalizeQuery query).Page
        Limit := (normalizeQuery query).Limit
        TotalPages := totalPagesOf total (normalizeQuery query).Limit }, w1)

/-- The updates map `UpdateProfile` builds from the non-nil request fields. -/
def updateProfileUpdates (req : UpdateProfileRequest) : Updates :=
  (match req.FirstName with
    | some v => [("first_name", v)]
    | none => []) ++
  (match req.LastName with
    | some v => [("last_name", v)]
    | none => [])

/-- The method `UpdateProfile`. -/
def UpdateProfile (R : UserRepository σ) (tenantID : String) (userID : UUID)
    (req : UpdateProfileRequest) (w : World σ) : Result UserResponse × World σ :=
  -- Check if user exists
  match callGetByID R tenantID userID w with
  | ((_, some err), w1) => (Result.err err, w1.Errorf "Error fetching user: %v" err.message)
  | ((none, none), w1) => (Result.err Error.ErrUserNotFound, w1)
  | ((some user, none), w1) =>
    if (updateProfileUpdates req).length = 0 then (Result.ok (ToUserResponse user), w1)
    else
      -- Update user
      match callUpdate R tenantID userID (updateProfileUpdates req) w1 with
      | (some err, w2) =>
        (Result.err err, w2.Errorf "Error updating user profile: %v" err.message)
      | (none, w2) =>
        -- Get updated user
        match callGetByID R tenantID userID w2 with
        | ((_, some err), w3) =>
          (Result.err err, w3.Errorf "Error fetching updated user: %v" err.message)
        | ((none, none), w3) => (Result.panic, w3)
        | ((some updatedUser, none), w3) =>
          (Result.ok (ToUserResponse updatedUser),
            w3.Infof "User profile updated successfully: %s" updatedUser.Email)

end userService

/-! ## The tenant-scoped store and the query builder

`internal/repository/user.go` talks to PostgreSQL through `gorm` and the
`WithTenant` scope of `prism-common-libs`. The store below is the in-memory
reading of that database: a list of user rows, newest first, each tagged with
its tenant; a user's `Roles` stand for its rows in `user_roles`. `Create`
inserts the record as given (constraints and store-assigned timestamps are not
modelled). -/

/-- One row of `users` in some tenant. -/
structure Row where
  tenant : String
  user : User
  deriving DecidableEq, Repr

/-- The database: user rows of all tenants, newest first. -/
abbrev Store := List Row

/-- One token of a `LIKE` pattern. -/
inductive LikeTok where
  | any
  | one
  | lit (c : Char)
  deriving DecidableEq, Repr

/-- Tokens of a `LIKE` pattern: `%` matches any sequence, `_` any single
character, a backslash makes the next character literal. (A pattern ending in
a lone backslash is rejected by PostgreSQL; `List` never builds one, since its
pattern always ends in `%`.) -/
def likeTokens : List Char → List LikeTok
  | [] => []
  | '\\' :: c :: cs => LikeTok.lit c :: likeTokens cs
  | '%' :: cs => LikeTok.any :: likeTokens cs
  | '_' :: cs => LikeTok.one :: likeTokens cs
  | c :: cs => LikeTok.lit c :: likeTokens cs

/-- Whether `f` accepts some suffix of the text: what a `%` followed by the
pattern `f` asks for. -/
def matchSomeSuffix (f : List Char → Bool) : List Char → Bool
  | [] => f []
  | c :: cs => f (c :: cs) || matchSomeSuffix f cs

/-- Whether a tokenised pattern matches the whole text. -/
def likeMatch : List LikeTok → List Char → Bool
  | [], t => t.isEmpty
  | LikeTok.any :: ps, t => matchSomeSuffix (likeMatch ps) t
  | LikeTok.one :: _, [] => false
  | LikeTok.one :: ps, _ :: cs => likeMatch ps cs
  | LikeTok.lit _ :: _, [] => false
  | LikeTok.lit p :: ps, c :: cs => p == c && likeMatch ps cs

/-- Case folding of `ILIKE`: both operands are lower-cased (ASCII folding, as
in the `C` locale). -/
def pgLower (s : String) : List Char :=
  s.data.map Char.toLower

/-- The SQL predicate `text ILIKE pattern`. -/
def pgILike (text pattern : String) : Bool :=
  likeMatch (likeTokens (pgLower pattern)) (pgLower text)

/-- The conditions the repository passes to `Where`. -/
inductive Cond where
  /-- Condition `Where("id = ?", id)`. -/
  | idEq (id : UUID)
  /-- Condition `Where("email = ?", email)`. -/
  | emailEq (email : String)
  /-- Condition `Where("status = ?", status)`. -/
  | statusEq (status : String)
  /-- Condition `Where("first_name ILIKE ? OR last_name ILIKE ? OR email ILIKE ?", p1, p2, p3)`. -/
  | searchILike (p1 p2 p3 : String)
  /-- Condition `Where("user_roles.role_id IN ?", ids)`. -/
  | roleIDIn (ids : List UUID)
  deriving DecidableEq, Repr

/-- A row of the query's source: a user and, under the `user_roles` join, the
role ID of the joined `user_roles` row. -/
abbrev JoinedRow := User × Option UUID

/-- Truth of a condition on a joined row. -/
def Cond.eval : Cond → JoinedRow → Bool
  | Cond.idEq id, (u, _) => u.ID == id
  | Cond.emailEq email, (u, _) => u.Email == email
  | Cond.statusEq status, (u, _) => u.Status == status
  | Cond.searchILike p1 p2 p3, (u, _) =>
    pgILike u.FirstName p1 || pgILike u.LastName p2 || pgILike u.Email p3
  | Cond.roleIDIn ids, (_, some rid) => ids.contains rid
  | Cond.roleIDIn _, (_, none) => false

/-- The join clause `List` adds for the role filter. -/
def userRolesJoin : String := "JOIN user_roles ON users.id = user_roles.user_id"

/-- The state of a `*gorm.DB` statement under construction. -/
structure Query where
  tenantID : String
  preloads : List String
  joins : List String
  wheres : List Cond
  orders : List String
  offset : Option Int
  limit : Option Int
  deriving DecidableEq, Repr

/-- The scope `r.db.WithTenant(tenantID)`: a fresh statement on that tenant. -/
def WithTenant (tenantID : String) : Query :=
  { tenantID := tenantID, preloads := [], joins := [], wheres := [], orders := [],
    offset := none, limit := none }

namespace Query

/-- The chain method `Preload(name)`. -/
def Preload (q : Query) (name : String) : Query :=
  { q with preloads := q.preloads ++ [name] }

/-- The chain method `Where(...)`; successive conditions are conjoined. -/
def Where (q : Query) (c : Cond) : Query :=
  { q with wheres := q.wheres ++ [c] }

/-- The chain method `Joins(clause)`. -/
def Joins (q : Query) (clause : String) : Query :=
  { q with joins := q.joins ++ [clause] }

/-- The chain method `Order(clause)`. -/
def Order (q : Query) (clause : String) : Query :=
  { q with orders := q.orders ++ [clause] }

/-- The chain method `Offset(n)`. -/
def Offset (q : Query) (n : Int) : Query :=
  { q with offset := some n }

/-- The chain method `Limit(n)`. -/
def Limit (q : Query) (n : Int) : Query :=
  { q with limit := some n }

/-- The rows of `users`, joined with `user_roles` when the statement has that
join: one joined row for every role of the user. -/
def source (q : Query) (s : Store) : List JoinedRow :=
  if userRolesJoin ∈ q.joins then
    ((s.filter (fun r => r.tenant == q.tenantID)).map (fun r => r.user)).flatMap
      (fun u => u.Roles.map (fun role => (u, some role.ID)))
  else (s.filter (fun r => r.tenant == q.tenantID)).map (fun r => (r.user, none))

/-- The rows selected by the statement: tenant scope, join, all conditions. -/
def rows (q : Query) (s : Store) : List User :=
  ((q.source s).filter (fun jr => q.wheres.all (fun c => c.eval jr))).map (fun jr => jr.1)

/-- The comparison an `ORDER BY` clause stands for; text columns compare
code point by code point. -/
def orderRel : String → Option (User → User → Bool)
  | "email ASC" => some (fun a b => decide (a.Email.data ≤ b.Email.data))
  | "email DESC" => some (fun a b => decide (b.Email.data ≤ a.Email.data))
  | "created_at ASC" => some (fun a b => decide (a.CreatedAt ≤ b.CreatedAt))
  | "created_at DESC" => some (fun a b => decide (b.CreatedAt ≤ a.CreatedAt))
  | "first_name ASC" => some (fun a b => decide (a.FirstName.data ≤ b.FirstName.data))
  | "first_name DESC" => some (fun a b => decide (b.FirstName.data ≤ a.FirstName.data))
  | "last_name ASC" => some (fun a b => decide (a.LastName.data ≤ b.LastName.data))
  | "last_name DESC" => some (fun a b => decide (b.LastName.data ≤ a.LastName.data))
  | _ => none

/-- Stable sort of the rows by one `ORDER BY` clause. -/
def sortBy (clause : String) (l : List User) : List User :=
  match orderRel clause with
  | some le => l.insertionSort (fun a b => le a b = true)
  | none => l

/-- The rows in `ORDER BY` order: the first clause is the major key. -/
def ordered (q : Query) (l : List User) : List User :=
  q.orders.foldr sortBy l

/-- The clauses `OFFSET` and `LIMIT`: `gorm` emits an offset only when it is
positive and a limit only when it is not negative. -/
def paged (q : Query) (l : List User) : List User :=
  let l1 := match q.offset with
    | some n => l.drop n.toNat
    | none => l
  match q.limit with
  | some n => if 0 ≤ n then l1.take n.toNat else l1
  | none => l1

/-- What `Preload("Roles")` decides: the role relation is loaded only then. -/
def loaded (q : Query) (u : User) : User :=
  if "Roles" ∈ q.preloads then u else { u with Roles := [] }

/-- The finisher `Count(&total)`. -/
def Count (q : Query) (s : Store) : Int :=
  ((q.rows s).length : Int)

/-- The finisher `Find(&users)`. -/
def Find (q : Query) (s : Store) : List User :=
  (q.paged (q.ordered (q.rows s))).map q.loaded

/-- The row with the least ID of a list, the most recent one among equals. -/
def leastID : List User → Option User
  | [] => none
  | u :: us =>
    match leastID us with
    | some v => if v.ID < u.ID then some v else some u
    | none => some u

/-- The finisher `First(&user)`: the selected row with the least primary key,
or none (`gorm.ErrRecordNotFound`). -/
def First (q : Query) (s : Store) : Option User :=
  (leastID (q.rows s)).map q.loaded

end Query

/-! ## The repository (`internal/repository/user.go`) -/

/-- Wrap-around of Go `int` (64-bit two's complement) arithmetic. -/
def wrapInt64 (x : Int) : Int :=
  (x + 2 ^ 63) % 2 ^ 64 - 2 ^ 63

/-- Apply one entry of a sparse update set to a user record; a key that is no
column written by this service leaves the record as it is. -/
def applyUpdate (u : User) (kv : String × String) : User :=
  if kv.1 = "first_name" then { u with FirstName := kv.2 }
  else if kv.1 = "last_name" then { u with LastName := kv.2 }
  else if kv.1 = "status" then { u with Status := kv.2 }
  else u

namespace userRepository

/-- The method `Create`: `db.Create(user)` in the tenant scope. -/
def Create (tenantID : String) (user : User) (s : Store) : Option Error × Store :=
  (none, { tenant := tenantID, user := user } :: s)

/-- The method `GetByID`; no matching row is `(nil, nil)`. -/
def GetByID (tenantID : String) (id : UUID) (s : Store) : (Option User × Option Error) × Store :=
  ((((((WithTenant tenantID).Preload "Roles").Where (Cond.idEq id)).First s), none), s)

/-- The method `GetByEmail`; no matching row is `(nil, nil)`. -/
def GetByEmail (tenantID : String) (email : String) (s : Store) :
    (Option User × Option Error) × Store :=
  ((((((WithTenant tenantID).Preload "Roles").Where (Cond.emailEq email)).First s), none), s)

/-- The method `Update`: `Model(&User{}).Where("id = ?", id).Updates(updates)`
in the tenant scope. -/
def Update (tenantID : String) (id : UUID) (updates : Updates) (s : Store) :
    Option Error × Store :=
  (none, s.map (fun r =>
    if r.tenant == tenantID && r.user.ID == id then
      { r with user := updates.foldl applyUpdate r.user }
    else r))

/-- The method `Delete`: `Where("id = ?", id).Delete(&User{})` in the tenant
scope. -/
def Delete (tenantID : String) (id : UUID) (s : Store) : Option Error × Store :=
  (none, s.filter (fun r => !(r.tenant == tenantID && r.user.ID == id)))

/-- The method `applySorting`. -/
def applySorting (db : Query) (sort : String) : Query :=
  match sort with
  | "email:asc" => db.Order "email ASC"
  | "email:desc" => db.Order "email DESC"
  | "created_at:asc" => db.Order "created_at ASC"
  | "created_at:desc" => db.Order "created_at DESC"
  | "first_name:asc" => db.Order "first_name ASC"
  | "first_name:desc" => db.Order "first_name DESC"
  | "last_name:asc" => db.Order "last_name ASC"
  | "last_name:desc" => db.Order "last_name DESC"
  | _ => db.Order "created_at DESC"

/-- The slice `roleUUIDs` that `List` fills: an entry stays `uuid.Nil` when
its role ID does not parse. `parse` is `uuid.Parse`. -/
def roleUUIDs (parse : String → Option UUID) (roleIDs : List String) : List UUID :=
  roleIDs.map (fun roleID =>
    match parse roleID with
    | some parsed => parsed
    | none => 0)

/-- The statement of `List` after "Apply filters", on which the total is
counted. -/
def filterQuery (parse : String → Option UUID) (tenantID : String)
    (query : UserQueryRequest) : Query :=
  let queryBuilder := (WithTenant tenantID).Preload "Roles"
  let queryBuilder :=
    if query.Status ≠ "" then queryBuilder.Where (Cond.statusEq query.Status)
    else queryBuilder
  let queryBuilder :=
    if query.Search ≠ "" then
      queryBuilder.Where (Cond.searchILike ("%" ++ query.Search ++ "%")
        ("%" ++ query.Search ++ "%") ("%" ++ query.Search ++ "%"))
    else queryBuilder
  if query.RoleIDs.length > 0 then
    (queryBuilder.Joins userRolesJoin).Where (Cond.roleIDIn (roleUUIDs parse query.RoleIDs))
  else queryBuilder

/-- The statement of `List` after "Apply sorting" and "Apply pagination", on
which the users are fetched. -/
def findQuery (parse : String → Option UUID) (tenantID : String)
    (query : UserQueryRequest) : Query :=
  let queryBuilder := filterQuery parse tenantID query
  let queryBuilder :=
    if query.Sort_ ≠ "" then applySorting queryBuilder query.Sort_
    else queryBuilder.Order "created_at DESC"
  if query.Page > 0 ∧ query.Limit > 0 then
    (queryBuilder.Offset (wrapInt64 ((query.Page - 1) * query.Limit))).Limit query.Limit
  else queryBuilder

/-- The method `List`. -/
def List (parse : String → Option UUID) (tenantID : String) (query : UserQueryRequest)
    (s : Store) : (List User × Int × Option Error) × Store :=
  (((findQuery parse tenantID query).Find s, (filterQuery parse tenantID query).Count s, none), s)

end userRepository

/-- The repository of `NewUserRepository` over the in-memory store. -/
def newUserRepository (parse : String → Option UUID) : UserRepository Store :=
  { Create := userRepository.Create
    GetByID := userRepository.GetByID
    GetByEmail := userRepository.GetByEmail
    Update := userRepository.Update
    Delete := userRepository.Delete
    List := userRepository.List parse }

/-! ## Sample data -/

/-- The role of the user in the service tests. -/
def sampleRole : Role :=
  { ID := 7, CreatedAt := 1, UpdatedAt := 1, Name := "user",
    Permissions := [("users", ["read", "update_profile"])] }

/-- The user `defaultUser` of the service tests. -/
def sampleUser : User :=
  { ID := 42, CreatedAt := 1, UpdatedAt := 1, Email := "test.user@example.com",
    FirstName := "Test", LastName := "User", PasswordHash := "$2a$10$hash",
    Status := "active", Roles := [sampleRole] }

/-- A store holding `sampleUser` in tenant `default`. -/
def sampleStore : Store :=
  [{ tenant := "default", user := sampleUser }]

/-- A world around a store in which nothing has been called or logged yet. -/
def freshWorld (s : Store) : World Store :=
  { store := s, calls := [], logs := [] }

/-- A `uuid.Parse` that accepts non-empty decimal numerals only. -/
def sampleParse (s : String) : Option UUID :=
  if s.data.all Char.isDigit && !s.data.isEmpty then
    some (s.data.foldl (fun n c => 10 * n + (c.toNat - 48)) 0)
  else none

/-- The create request of the `UserExists` test. -/
def sampleCreate : CreateUserRequest :=
  { Email := "test.user@example.com", FirstName := "Test", LastName := "User",
    Password := "securepassword123", Status := "", RoleIDs := [] }

/-- A hash function in the manner of `bcrypt`: input longer than 72 bytes is
rejected (`bcrypt.ErrPasswordTooLong`), anything else is hashed. -/
def sampleHash (password : String) : Except Error String :=
  if 72 < password.utf8ByteSize then
    Except.error (Error.other "bcrypt: password length exceeds 72 bytes")
  else Except.ok ("$2a$10$" ++ password)

/-- Collaborators for the sample runs. -/
def sampleDeps : Deps :=
  { newUUID := 1001, generateFromPassword := sampleHash }

/-- A repository without state in the manner of the `gomock` repository of the
service tests: `List` returns the given users and total, lookups find
nothing, writes succeed. -/
def stubRepository (users : List User) (total : Int) : UserRepository Unit :=
  { Create := fun _ _ s => (none, s)
    GetByID := fun _ _ s => ((none, none), s)
    GetByEmail := fun _ _ s => ((none, none), s)
    Update := fun _ _ _ s => (none, s)
    Delete := fun _ _ s => (none, s)
    List := fun _ _ s => ((users, total, none), s) }

/-- A list query with the given page and limit and no filter or sort. -/
def pageQuery (page limit : Int) : UserQueryRequest :=
  { Page := page, Limit := limit, Status := "", Role := "", Sort_ := "", Search := "",
    RoleIDs := [] }

/-- A second user of tenant `default`, created later, with no role. -/
def sampleUserB : User :=
  { ID := 43, CreatedAt := 2, UpdatedAt := 2, Email := "alice@example.com",
    FirstName := "Alice", LastName := "Moreau", PasswordHash := "$2a$10$other",
    Status := "inactive", Roles := [] }

/-- A store with both sample users in tenant `default`. -/
def twoUserStore : Store :=
  [{ tenant := "default", user := sampleUserB }, { tenant := "default", user := sampleUser }]

/-- A list query without paging that only sets the sort key. -/
def sortQuery (sort : String) : UserQueryRequest :=
  { Page := 0, Limit := 0, Status := "", Role := "", Sort_ := sort, Search := "",
    RoleIDs := [] }

/-- A create request whose password is 80 bytes long. -/
def longPasswordCreate : CreateUserRequest :=
  { Email := "new.user@example.com", FirstName := "New", LastName := "User",
    Password := "aaaaaaaaaaaaaaaaaaaaaaaaaaaaaaaaaaaaaaaaaaaaaaaaaaaaaaaaaaaaaaaaaaaaaaaaaaaaaaaa",
    Status := "", RoleIDs := [] }

/-- A create request for an email that the sample store does not hold. -/
def freshCreate : CreateUserRequest :=
  { Email := "new.user@example.com", FirstName := "New", LastName := "User",
    Password := "securepassword123", Status := "", RoleIDs := [] }

/-- A list query without paging or sort that sets status and search text. -/
def searchQuery (status search : String) : UserQueryRequest :=
  { Page := 0, Limit := 0, Status := status, Role := "", Sort_ := "", Search := search,
    RoleIDs := [] }

/-- A user whose only role has the ID `uuid.Nil`. -/
def nilRoleUser : User :=
  { ID := 44, CreatedAt := 3, UpdatedAt := 3, Email := "carol@example.com",
    FirstName := "Carol", LastName := "Nguyen", PasswordHash := "$2a$10$third",
    Status := "active",
    Roles := [{ ID := 0, CreatedAt := 1, UpdatedAt := 1, Name := "guest", Permissions := [] }] }

/-- A list query without paging or sort that only sets the role-ID filter. -/
def roleQuery (roleIDs : List String) : UserQueryRequest :=
  { Page := 0, Limit := 0, Status := "", Role := "", Sort_ := "", Search := "",
    RoleIDs := roleIDs }

/-! ## The handlers (`internal/handlers/user.go`)

A handler is a function of what `gin` hands it (the bound request, the path
parameter, the context values set by the middleware) and of the service it
calls; it yields the reply written through the `utils` helpers of
`prism-common-libs`, the entries of its own logger, and the service state. -/

/-- The constant `http.StatusBadRequest`. -/
def StatusBadRequest : Nat := 400

/-- The constant `http.StatusUnauthorized`. -/
def StatusUnauthorized : Nat := 401

/-- The constant `http.StatusNotFound`. -/
def StatusNotFound : Nat := 404

/-- The constant `http.StatusConflict`. -/
def StatusConflict : Nat := 409

/-- The constant `http.StatusInternalServerError`. -/
def StatusInternalServerError : Nat := 500

/-- The interface `services.UserService` over a service state `τ`. -/
structure UserService (τ : Type) where
  CreateUser : String → CreateUserRequest → τ → Result UserResponse × τ
  GetUser : String → UUID → τ → Result UserResponse × τ
  GetUserByEmail : String → String → τ → Result UserResponse × τ
  UpdateUser : String → UUID → UpdateUserRequest → τ → Result UserResponse × τ
  DeleteUser : String → UUID → τ → Result Unit × τ
  ListUsers : String → UserQueryRequest → τ → Result UserListResponse × τ
  UpdateProfile : String → UUID → UpdateProfileRequest → τ → Result UserResponse × τ

/-- The service of `NewUserService` over a repository and its collaborators. -/
def NewUserService {σ : Type} (R : UserRepository σ) (d : Deps) : UserService (World σ) :=
  { CreateUser := userService.CreateUser R d
    GetUser := userService.GetUser R
    GetUserByEmail := userService.GetUserByEmail R
    UpdateUser := userService.UpdateUser R
    DeleteUser := userService.DeleteUser R
    ListUsers := userService.ListUsers R
    UpdateProfile := userService.UpdateProfile R }

/-- A value stored in the `gin` context by a middleware. -/
inductive CtxValue where
  | str (s : String)
  | uuid (id : UUID)
  | other
  deriving DecidableEq, Repr

/-- The parts of `*gin.Context` the handlers read: the path parameter `id`
and the context values `tenant_id` and `user_id` (absent is `none`). -/
structure Context where
  idParam : String
  tenant_id : Option CtxValue
  user_id : Option CtxValue
  deriving DecidableEq, Repr

/-- The data of a success reply. -/
inductive Payload where
  | user (u : UserResponse)
  | list (l : UserListResponse)
  | null
  deriving DecidableEq, Repr

/-- What a handler writes: `utils.SuccessResponse(c, message, data)`,
`utils.ErrorResponse(c, status, message, err)`,
`utils.ValidationErrorResponse(c, ...)`, or nothing because the service call
panicked. -/
inductive Reply where
  | success (message : String) (data : Payload)
  | error (status : Nat) (message : String) (err : Option Error)
  | validationError
  | panic
  deriving DecidableEq, Repr

/-- The HTTP status of an error reply. -/
def Reply.errorStatus : Reply → Option Nat
  | Reply.error status _ _ => some status
  | _ => none

namespace UserHandler

variable {τ : Type}

/-- The method `getTenantID`: the context value when it is a string, else
`"default"`. -/
def getTenantID (c : Context) : String :=
  match c.tenant_id with
  | some (CtxValue.str tid) => tid
  | _ => "default"

/-- The method `getUserID`: a string value that parses or a UUID value, else
`uuid.Nil`. `parse` is `uuid.Parse`. -/
def getUserID (parse : String → Option UUID) (c : Context) : UUID :=
  match c.user_id with
  | some (CtxValue.str v) =>
    match parse v with
    | some id => id
    | none => 0
  | some (CtxValue.uuid v) => v
  | _ => 0

/-- The handler `CreateUser`; `bound` is the request `ShouldBindJSON` yields,
`none` when it returns an error. -/
def CreateUser (svc : UserService τ) (c : Context) (bound : Option CreateUserRequest)
    (st : τ) : Reply × List LogEntry × τ :=
  match bound with
  | none => (Reply.validationError, [], st)
  | some req =>
    match svc.CreateUser (getTenantID c) req st with
    | (Result.err err, st1) =>
      if err = Error.ErrUserExists then
        (Reply.error StatusConflict "User already exists" (some err), [], st1)
      else
        (Reply.error StatusInternalServerError "Failed to create user" (some err),
          [LogEntry.mk Level.error "Error creating user: %v" err.message], st1)
    | (Result.ok user, st1) =>
      (Reply.success "User created successfully" (Payload.user user), [], st1)
    | (Result.panic, st1) => (Reply.panic, [], st1)

/-- The handler `GetUser`. -/
def GetUser (parse : String → Option UUID) (svc : UserService τ) (c : Context) (st : τ) :
    Reply × List LogEntry × τ :=
  match parse c.idParam with
  | none => (Reply.error StatusBadRequest "Invalid user ID" none, [], st)
  | some id =>
    match svc.GetUser (getTenantID c) id st with
    | (Result.err err, st1) =>
      if err = Error.ErrUserNotFound then
        (Reply.error StatusNotFound "User not found" (some err), [], st1)
      else
        (Reply.error StatusInternalServerError "Failed to fetch user" (some err),
          [LogEntry.mk Level.error "Error fetching user: %v" err.message], st1)
    | (Result.ok user, st1) =>
      (Reply.success "User retrieved successfully" (Payload.user user), [], st1)
    | (Result.panic, st1) => (Reply.panic, [], st1)

/-- The handler `UpdateUser`. -/
def UpdateUser (parse : String → Option UUID) (svc : UserService τ) (c : Context)
    (bound : Option UpdateUserRequest) (st : τ) : Reply × List LogEntry × τ :=
  match parse c.idParam with
  | none => (Reply.error StatusBadRequest "Invalid user ID" none, [], st)
  | some id =>
    match bound with
    | none => (Reply.validationError, [], st)
    | some req =>
      match svc.UpdateUser (getTenantID c) id req st with
      | (Result.err err, st1) =>
        if err = Error.ErrUserNotFound then
          (Reply.error StatusNotFound "User not found" (some err), [], st1)
        else
          (Reply.error StatusInternalServerError "Failed to update user" (some err),
            [LogEntry.mk Level.error "Error updating user: %v" err.message], st1)
      | (Result.ok user, st1) =>
        (Reply.success "User updated successfully" (Payload.user user), [], st1)
      | (Result.panic, st1) => (Reply.panic, [], st1)

/-- The handler `DeleteUser`. -/
def DeleteUser (parse : String → Option UUID) (svc : UserService τ) (c : Context) (st : τ) :
    Reply × List LogEntry × τ :=
  match parse c.idParam with
  | none => (Reply.error StatusBadRequest "Invalid user ID" none, [], st)
  | some id =>
    match svc.DeleteUser (getTenantID c) id st with
    | (Result.err err, st1) =>
      if err = Error.ErrUserNotFound then
        (Reply.error StatusNotFound "User not found" (some err), [], st1)
      else
        (Reply.error StatusInternalServerError "Failed to delete user" (some err),
          [LogEntry.mk Level.error "Error deleting user: %v" err.message], st1)
    | (Result.ok (), st1) => (Reply.success "User deleted successfully" Payload.null, [], st1)
    | (Result.panic, st1) => (Reply.panic, [], st1)

/-- The handler `ListUsers`; `bound` is the query `ShouldBindQuery` yields. -/
def ListUsers (svc : UserService τ) (c : Context) (bound : Option UserQueryRequest) (st : τ) :
    Reply × List LogEntry × τ :=
  match bound with
  | none => (Reply.validationError, [], st)
  | some query =>
    match svc.ListUsers (getTenantID c) query st with
    | (Result.err err, st1) =>
      (Reply.error StatusInternalServerError "Failed to list users" (some err),
        [LogEntry.mk Level.error "Error listing users: %v" err.message], st1)
    | (Result.ok users, st1) =>
      (Reply.success "Users retrieved successfully" (Payload.list users), [], st1)
    | (Result.panic, st1) => (Reply.panic, [], st1)

/-- The handler `GetProfile`. -/
def GetProfile (parse : String → Option UUID) (svc : UserService τ) (c : Context) (st : τ) :
    Reply × List LogEntry × τ :=
  if getUserID parse c = 0 then
    (Reply.error StatusUnauthorized "User not authenticated" none, [], st)
  else
    match svc.GetUser (getTenantID c) (getUserID parse c) st with
    | (Result.err err, st1) =>
      if err = Error.ErrUserNotFound then
        (Reply.error StatusNotFound "User not found" (some err), [], st1)
      else
        (Reply.error StatusInternalServerError "Failed to fetch profile" (some err),
          [LogEntry.mk Level.error "Error fetching user profile: %v" err.message], st1)
    | (Result.ok user, st1) =>
      (Reply.success "Profile retrieved successfully" (Payload.user user), [], st1)
    | (Result.panic, st1) => (Reply.panic, [], st1)

/-- The handler `UpdateProfile`. -/
def UpdateProfile (parse : String → Option UUID) (svc : UserService τ) (c : Context)
    (bound : Option UpdateProfileRequest) (st : τ) : Reply × List LogEntry × τ :=
  if getUserID parse c = 0 then
    (Reply.error StatusUnauthorized "User not authenticated" none, [], st)
  else
    match bound with
    | none => (Reply.validationError, [], st)
    | some req =>
      match svc.UpdateProfile (getTenantID c) (getUserID parse c) req st with
      | (Result.err err, st1) =>
        if err = Error.ErrUserNotFound then
          (Reply.error StatusNotFound "User not found" (some err), [], st1)
        else
          (Reply.error StatusInternalServerError "Failed to update profile" (some err),
            [LogEntry.mk Level.error "Error updating profile: %v" err.message], st1)
      | (Result.ok user, st1) =>
        (Reply.success "Profile updated successfully" (Payload.user user), [], st1)
      | (Result.panic, st1) => (Reply.panic, [], st1)

end UserHandler

/-- A repository without state in the manner of a `gomock` repository with
fixed returns for `GetByEmail`, `Create`, `GetByID`, `Update` and `Delete`. -/
def mockRepository (getByEmail : Option User × Option Error) (create : Option Error)
    (getByID : Option User × Option Error) (update delete : Option Error) :
    UserRepository Unit :=
  { Create := fun _ _ s => (create, s)
    GetByID := fun _ _ s => (getByID, s)
    GetByEmail := fun _ _ s => (getByEmail, s)
    Update := fun _ _ _ s => (update, s)
    Delete := fun _ _ s => (delete, s)
    List := fun _ _ s => (([], 0, none), s) }

/-- A repository whose row is gone after the first write, as under a
concurrent delete: `GetByID` finds `sampleUser` only while the state is
`true`, and `Create`, `Update` and `Delete` succeed and leave it `false`. -/
def vanishingRepository : UserRepository Bool :=
  { Create := fun _ _ _ => (none, false)
    GetByID := fun _ _ present => ((if present then some sampleUser else none, none), present)
    GetByEmail := fun _ _ present => ((none, none), present)
    Update := fun _ _ _ _ => (none, false)
    Delete := fun _ _ _ => (none, false)
    List := fun _ _ present => (([], 0, none), present) }

/-- An update request with no field set. -/
def emptyUpdate : UpdateUserRequest :=
  { FirstName := none, LastName := none, Status := none, RoleIDs := [] }

/-- A `gin` context with path parameter `42`, no tenant value, and the
authenticated user `42`. -/
def sampleContext : Context :=
  { idParam := "42", tenant_id := none, user_id := some (CtxValue.uuid 42) }

/-- Collaborators that draw another ID and another salt than `sampleDeps`. -/
def otherDeps : Deps :=
  { newUUID := 2002
    generateFromPassword := fun password => Except.ok ("$2a$10$othersalt" ++ password) }

/-- The request `freshCreate` with role IDs set. -/
def roleCreate : CreateUserRequest :=
  { freshCreate with RoleIDs := ["7", "not-a-uuid"] }

/-- An update request that sets first name and status, with role IDs set. -/
def roleUpdate : UpdateUserRequest :=
  { FirstName := some "Updated", LastName := none, Status := some "inactive",
    RoleIDs := ["7"] }

/-- A user of tenant `default` holding two roles, 7 and 8. -/
def twoRoleUser : User :=
  { ID := 50, CreatedAt := 4, UpdatedAt := 4, Email := "dave@example.com",
    FirstName := "Dave", LastName := "Okafor", PasswordHash := "$2a$10$fourth",
    Status := "active",
    Roles := [sampleRole,
      { ID := 8, CreatedAt := 1, UpdatedAt := 1, Name := "admin", Permissions := [] }] }

/-- A store holding `twoRoleUser` only. -/
def twoRoleStore : Store :=
  [{ tenant := "default", user := twoRoleUser }]

/-! ## Theorems -/

/-- C1: when `GetByEmail(tenant, req.Email)` returns a user and no error,
`CreateUser` returns no response and `ErrUserExists`, and the only repository
call it makes is that `GetByEmail` (so neither `Create` nor `GetByID`). -/
theorem createUser_existing_email_fails {σ : Type} (R : UserRepository σ) (d : Deps)
    (tenantID : String) (req : CreateUserRequest) (w : World σ) (u : User)
    (h : (R.GetByEmail tenantID req.Email w.store).1 = (some u, none)) :
    (userService.CreateUser R d tenantID req w).1 = Result.err Error.ErrUserExists ∧
    (userService.CreateUser R d tenantID req w).2.calls
      = w.calls ++ [RepoCall.GetByEmail tenantID req.Email] := by
  simp [userService.CreateUser, callGetByEmail, h, World.after]

/-- Witness of C1 on the sample store, where the requested email is taken. -/
theorem createUser_existing_email_fails_witness :
    ((newUserRepository sampleParse).GetByEmail "default" sampleCreate.Email
        (freshWorld sampleStore).store).1 = (some sampleUser, none) ∧
    (userService.CreateUser (newUserRepository sampleParse) sampleDeps "default" sampleCreate
        (freshWorld sampleStore)).1 = Result.err Error.ErrUserExists ∧
    (userService.CreateUser (newUserRepository sampleParse) sampleDeps "default" sampleCreate
        (freshWorld sampleStore)).2.calls
      = (freshWorld sampleStore).calls ++ [RepoCall.GetByEmail "default" sampleCreate.Email] :=
  ⟨by decide, createUser_existing_email_fails (newUserRepository sampleParse) sampleDeps
    "default" sampleCreate (freshWorld sampleStore) sampleUser (by decide)⟩

/-- C2: when `GetByID(tenant, id)` returns the not-found sentinel (nil record,
nil error), `GetUser`, `UpdateUser` and `DeleteUser` each fail with
`ErrUserNotFound` and no response, and each makes that `GetByID` call only (so
no `Update` and no `Delete`). -/
theorem notFound_sentinel_gives_ErrUserNotFound {σ : Type} (R : UserRepository σ)
    (tenantID : String) (id : UUID) (req : UpdateUserRequest) (w : World σ)
    (h : (R.GetByID tenantID id w.store).1 = (none, none)) :
    (userService.GetUser R tenantID id w).1 = Result.err Error.ErrUserNotFound ∧
    (userService.UpdateUser R tenantID id req w).1 = Result.err Error.ErrUserNotFound ∧
    (userService.DeleteUser R tenantID id w).1 = Result.err Error.ErrUserNotFound ∧
    (userService.UpdateUser R tenantID id req w).2.calls
      = w.calls ++ [RepoCall.GetByID tenantID id] ∧
    (userService.DeleteUser R tenantID id w).2.calls
      = w.calls ++ [RepoCall.GetByID tenantID id] := by
  simp [userService.GetUser, userService.UpdateUser, userService.DeleteUser, callGetByID, h,
    World.after]

/-- Witness of C2: ID 5 is absent from tenant `default` of the sample store. -/
theorem notFound_sentinel_gives_ErrUserNotFound_witness :
    ((newUserRepository sampleParse).GetByID "default" 5 (freshWorld sampleStore).store).1
      = (none, none) ∧
    (userService.GetUser (newUserRepository sampleParse) "default" 5
        (freshWorld sampleStore)).1 = Result.err Error.ErrUserNotFound ∧
    (userService.UpdateUser (newUserRepository sampleParse) "default" 5
        { FirstName := some "Updated", LastName := none, Status := none, RoleIDs := [] }
        (freshWorld sampleStore)).1 = Result.err Error.ErrUserNotFound ∧
    (userService.DeleteUser (newUserRepository sampleParse) "default" 5
        (freshWorld sampleStore)).1 = Result.err Error.ErrUserNotFound ∧
    (userService.UpdateUser (newUserRepository sampleParse) "default" 5
        { FirstName := some "Updated", LastName := none, Status := none, RoleIDs := [] }
        (freshWorld sampleStore)).2.calls
      = (freshWorld sampleStore).calls ++ [RepoCall.GetByID "default" 5] ∧
    (userService.DeleteUser (newUserRepository sampleParse) "default" 5
        (freshWorld sampleStore)).2.calls
      = (freshWorld sampleStore).calls ++ [RepoCall.GetByID "default" 5] :=
  ⟨by decide, notFound_sentinel_gives_ErrUserNotFound (newUserRepository sampleParse)
    "default" 5 { FirstName := some "Updated", LastName := none, Status := none, RoleIDs := [] }
    (freshWorld sampleStore) (by decide)⟩

/-- C3: for an existing user `u` returned by `GetByID`, `UpdateProfile` with
both `FirstName` and `LastName` nil succeeds, returns exactly
`ToUserResponse u`, and its only repository call is that first `GetByID` (no
`Update`, no second `GetByID`). -/
theorem updateProfile_no_fields_is_noop {σ : Type} (R : UserRepository σ)
    (tenantID : String) (userID : UUID) (req : UpdateProfileRequest) (w : World σ) (u : User)
    (h : (R.GetByID tenantID userID w.store).1 = (some u, none))
    (hFirst : req.FirstName = none) (hLast : req.LastName = none) :
    (userService.UpdateProfile R tenantID userID req w).1 = Result.ok (ToUserResponse u) ∧
    (userService.UpdateProfile R tenantID userID req w).2.calls
      = w.calls ++ [RepoCall.GetByID tenantID userID] := by
  simp [userService.UpdateProfile, userService.updateProfileUpdates, callGetByID, h, hFirst,
    hLast, World.after]

/-- Witness of C3: the `NoUpdates` test on the sample store. -/
theorem updateProfile_no_fields_is_noop_witness :
    ((newUserRepository sampleParse).GetByID "default" 42 (freshWorld sampleStore).store).1
      = (some sampleUser, none) ∧
    (userService.UpdateProfile (newUserRepository sampleParse) "default" 42
        { FirstName := none, LastName := none } (freshWorld sampleStore)).1
      = Result.ok (ToUserResponse sampleUser) ∧
    (userService.UpdateProfile (newUserRepository sampleParse) "default" 42
        { FirstName := none, LastName := none } (freshWorld sampleStore)).2.calls
      = (freshWorld sampleStore).calls ++ [RepoCall.GetByID "default" 42] :=
  ⟨by decide, updateProfile_no_fields_is_noop (newUserRepository sampleParse) "default" 42
    { FirstName := none, LastName := none } (freshWorld sampleStore) sampleUser (by decide)
    rfl rfl⟩

/-- C4: `ListUsers` makes exactly one repository call, `List`, with the query
it was given except that a page `<= 0` is replaced by 1 and a limit `<= 0` by
20 (a positive page or limit is passed as given), and a response echoes that
same page and limit; page 0 with limit 0 becomes page 1 with limit 20. -/
theorem listUsers_normalises_paging {σ : Type} (R : UserRepository σ) (tenantID : String)
    (query : UserQueryRequest) (w : World σ) :
    ∃ passed : UserQueryRequest,
      (userService.ListUsers R tenantID query w).2.calls
        = w.calls ++ [RepoCall.List tenantID passed] ∧
      (query.Page ≤ 0 → passed.Page = 1) ∧ (0 < query.Page → passed.Page = query.Page) ∧
      (query.Limit ≤ 0 → passed.Limit = 20) ∧ (0 < query.Limit → passed.Limit = query.Limit) ∧
      (query.Page = 0 ∧ query.Limit = 0 → passed.Page = 1 ∧ passed.Limit = 20) ∧
      passed.Status = query.Status ∧ passed.Role = query.Role ∧
      passed.Sort_ = query.Sort_ ∧ passed.Search = query.Search ∧
      passed.RoleIDs = query.RoleIDs ∧
      ∀ resp, (userService.ListUsers R tenantID query w).1 = Result.ok resp →
        resp.Page = passed.Page ∧ resp.Limit = passed.Limit := by
  refine ⟨userService.normalizeQuery query, ?_, ?_, ?_, ?_, ?_, ?_, rfl, rfl, rfl, rfl, rfl, ?_⟩
  · unfold userService.ListUsers
    split
    all_goals
      rename_i heq
      simp only [callList, Prod.mk.injEq] at heq
      obtain ⟨-, rfl⟩ := heq
      simp [World.after, World.Errorf]
  · intro h
    simp [userService.normalizeQuery, h]
  · intro h
    simp [userService.normalizeQuery, Int.not_le.mpr h]
  · intro h
    simp [userService.normalizeQuery, h]
  · intro h
    simp [userService.normalizeQuery, Int.not_le.mpr h]
  · rintro ⟨h1, h2⟩
    simp [userService.normalizeQuery, h1, h2]
  · intro resp
    unfold userService.ListUsers
    split
    · intro h
      cases h
    · intro h
      cases h
      exact ⟨rfl, rfl⟩

/-- Witness of C4: the `InvalidPage` shape (page 0, limit 0) on the sample
store passes page 1, limit 20 to `List` and echoes them. -/
theorem listUsers_normalises_paging_witness :
    (userService.ListUsers (newUserRepository sampleParse) "default"
        { Page := 0, Limit := 0, Status := "", Role := "", Sort_ := "", Search := "",
          RoleIDs := [] } (freshWorld sampleStore)).2.calls
      = [RepoCall.List "default"
          { Page := 1, Limit := 20, Status := "", Role := "", Sort_ := "", Search := "",
            RoleIDs := [] }] ∧
    ∃ resp, (userService.ListUsers (newUserRepository sampleParse) "default"
        { Page := 0, Limit := 0, Status := "", Role := "", Sort_ := "", Search := "",
          RoleIDs := [] } (freshWorld sampleStore)).1 = Result.ok resp ∧
      resp.Page = 1 ∧ resp.Limit = 20 := by
  obtain ⟨passed, hcalls, hp, -, hl, -, -, hs, hr, hso, hse, hri, hresp⟩ :=
    listUsers_normalises_paging (newUserRepository sampleParse) "default"
      { Page := 0, Limit := 0, Status := "", Role := "", Sort_ := "", Search := "",
        RoleIDs := [] } (freshWorld sampleStore)
  refine ⟨by decide, ?_⟩
  refine ⟨_, rfl, ?_⟩
  have := hresp _ rfl
  rw [hp (by decide), hl (by decide)] at this
  exact this

/-- C8: the shaped response does not depend on the password hash (two users
that differ only in `PasswordHash` shape to equal responses), and it copies
`ID`, `Email`, `FirstName`, `LastName`, `Status`, `Roles`, `CreatedAt` and
`UpdatedAt` unchanged from the record. -/
theorem toUserResponse_excludes_password_hash (u : User) (hash : String) :
    ToUserResponse { u with PasswordHash := hash } = ToUserResponse u ∧
    (ToUserResponse u).ID = u.ID ∧ (ToUserResponse u).Email = u.Email ∧
    (ToUserResponse u).FirstName = u.FirstName ∧ (ToUserResponse u).LastName = u.LastName ∧
    (ToUserResponse u).Status = u.Status ∧ (ToUserResponse u).Roles = u.Roles ∧
    (ToUserResponse u).CreatedAt = u.CreatedAt ∧ (ToUserResponse u).UpdatedAt = u.UpdatedAt :=
  ⟨rfl, rfl, rfl, rfl, rfl, rfl, rfl, rfl, rfl⟩

/-! ### Lemmas on the binary64 model -/

theorem ilog2_spec (fuel n : Nat) (hn : 0 < n) (hlt : n < 2 ^ fuel) :
    2 ^ ilog2 fuel n ≤ n ∧ n < 2 ^ (ilog2 fuel n + 1) := by
  induction fuel generalizing n with
  | zero => simp at hlt; omega
  | succ k ih =>
    unfold ilog2
    split
    · constructor
      · simpa using hn
      · simpa using ‹n < 2›
    · rename_i h2
      have hpos : 0 < n / 2 := Nat.div_pos (by omega) (by decide)
      have hlt2 : n / 2 < 2 ^ k := by
        rw [Nat.div_lt_iff_lt_mul (by decide)]
        rw [pow_succ] at hlt
        exact hlt
      obtain ⟨h1, h3⟩ := ih (n / 2) hpos hlt2
      rw [pow_succ, pow_succ]
      constructor <;> omega

theorem roundHalfEven_near (num den : Nat) (hden : 0 < den) :
    2 * (den * roundHalfEven num den) ≤ 2 * num + den ∧
    2 * num ≤ 2 * (den * roundHalfEven num den) + den := by
  have hdm := Nat.div_add_mod num den
  have hr := Nat.mod_lt num hden
  have hs : den * (num / den + 1) = den * (num / den) + den := by ring
  unfold roundHalfEven
  split_ifs <;> first | rw [hs]; omega | omega

theorem roundHalfEven_le (num den k : Nat) (hden : 0 < den) (h : num ≤ k * den) :
    roundHalfEven num den ≤ k := by
  by_contra hc
  have h1 := (roundHalfEven_near num den hden).1
  have h2 : den * (k + 1) ≤ den * roundHalfEven num den := Nat.mul_le_mul_left _ (by omega)
  have h3 : den * (k + 1) = k * den + den := by ring
  omega

theorem le_roundHalfEven (num den k : Nat) (hden : 0 < den) (h : k * den ≤ num) :
    k ≤ roundHalfEven num den := by
  by_contra hc
  have h1 := (roundHalfEven_near num den hden).2
  have h2 : den * (roundHalfEven num den + 1) ≤ den * k := Nat.mul_le_mul_left _ (by omega)
  have h3 : den * (roundHalfEven num den + 1) = den * roundHalfEven num den + den := by ring
  have h4 : den * k = k * den := by ring
  omega

theorem roundHalfEven_exact (k den : Nat) (hden : 0 < den) :
    roundHalfEven (k * den) den = k :=
  Nat.le_antisymm (roundHalfEven_le _ _ _ hden (Nat.le_refl _))
    (le_roundHalfEven _ _ _ hden (Nat.le_refl _))

/-- Rounding the quotient to a grid of step `2 ^ (-sh)` that is finer than
`2 / b` cannot move it across an integer: the ceiling is unchanged. -/
theorem ceil_roundHalfEven_scaled (a b sh : Nat) (ha : 0 < a) (hb : 0 < b)
    (hbs : b ≤ 2 ^ (sh + 1)) (hex : b = 2 ^ (sh + 1) → ∃ k, a * 2 ^ sh = k * b) :
    (roundHalfEven (a * 2 ^ sh) b + 2 ^ sh - 1) / 2 ^ sh = (a + b - 1) / b := by
  have hP : 0 < 2 ^ sh := Nat.two_pow_pos sh
  have hP2 : 2 ^ (sh + 1) = 2 * 2 ^ sh := by rw [pow_succ]; ring
  rw [hP2] at hbs hex
  generalize 2 ^ sh = P at hP hbs hex ⊢
  have hdm := Nat.div_add_mod (a + b - 1) b
  have hr := Nat.mod_lt (a + b - 1) hb
  generalize hn : (a + b - 1) / b = n at hdm ⊢
  generalize (a + b - 1) % b = r at hdm hr
  have hn1 : 1 ≤ n := by
    rcases n with _ | n
    · simp at hdm; omega
    · omega
  obtain ⟨n', rfl⟩ : ∃ n', n = n' + 1 := ⟨n - 1, by omega⟩
  have hbn : b * (n' + 1) = b * n' + b := by ring
  have hlo : b * n' + 1 ≤ a := by omega
  have hhi : a ≤ b * n' + b := by omega
  -- upper bound on the rounded mantissa
  have hup : roundHalfEven (a * P) b ≤ (n' + 1) * P := by
    apply roundHalfEven_le _ _ _ hb
    calc a * P ≤ (b * n' + b) * P := Nat.mul_le_mul_right _ hhi
      _ = (n' + 1) * P * b := by ring
  -- lower bound on the rounded mantissa
  have hloP : n' * P * b + P ≤ a * P := by
    calc n' * P * b + P = (b * n' + 1) * P := by ring
      _ ≤ a * P := Nat.mul_le_mul_right _ hlo
  have hdown : n' * P + 1 ≤ roundHalfEven (a * P) b := by
    rcases Nat.lt_or_ge b (2 * P) with hlt | hge
    · by_contra hc
      have h1 := (roundHalfEven_near (a * P) b hb).2
      have h2 : b * roundHalfEven (a * P) b ≤ b * (n' * P) := Nat.mul_le_mul_left _ (by omega)
      have h3 : b * (n' * P) = n' * P * b := by ring
      omega
    · obtain ⟨k, hk⟩ := hex (by omega)
      rw [hk, roundHalfEven_exact k b hb]
      have : n' * P * b < k * b := by omega
      have := Nat.lt_of_mul_lt_mul_right this
      omega
  have hnP : (n' + 1) * P = n' * P + P := by ring
  apply Nat.div_eq_of_lt_le
  · rw [hnP]; omega
  · have : (n' + 1 + 1) * P = n' * P + P + P := by ring
    show _ < (n' + 1 + 1) * P
    rw [this]; omega

theorem ilog2_le_of_le_pow (n k : Nat) (hn : 0 < n) (h65 : n < 2 ^ 65) (h : n ≤ 2 ^ k) :
    ilog2 65 n ≤ k := by
  by_contra hc
  have h1 := (ilog2_spec 65 n hn h65).1
  have h2 : 2 ^ (k + 1) ≤ 2 ^ ilog2 65 n := Nat.pow_le_pow_right (by decide) (by omega)
  rw [pow_succ] at h2
  have := Nat.two_pow_pos k
  omega

theorem floorLog2Ratio_le (a b : Nat) : floorLog2Ratio a b ≤ (ilog2 65 a : Int) := by
  unfold floorLog2Ratio
  split_ifs <;> omega

theorem floorLog2Ratio_spec (a b : Nat) (ha : 0 < a) (hb : 0 < b) (ha65 : a < 2 ^ 65)
    (hb65 : b < 2 ^ 65) :
    b * 2 ^ (floorLog2Ratio a b).toNat ≤ a * 2 ^ (-(floorLog2Ratio a b)).toNat := by
  have hA := ilog2_spec 65 a ha ha65
  have hB := ilog2_spec 65 b hb hb65
  unfold floorLog2Ratio
  generalize ilog2 65 a = la at hA ⊢
  generalize ilog2 65 b = lb at hB ⊢
  split_ifs with hc
  · have h1 : ((la : Int) - (lb : Int)).toNat = la - lb := by omega
    have h2 : (-((la : Int) - (lb : Int))).toNat = lb - la := by omega
    rw [h1, h2]
    exact hc
  · have h1 : ((la : Int) - (lb : Int) - 1).toNat = la - lb - 1 := by omega
    have h2 : (-((la : Int) - (lb : Int) - 1)).toNat = lb + 1 - la := by omega
    rw [h1, h2]
    rcases Nat.lt_or_ge lb la with hlt | hge
    · have h3 : lb + 1 - la = 0 := by omega
      rw [h3, pow_zero, Nat.mul_one]
      have h4 : 2 ^ la = 2 ^ (lb + 1) * 2 ^ (la - lb - 1) := by
        rw [← pow_add]; congr 1; omega
      have h5 : b * 2 ^ (la - lb - 1) ≤ 2 ^ (lb + 1) * 2 ^ (la - lb - 1) :=
        Nat.mul_le_mul_right _ (Nat.le_of_lt hB.2)
      omega
    · have h3 : la - lb - 1 = 0 := by omega
      rw [h3, pow_zero, Nat.mul_one]
      have h4 : 2 ^ (lb + 1) = 2 ^ la * 2 ^ (lb + 1 - la) := by
        rw [← pow_add]; congr 1; omega
      have h5 : 2 ^ la * 2 ^ (lb + 1 - la) ≤ a * 2 ^ (lb + 1 - la) :=
        Nat.mul_le_mul_right _ hA.1
      omega

theorem ceil_of_scaled_quotient (a b : Nat) (e : Int) (ha : 0 < a) (ha53 : a ≤ 2 ^ 53)
    (hb : 0 < b) (he : e ≤ 53) (hspec : b * 2 ^ e.toNat ≤ a * 2 ^ (-e).toNat) :
    F64.ceil { mant := roundHalfEven (a * 2 ^ (52 - e).toNat) (b * 2 ^ (e - 52).toNat)
               exp := e - 52 } = (a + b - 1) / b := by
  rcases Int.lt_or_le 52 e with h53 | h52
  · -- the quotient is exactly `2 ^ 53`
    have he53 : e = 53 := by omega
    subst he53
    have h1 : (53 : Int).toNat = 53 := rfl
    have h2 : (-(53 : Int)).toNat = 0 := rfl
    rw [h1, h2, pow_zero, Nat.mul_one] at hspec
    have hb1 : b = 1 := by
      by_contra hne
      have : 2 * 2 ^ 53 ≤ b * 2 ^ 53 := Nat.mul_le_mul_right _ (by omega)
      omega
    have ha1 : a = 2 ^ 53 := by omega
    subst hb1 ha1
    decide
  · obtain ⟨sh, rfl⟩ : ∃ sh : Nat, e = 52 - (sh : Int) := ⟨(52 - e).toNat, by omega⟩
    have h1 : (52 - (52 - (sh : Int))).toNat = sh := by omega
    have h2 : (52 - (sh : Int) - 52).toNat = 0 := by omega
    have hbs : b ≤ 2 ^ (sh + 1) ∧ (b = 2 ^ (sh + 1) → a = 2 ^ 53) := by
      rcases Nat.lt_or_ge 52 sh with hlt | hge
      · have h3 : (52 - (sh : Int)).toNat = 0 := by omega
        have h4 : (-(52 - (sh : Int))).toNat = sh - 52 := by omega
        rw [h3, h4, pow_zero, Nat.mul_one] at hspec
        have h5 : 2 ^ (sh + 1) = 2 ^ 53 * 2 ^ (sh - 52) := by
          rw [← pow_add]; congr 1; omega
        have h6 : a * 2 ^ (sh - 52) ≤ 2 ^ 53 * 2 ^ (sh - 52) := Nat.mul_le_mul_right _ ha53
        refine ⟨by omega, fun hb2 => ?_⟩
        have h7 : 2 ^ 53 * 2 ^ (sh - 52) ≤ a * 2 ^ (sh - 52) := by omega
        have := Nat.le_of_mul_le_mul_right h7 (Nat.two_pow_pos _)
        omega
      · have h3 : (52 - (sh : Int)).toNat = 52 - sh := by omega
        have h4 : (-(52 - (sh : Int))).toNat = 0 := by omega
        rw [h3, h4, pow_zero, Nat.mul_one] at hspec
        have h5 : 2 ^ 53 = 2 ^ (sh + 1) * 2 ^ (52 - sh) := by
          rw [← pow_add]; congr 1; omega
        have h6 : b * 2 ^ (52 - sh) ≤ 2 ^ (sh + 1) * 2 ^ (52 - sh) := by omega
        refine ⟨Nat.le_of_mul_le_mul_right h6 (Nat.two_pow_pos _), fun hb2 => ?_⟩
        rw [hb2] at hspec
        omega
    have hex : b = 2 ^ (sh + 1) → ∃ k, a * 2 ^ sh = k * b := by
      intro hb2
      refine ⟨2 ^ 52, ?_⟩
      rw [hbs.2 hb2, hb2, pow_succ]
      ring
    have hcore := ceil_roundHalfEven_scaled a b sh ha hb hbs.1 hex
    unfold F64.ceil
    simp only [h1, h2, pow_zero, Nat.mul_one]
    split_ifs with h0
    · have hsh : sh = 0 := by omega
      subst hsh
      simpa using hcore
    · have h3 : (-(52 - (sh : Int) - 52)).toNat = sh := by omega
      rw [h3]
      exact hcore

theorem F64_div_ceil (a b : Nat) (ha : 0 < a) (ha53 : a ≤ 2 ^ 53) (hb : 0 < b)
    (hb65 : b < 2 ^ 65) : (F64.div a b).ceil = (a + b - 1) / b := by
  have ha65 : a < 2 ^ 65 := Nat.lt_of_le_of_lt ha53 (by decide)
  have hle : floorLog2Ratio a b ≤ 53 :=
    Int.le_trans (floorLog2Ratio_le a b)
      (by exact_mod_cast ilog2_le_of_le_pow a 53 ha ha65 ha53)
  have hspec := floorLog2Ratio_spec a b ha hb ha65 hb65
  unfold F64.div
  rw [if_neg (by omega)]
  exact ceil_of_scaled_quotient a b _ ha ha53 hb hle hspec

theorem toFloat64_of_le (n : Nat) (h : n ≤ 2 ^ 53) : toFloat64 n = n := by
  rcases Nat.lt_or_ge n (2 ^ 53) with hlt | hge
  · unfold toFloat64
    rw [if_pos hlt]
  · have : n = 2 ^ 53 := Nat.le_antisymm h hge
    subst this
    decide

theorem toFloat64_large (n : Nat) (h53 : 2 ^ 53 ≤ n) (h64 : n < 2 ^ 64) :
    2 ^ 53 ≤ toFloat64 n ∧ toFloat64 n < 2 ^ 65 := by
  have hn : 0 < n := Nat.lt_of_lt_of_le (by decide) h53
  obtain ⟨hlo, hhi⟩ := ilog2_spec 64 n hn h64
  unfold toFloat64
  rw [if_neg (by omega)]
  generalize ilog2 64 n = l at hlo hhi ⊢
  have hl53 : 53 ≤ l := by
    by_contra hc
    have : 2 ^ (l + 1) ≤ 2 ^ 53 := Nat.pow_le_pow_right (by decide) (by omega)
    omega
  have hl63 : l ≤ 63 := by
    by_contra hc
    have : 2 ^ 64 ≤ 2 ^ l := Nat.pow_le_pow_right (by decide) (by omega)
    omega
  obtain ⟨k, rfl⟩ : ∃ k, l = k + 53 := ⟨l - 53, by omega⟩
  have hk : k + 53 - 52 = k + 1 := by omega
  rw [hk]
  have hK := Nat.two_pow_pos (k + 1)
  have e1 : 2 ^ (k + 53) = 2 ^ 52 * 2 ^ (k + 1) := by
    rw [show k + 53 = 52 + (k + 1) by omega, pow_add]
  have e2 : 2 ^ (k + 53 + 1) = 2 ^ 53 * 2 ^ (k + 1) := by
    rw [show k + 53 + 1 = 53 + (k + 1) by omega, pow_add]
  have e3 : 2 ^ (k + 53 + 1) ≤ 2 ^ 64 := Nat.pow_le_pow_right (by decide) (by omega)
  have e4 : 2 ^ 53 ≤ 2 ^ (k + 53) := Nat.pow_le_pow_right (by decide) (by omega)
  have hge := le_roundHalfEven n (2 ^ (k + 1)) (2 ^ 52) hK (by omega)
  have hle := roundHalfEven_le n (2 ^ (k + 1)) (2 ^ 53) hK (by omega)
  have h1 := Nat.mul_le_mul_right (2 ^ (k + 1)) hge
  have h2 := Nat.mul_le_mul_right (2 ^ (k + 1)) hle
  constructor <;> omega

/-- Below `2 ^ 53` the floating-point page count is the exact ceiling. -/
theorem totalPagesOf_eq_ceilDiv (total limit : Nat) (h53 : total ≤ 2 ^ 53) (hl : 0 < limit)
    (hl63 : limit < 2 ^ 63) :
    totalPagesOf (total : Int) (limit : Int) = (((total + limit - 1) / limit : Nat) : Int) := by
  have hdiv : (F64.div (toFloat64 total) (toFloat64 limit)).ceil = (total + limit - 1) / limit := by
    rw [toFloat64_of_le total h53]
    rcases Nat.eq_zero_or_pos total with h0 | hpos
    · subst h0
      have : (0 + limit - 1) / limit = 0 := Nat.div_eq_of_lt (by omega)
      rw [this]
      rfl
    · rcases Nat.lt_or_ge (2 ^ 53) limit with hb | hs
      rotate_left
      · rw [toFloat64_of_le limit hs]
        exact F64_div_ceil total limit hpos h53 hl (Nat.lt_of_le_of_lt hs (by decide))
      · obtain ⟨g1, g2⟩ := toFloat64_large limit (Nat.le_of_lt hb)
          (Nat.lt_trans hl63 (by decide))
        rw [F64_div_ceil total _ hpos h53 (Nat.lt_of_lt_of_le (by decide) g1) g2]
        have e1 : (total + limit - 1) / limit = 1 :=
          Nat.div_eq_of_lt_le (by omega) (by omega)
        have e2 : (total + toFloat64 limit - 1) / toFloat64 limit = 1 :=
          Nat.div_eq_of_lt_le (by omega) (by omega)
        rw [e1, e2]
  have hsmall : (total + limit - 1) / limit ≤ total := by
    rcases Nat.eq_zero_or_pos total with h0 | hpos
    · subst h0
      rw [Nat.div_eq_of_lt (by omega)]
    · apply Nat.div_le_of_le_mul
      have : limit * total = total + (limit - 1) * total := by
        obtain ⟨m, rfl⟩ : ∃ m, limit = m + 1 := ⟨limit - 1, by omega⟩
        simp only [Nat.add_sub_cancel]
        ring
      have : limit - 1 ≤ (limit - 1) * total := Nat.le_mul_of_pos_right _ hpos
      omega
  unfold totalPagesOf
  rw [if_pos (Int.natCast_nonneg total)]
  simp only [Int.toNat_ofNat]
  rw [hdiv]
  unfold floatToInt
  rw [if_pos]
  constructor
  · have : (0 : Int) ≤ (((total + limit - 1) / limit : Nat) : Int) := Int.natCast_nonneg _
    omega
  · have h1 : (((total + limit - 1) / limit : Nat) : Int) ≤ (total : Int) := by
      exact_mod_cast hsmall
    have h2 : (total : Int) ≤ 2 ^ 53 := by exact_mod_cast h53
    omega

theorem ceilDiv_spec (a l : Nat) (hl : 0 < l) :
    a ≤ (a + l - 1) / l * l ∧ ∀ m, a ≤ m * l → (a + l - 1) / l ≤ m := by
  constructor
  · have h1 := Nat.div_add_mod (a + l - 1) l
    have h2 := Nat.mod_lt (a + l - 1) hl
    rw [Nat.mul_comm]
    omega
  · intro m hm
    apply Nat.le_of_lt_succ
    rw [Nat.div_lt_iff_lt_mul hl]
    show a + l - 1 < (m + 1) * l
    have : (m + 1) * l = m * l + l := by ring
    omega

/-- C5 (amended): for every list query (with an `int` limit) and every total
between 0 and `2 ^ 53` returned by `List`, `ListUsers` answers with a
`TotalPages` equal to the ceiling of the total divided by the normalised
limit, that is the least integer `n` with `n * limit >= total`; the
normalised limit is positive, so the division is never by zero; total 47 with
limit 20 gives 3 and total 0 gives 0. -/
theorem listUsers_totalPages_ceiling {σ : Type} (R : UserRepository σ) (tenantID : String)
    (query : UserQueryRequest) (w : World σ) (users : List User) (total : Int)
    (hLimit : query.Limit < 2 ^ 63)
    (hList : (R.List tenantID (userService.normalizeQuery query) w.store).1
      = (users, total, none))
    (h0 : 0 ≤ total) (h53 : total ≤ 2 ^ 53) :
    ∃ resp, (userService.ListUsers R tenantID query w).1 = Result.ok resp ∧
      resp.Total = total ∧
      resp.Limit = (if query.Limit ≤ 0 then 20 else query.Limit) ∧ 0 < resp.Limit ∧
      total ≤ resp.TotalPages * resp.Limit ∧
      (∀ n : Int, total ≤ n * resp.Limit → resp.TotalPages ≤ n) ∧
      resp.TotalPages = ⌈(total : ℚ) / (resp.Limit : ℚ)⌉ ∧
      (total = 47 → resp.Limit = 20 → resp.TotalPages = 3) ∧
      (total = 0 → resp.TotalPages = 0) := by
  have hres : (userService.ListUsers R tenantID query w).1 = Result.ok
      { Users := users.map ToUserResponse
        Total := total
        Page := (userService.normalizeQuery query).Page
        Limit := (userService.normalizeQuery query).Limit
        TotalPages := totalPagesOf total (userService.normalizeQuery query).Limit } := by
    simp [userService.ListUsers, callList, hList]
  refine ⟨_, hres, rfl, rfl, ?_⟩
  have hLdef : (userService.normalizeQuery query).Limit
      = (if query.Limit ≤ 0 then 20 else query.Limit) := rfl
  simp only
  have hLpos : 0 < (userService.normalizeQuery query).Limit := by
    rw [hLdef]; split_ifs <;> omega
  have hL63 : (userService.normalizeQuery query).Limit < 2 ^ 63 := by
    rw [hLdef]; split_ifs <;> omega
  generalize (userService.normalizeQuery query).Limit = L at hLpos hL63 ⊢
  obtain ⟨a, rfl⟩ := Int.eq_ofNat_of_zero_le h0
  obtain ⟨l, rfl⟩ := Int.eq_ofNat_of_zero_le (Int.le_of_lt hLpos)
  have hl : 0 < l := by exact_mod_cast hLpos
  have hl63 : l < 2 ^ 63 := by exact_mod_cast hL63
  have ha53 : a ≤ 2 ^ 53 := by exact_mod_cast h53
  rw [totalPagesOf_eq_ceilDiv a l ha53 hl hl63]
  obtain ⟨hge, hleast⟩ := ceilDiv_spec a l hl
  have hgeI : (a : Int) ≤ (((a + l - 1) / l : Nat) : Int) * (l : Int) := by exact_mod_cast hge
  have hleastI : ∀ n : Int, (a : Int) ≤ n * (l : Int) → (((a + l - 1) / l : Nat) : Int) ≤ n := by
    intro n hn
    rcases Int.lt_or_le n 0 with hneg | hnn
    · have h1 : n * (l : Int) < 0 := Int.mul_neg_of_neg_of_pos hneg hLpos
      omega
    · obtain ⟨m, rfl⟩ := Int.eq_ofNat_of_zero_le hnn
      have : a ≤ m * l := by exact_mod_cast hn
      exact_mod_cast hleast m this
  refine ⟨hLpos, hgeI, hleastI, ?_, ?_, ?_⟩
  · symm
    rw [Int.ceil_eq_iff]
    have hlQ : (0 : ℚ) < ((l : Int) : ℚ) := by exact_mod_cast hl
    constructor
    · rw [lt_div_iff₀ hlQ]
      by_contra hc
      have hc2 : ((a : Int) : ℚ) ≤ (((((a + l - 1) / l : Nat) : Int) : ℚ) - 1) * ((l : Int) : ℚ) :=
        not_lt.mp hc
      have hc3 : (a : Int) ≤ ((((a + l - 1) / l : Nat) : Int) - 1) * (l : Int) := by
        exact_mod_cast hc2
      have := hleastI _ hc3
      omega
    · rw [div_le_iff₀ hlQ]
      exact_mod_cast hgeI
  · intro h47 h20
    have ha : a = 47 := by exact_mod_cast h47
    have hl2 : l = 20 := by exact_mod_cast h20
    subst ha hl2
    rfl
  · intro hz
    have ha : a = 0 := by exact_mod_cast hz
    subst ha
    have : (0 + l - 1) / l = 0 := Nat.div_eq_of_lt (by omega)
    rw [this]
    rfl

/-- Witness of C5: a repository reporting 47 users in total, listed with
limit 20, gives 3 pages. -/
theorem listUsers_totalPages_ceiling_witness :
    ∃ resp, (userService.ListUsers (stubRepository [] 47) "default" (pageQuery 1 20)
        { store := (), calls := [], logs := [] }).1 = Result.ok resp ∧
      resp.Total = 47 ∧ resp.Limit = 20 ∧ resp.TotalPages = 3 := by
  obtain ⟨resp, hok, ht, hl, -, -, -, -, h47, -⟩ :=
    listUsers_totalPages_ceiling (stubRepository [] 47) "default" (pageQuery 1 20)
      { store := (), calls := [], logs := [] } [] 47 (by decide) rfl (by decide) (by decide)
  exact ⟨resp, hok, ht, hl, h47 rfl hl⟩

/-- C5 as stated fails: a repository reporting `2 ^ 53 + 1` users, listed with
limit 1, gets `TotalPages = 2 ^ 53`, which is not the ceiling `2 ^ 53 + 1`
(`TotalPages * limit` is below the total), because `float64(total)` rounds. -/
theorem listUsers_totalPages_not_ceiling_above_2_53 :
    ∃ resp, (userService.ListUsers (stubRepository [] (2 ^ 53 + 1)) "default" (pageQuery 1 1)
        { store := (), calls := [], logs := [] }).1 = Result.ok resp ∧
      resp.Total = 2 ^ 53 + 1 ∧ resp.Limit = 1 ∧ resp.TotalPages = 2 ^ 53 ∧
      ¬ (resp.Total ≤ resp.TotalPages * resp.Limit) :=
  ⟨_, rfl, rfl, rfl, by decide, by decide⟩

/-! ### Sorting of `List` -/

theorem filterQuery_orders (parse : String → Option UUID) (tenantID : String)
    (query : UserQueryRequest) :
    (userRepository.filterQuery parse tenantID query).orders = [] := by
  unfold userRepository.filterQuery
  simp only [Query.Where, Query.Joins, Query.Preload, WithTenant]
  split_ifs <;> rfl

theorem applySorting_orders (db : Query) (sort : String) :
    (userRepository.applySorting db sort).orders = db.orders ++
      [if sort = "email:asc" then "email ASC"
        else if sort = "email:desc" then "email DESC"
        else if sort = "created_at:asc" then "created_at ASC"
        else if sort = "created_at:desc" then "created_at DESC"
        else if sort = "first_name:asc" then "first_name ASC"
        else if sort = "first_name:desc" then "first_name DESC"
        else if sort = "last_name:asc" then "last_name ASC"
        else if sort = "last_name:desc" then "last_name DESC"
        else "created_at DESC"] := by
  unfold userRepository.applySorting
  split <;> simp_all [Query.Order]

theorem findQuery_orders (parse : String → Option UUID) (tenantID : String)
    (query : UserQueryRequest) :
    (userRepository.findQuery parse tenantID query).orders =
      [if query.Sort_ = "email:asc" then "email ASC"
        else if query.Sort_ = "email:desc" then "email DESC"
        else if query.Sort_ = "created_at:asc" then "created_at ASC"
        else if query.Sort_ = "created_at:desc" then "created_at DESC"
        else if query.Sort_ = "first_name:asc" then "first_name ASC"
        else if query.Sort_ = "first_name:desc" then "first_name DESC"
        else if query.Sort_ = "last_name:asc" then "last_name ASC"
        else if query.Sort_ = "last_name:desc" then "last_name DESC"
        else "created_at DESC"] := by
  unfold userRepository.findQuery
  by_cases hs : query.Sort_ = ""
  · simp [hs, Query.Order, Query.Offset, Query.Limit, filterQuery_orders]
    split_ifs <;> simp [filterQuery_orders]
  · simp only [ne_eq, hs, not_false_eq_true, if_true]
    split_ifs <;>
      simp [Query.Offset, Query.Limit, applySorting_orders, filterQuery_orders, *]

theorem paged_sublist (q : Query) (l : List User) : (q.paged l).Sublist l := by
  unfold Query.paged
  cases q.offset <;> cases q.limit <;> simp only <;> try split_ifs
  all_goals
    first
    | exact List.Sublist.refl _
    | exact List.drop_sublist _ _
    | exact List.take_sublist _ _
    | exact (List.take_sublist _ _).trans (List.drop_sublist _ _)

theorem find_sorted (q : Query) (s : Store) (clause : String) (le : User → User → Bool)
    (horders : q.orders = [clause]) (hrel : Query.orderRel clause = some le)
    (htotal : ∀ a b, le a b = true ∨ le b a = true)
    (htrans : ∀ a b c, le a b = true → le b c = true → le a c = true)
    (hload : ∀ a b, le (q.loaded a) (q.loaded b) = le a b) :
    (q.Find s).Pairwise (fun a b => le a b = true) := by
  unfold Query.Find
  rw [List.pairwise_map]
  simp only [hload]
  have hsorted : (q.ordered (q.rows s)).Pairwise (fun a b => le a b = true) := by
    unfold Query.ordered
    rw [horders]
    simp only [List.foldr, Query.sortBy, hrel]
    haveI : IsTotal User (fun a b => le a b = true) := ⟨htotal⟩
    haveI : IsTrans User (fun a b => le a b = true) := ⟨htrans⟩
    exact List.sorted_insertionSort _ _
  exact List.Pairwise.sublist (paged_sublist q _) hsorted

theorem orderRel_allowed (clause : String)
    (h : clause ∈ ["email ASC", "email DESC", "created_at ASC", "created_at DESC",
      "first_name ASC", "first_name DESC", "last_name ASC", "last_name DESC"]) :
    ∃ le, Query.orderRel clause = some le ∧
      (∀ a b, le a b = true ∨ le b a = true) ∧
      (∀ a b c, le a b = true → le b c = true → le a c = true) ∧
      ∀ (q : Query) a b, le (q.loaded a) (q.loaded b) = le a b := by
  simp only [List.mem_cons, List.mem_singleton, List.mem_nil_iff, or_false] at h
  rcases h with rfl | rfl | rfl | rfl | rfl | rfl | rfl | rfl
  all_goals
    refine ⟨_, rfl, ?_, ?_, ?_⟩
    · intro a b
      simp only [decide_eq_true_eq]
      exact le_total _ _
    · intro a b c
      simp only [decide_eq_true_eq]
      intro h1 h2
      first | exact le_trans h1 h2 | exact le_trans h2 h1
    · intro q a b
      unfold Query.loaded
      split_ifs <;> rfl

/-- C9: for every sort string, `List` orders by exactly one clause, taken
from eight fixed clauses (so the sort string itself never reaches the
statement), and returns no error. Each of the eight strings `field:dir` gives
the clause on that field in that direction, every other string (the empty
one too) gives `created_at DESC`, and the returned users are sorted by the
clause; with `email:desc` they are in descending order of email. -/
theorem list_orders_by_one_allowed_clause (parse : String → Option UUID) (tenantID : String)
    (query : UserQueryRequest) (s : Store) :
    ((userRepository.List parse tenantID query s).1).2.2 = none ∧
    ∃ clause,
      (userRepository.findQuery parse tenantID query).orders = [clause] ∧
      clause ∈ ["email ASC", "email DESC", "created_at ASC", "created_at DESC",
        "first_name ASC", "first_name DESC", "last_name ASC", "last_name DESC"] ∧
      (query.Sort_ = "email:asc" → clause = "email ASC") ∧
      (query.Sort_ = "email:desc" → clause = "email DESC") ∧
      (query.Sort_ = "created_at:asc" → clause = "created_at ASC") ∧
      (query.Sort_ = "created_at:desc" → clause = "created_at DESC") ∧
      (query.Sort_ = "first_name:asc" → clause = "first_name ASC") ∧
      (query.Sort_ = "first_name:desc" → clause = "first_name DESC") ∧
      (query.Sort_ = "last_name:asc" → clause = "last_name ASC") ∧
      (query.Sort_ = "last_name:desc" → clause = "last_name DESC") ∧
      (query.Sort_ ∉ ["email:asc", "email:desc", "created_at:asc", "created_at:desc",
          "first_name:asc", "first_name:desc", "last_name:asc", "last_name:desc"] →
        clause = "created_at DESC") ∧
      (∃ le, Query.orderRel clause = some le ∧
        ((userRepository.List parse tenantID query s).1).1.Pairwise
          (fun a b => le a b = true)) ∧
      (query.Sort_ = "email:desc" →
        ((userRepository.List parse tenantID query s).1).1.Pairwise
          (fun a b => b.Email.data ≤ a.Email.data)) := by
  refine ⟨rfl, _, findQuery_orders parse tenantID query, ?_⟩
  have hmem : (if query.Sort_ = "email:asc" then "email ASC"
        else if query.Sort_ = "email:desc" then "email DESC"
        else if query.Sort_ = "created_at:asc" then "created_at ASC"
        else if query.Sort_ = "created_at:desc" then "created_at DESC"
        else if query.Sort_ = "first_name:asc" then "first_name ASC"
        else if query.Sort_ = "first_name:desc" then "first_name DESC"
        else if query.Sort_ = "last_name:asc" then "last_name ASC"
        else if query.Sort_ = "last_name:desc" then "last_name DESC"
        else "created_at DESC") ∈ ["email ASC", "email DESC", "created_at ASC",
          "created_at DESC", "first_name ASC", "first_name DESC", "last_name ASC",
          "last_name DESC"] := by
    split_ifs <;> simp
  have hsorted : ∀ clause, (userRepository.findQuery parse tenantID query).orders = [clause] →
      clause ∈ ["email ASC", "email DESC", "created_at ASC", "created_at DESC",
        "first_name ASC", "first_name DESC", "last_name ASC", "last_name DESC"] →
      ∃ le, Query.orderRel clause = some le ∧
        ((userRepository.List parse tenantID query s).1).1.Pairwise
          (fun a b => le a b = true) := by
    intro clause ho hm
    obtain ⟨le, hrel, htot, htr, hld⟩ := orderRel_allowed clause hm
    exact ⟨le, hrel, find_sorted _ s clause le ho hrel htot htr (hld _)⟩
  refine ⟨hmem, ?_, ?_, ?_, ?_, ?_, ?_, ?_, ?_, ?_,
    hsorted _ (findQuery_orders parse tenantID query) hmem, ?_⟩
  · intro h; simp [h]
  · intro h; simp [h]
  · intro h; simp [h]
  · intro h; simp [h]
  · intro h; simp [h]
  · intro h; simp [h]
  · intro h; simp [h]
  · intro h; simp [h]
  · intro h
    simp only [List.mem_cons, List.mem_singleton, List.mem_nil_iff, or_false, not_or] at h
    obtain ⟨h1, h2, h3, h4, h5, h6, h7, h8⟩ := h
    simp [h1, h2, h3, h4, h5, h6, h7, h8]
  · intro h
    have ho : (userRepository.findQuery parse tenantID query).orders = ["email DESC"] := by
      rw [findQuery_orders]; simp [h]
    obtain ⟨le, hrel, hp⟩ := hsorted "email DESC" ho (by simp)
    have hle : le = fun a b => decide (b.Email.data ≤ a.Email.data) := by
      have : Query.orderRel "email DESC"
          = some (fun a b => decide (b.Email.data ≤ a.Email.data)) := rfl
      rw [this] at hrel
      exact (Option.some.inj hrel).symm
    subst hle
    simpa using hp

/-- Witness of C9: sorting the two sample users by `email:desc` uses the
clause `email DESC` and returns `test.user@...` before `alice@...`. -/
theorem list_orders_by_one_allowed_clause_witness :
    (userRepository.findQuery sampleParse "default" (sortQuery "email:desc")).orders
      = ["email DESC"] ∧
    ((userRepository.List sampleParse "default" (sortQuery "email:desc") twoUserStore).1).1.map
      (fun u => u.Email) = ["test.user@example.com", "alice@example.com"] := by
  obtain ⟨-, clause, ho, -, -, hdesc, -⟩ :=
    list_orders_by_one_allowed_clause sampleParse "default" (sortQuery "email:desc") twoUserStore
  refine ⟨?_, by decide⟩
  rw [ho, hdesc rfl]

/-! ### The in-memory repository -/

theorem leastID_mem (l : List User) (v : User) (h : Query.leastID l = some v) : v ∈ l := by
  induction l generalizing v with
  | nil => simp [Query.leastID] at h
  | cons u us ih =>
    unfold Query.leastID at h
    split at h
    · rename_i w hw
      split_ifs at h
      · cases h
        exact List.mem_cons_of_mem _ (ih _ hw)
      · cases h
        exact List.mem_cons_self _ _
    · cases h
      exact List.mem_cons_self _ _

theorem leastID_cons_of_le (u : User) (us : List User) (h : ∀ v ∈ us, u.ID ≤ v.ID) :
    Query.leastID (u :: us) = some u := by
  unfold Query.leastID
  split
  · rename_i w hw
    have := h w (leastID_mem us w hw)
    rw [if_neg (Nat.not_lt.mpr this)]
  · rfl

theorem rows_no_join (q : Query) (s : Store) (hj : q.joins = []) :
    q.rows s = ((s.filter (fun r => r.tenant == q.tenantID)).map (fun r => r.user)).filter
      (fun u => q.wheres.all (fun c => c.eval (u, none))) := by
  unfold Query.rows Query.source
  rw [hj, if_neg (by simp)]
  simp [List.filter_map, Function.comp_def]

theorem getByEmail_store (tenantID email : String) (s : Store) :
    (userRepository.GetByEmail tenantID email s).2 = s := rfl

theorem getByID_store (tenantID : String) (id : UUID) (s : Store) :
    (userRepository.GetByID tenantID id s).2 = s := rfl

theorem getByEmail_of_free (tenantID email : String) (s : Store)
    (hfree : ∀ r ∈ s, r.tenant = tenantID → r.user.Email ≠ email) :
    (userRepository.GetByEmail tenantID email s).1 = (none, none) := by
  unfold userRepository.GetByEmail Query.First
  rw [rows_no_join _ _ rfl]
  have : ((s.filter (fun r => r.tenant == tenantID)).map (fun r => r.user)).filter
      (fun u => [Cond.emailEq email].all (fun c => c.eval (u, none))) = [] := by
    rw [List.filter_eq_nil_iff]
    intro u hu
    rw [List.mem_map] at hu
    obtain ⟨r, hr, rfl⟩ := hu
    rw [List.mem_filter] at hr
    simp [Cond.eval, hfree r hr.1 (by simpa using hr.2)]
  simp only [Query.Where, Query.Preload, WithTenant, List.nil_append] at this ⊢
  rw [this]
  rfl

theorem getByEmail_other_tenant (t1 t2 email : String) (u : User) (s : Store) (hne : t1 ≠ t2) :
    (userRepository.GetByEmail t2 email ({ tenant := t1, user := u } :: s)).1
      = (userRepository.GetByEmail t2 email s).1 := by
  unfold userRepository.GetByEmail Query.First
  rw [rows_no_join _ _ rfl, rows_no_join _ _ rfl]
  simp [Query.Where, Query.Preload, WithTenant, List.filter_cons, hne]

theorem getByID_after_create (tenantID : String) (u : User) (s : Store) :
    (userRepository.GetByID tenantID u.ID ({ tenant := tenantID, user := u } :: s)).1
      = (some u, none) := by
  unfold userRepository.GetByID Query.First
  rw [rows_no_join _ _ rfl]
  simp only [Query.Where, Query.Preload, WithTenant, List.nil_append, List.filter_cons,
    beq_self_eq_true, if_true, List.map_cons, List.all_cons, List.all_nil, Cond.eval,
    Bool.and_true]
  rw [leastID_cons_of_le]
  · simp [Query.loaded]
  · intro v hv
    rw [List.mem_filter] at hv
    have h2 : v.ID = u.ID := by simpa using hv.2
    exact Nat.le_of_eq h2.symm

/-- On the in-memory repository a `CreateUser` whose email lookup finds
nothing and whose password hashes stores the new record and returns it. -/
theorem createUser_memory_ok (parse : String → Option UUID) (d : Deps) (tenantID : String)
    (req : CreateUserRequest) (w : World Store) (hashed : String)
    (hget : (userRepository.GetByEmail tenantID req.Email w.store).1 = (none, none))
    (hhash : d.generateFromPassword req.Password = Except.ok hashed) :
    (userService.CreateUser (newUserRepository parse) d tenantID req w).1
      = Result.ok (ToUserResponse (userService.buildUser d req hashed)) ∧
    (userService.CreateUser (newUserRepository parse) d tenantID req w).2.store
      = { tenant := tenantID, user := userService.buildUser d req hashed } :: w.store := by
  have hid := getByID_after_create tenantID (userService.buildUser d req hashed) w.store
  simp only [userService.CreateUser, callGetByEmail, newUserRepository, hget, hhash, callCreate,
    userRepository.Create, callGetByID, World.after, getByEmail_store, getByID_store, hid,
    World.Infof, and_self]

/-- On the in-memory repository a `CreateUser` whose email lookup finds a
user fails with `ErrUserExists` and leaves the store as it was. -/
theorem createUser_memory_exists (parse : String → Option UUID) (d : Deps) (tenantID : String)
    (req : CreateUserRequest) (w : World Store) (u : User)
    (hget : (userRepository.GetByEmail tenantID req.Email w.store).1 = (some u, none)) :
    (userService.CreateUser (newUserRepository parse) d tenantID req w).1
      = Result.err Error.ErrUserExists ∧
    (userService.CreateUser (newUserRepository parse) d tenantID req w).2.store = w.store := by
  simp only [userService.CreateUser, callGetByEmail, newUserRepository, hget, World.after,
    getByEmail_store, and_self]

/-- On the in-memory repository a `CreateUser` whose password does not hash
fails with the error of the hash function and leaves the store as it was. -/
theorem createUser_memory_hash_error (parse : String → Option UUID) (d : Deps)
    (tenantID : String) (req : CreateUserRequest) (w : World Store) (e : Error)
    (hget : (userRepository.GetByEmail tenantID req.Email w.store).1 = (none, none))
    (hhash : d.generateFromPassword req.Password = Except.error e) :
    (userService.CreateUser (newUserRepository parse) d tenantID req w).1 = Result.err e ∧
    (userService.CreateUser (newUserRepository parse) d tenantID req w).2.store = w.store := by
  simp only [userService.CreateUser, callGetByEmail, newUserRepository, hget, hhash,
    World.after, World.Errorf, getByEmail_store, and_self]

/-- C6 (amended): over the in-memory store, for every tenant and every create
request whose email is not yet present in that tenant and whose password the
hash function accepts, `CreateUser` succeeds and a following
`GetUser(tenant, response.ID)` returns a record whose email, first name and
last name equal the request's and whose status is the request's status, or
`active` when the request left it empty. -/
theorem createUser_getUser_roundtrip (parse : String → Option UUID) (d : Deps)
    (tenantID : String) (req : CreateUserRequest) (w : World Store) (hashed : String)
    (hfree : ∀ r ∈ w.store, r.tenant = tenantID → r.user.Email ≠ req.Email)
    (hhash : d.generateFromPassword req.Password = Except.ok hashed) :
    ∃ created fetched,
      (userService.CreateUser (newUserRepository parse) d tenantID req w).1
        = Result.ok created ∧
      (userService.GetUser (newUserRepository parse) tenantID created.ID
        (userService.CreateUser (newUserRepository parse) d tenantID req w).2).1
        = Result.ok fetched ∧
      fetched.Email = req.Email ∧ fetched.FirstName = req.FirstName ∧
      fetched.LastName = req.LastName ∧
      fetched.Status = (if req.Status = "" then "active" else req.Status) := by
  obtain ⟨hres, hstore⟩ := createUser_memory_ok parse d tenantID req w hashed
    (getByEmail_of_free tenantID req.Email w.store hfree) hhash
  refine ⟨_, ToUserResponse (userService.buildUser d req hashed), hres, ?_, rfl, rfl, rfl, rfl⟩
  have hid := getByID_after_create tenantID (userService.buildUser d req hashed) w.store
  generalize (userService.CreateUser (newUserRepository parse) d tenantID req w).2 = w1
    at hstore ⊢
  have hID : (ToUserResponse (userService.buildUser d req hashed)).ID
      = (userService.buildUser d req hashed).ID := rfl
  simp only [userService.GetUser, callGetByID, newUserRepository, hstore, hID, hid]

/-- Witness of C6: creating `new.user@example.com` in tenant `default` of the
sample store and fetching it back. -/
theorem createUser_getUser_roundtrip_witness :
    ∃ created fetched,
      (userService.CreateUser (newUserRepository sampleParse) sampleDeps "default" freshCreate
        (freshWorld sampleStore)).1 = Result.ok created ∧
      (userService.GetUser (newUserRepository sampleParse) "default" created.ID
        (userService.CreateUser (newUserRepository sampleParse) sampleDeps "default" freshCreate
          (freshWorld sampleStore)).2).1 = Result.ok fetched ∧
      fetched.Email = "new.user@example.com" ∧ fetched.FirstName = "New" ∧
      fetched.LastName = "User" ∧ fetched.Status = "active" :=
  createUser_getUser_roundtrip sampleParse sampleDeps "default" freshCreate
    (freshWorld sampleStore) "$2a$10$securepassword123" (by decide) rfl

/-- C6 as stated fails: in an empty store the email is free, yet `CreateUser`
with an 80-byte password returns the error of the hash function (as `bcrypt`
gives for more than 72 bytes) and no response. -/
theorem createUser_fails_when_hash_rejects :
    (∀ r ∈ (freshWorld []).store, r.tenant = "default" →
      r.user.Email ≠ longPasswordCreate.Email) ∧
    (userService.CreateUser (newUserRepository sampleParse) sampleDeps "default"
      longPasswordCreate (freshWorld [])).1
      = Result.err (Error.other "bcrypt: password length exceeds 72 bytes") ∧
    (userService.CreateUser (newUserRepository sampleParse) sampleDeps "default"
      longPasswordCreate (freshWorld [])).2.store = [] :=
  ⟨by decide, by decide, by decide⟩

/-- Induction over the steps of `CreateUser`: a property of worlds that holds
at the start and is kept by every repository call for the given tenant and by
every log entry holds for the final world. -/
theorem createUser_world_induction {σ : Type} (R : UserRepository σ) (d : Deps)
    (tenantID : String) (req : CreateUserRequest) (w : World σ) (P : World σ → Prop)
    (h0 : P w)
    (hcall : ∀ (w1 : World σ) (c : RepoCall) (s : σ), P w1 → c.tenant = tenantID →
      P (w1.after c s))
    (hErr : ∀ (w1 : World σ) (f a : String), P w1 → P (w1.Errorf f a))
    (hInfo : ∀ (w1 : World σ) (f a : String), P w1 → P (w1.Infof f a)) :
    P (userService.CreateUser R d tenantID req w).2 := by
  unfold userService.CreateUser
  have h1 : P (callGetByEmail R tenantID req.Email w).2 := hcall _ _ _ h0 rfl
  generalize callGetByEmail R tenantID req.Email w = r1 at h1 ⊢
  obtain ⟨⟨x, e⟩, w1⟩ := r1
  cases e with
  | some err => cases x <;> exact hErr _ _ _ h1
  | none =>
    cases x with
    | some u => exact h1
    | none =>
      dsimp only
      cases d.generateFromPassword req.Password with
      | error err => exact hErr _ _ _ h1
      | ok hashed =>
        dsimp only
        have h2 : P (callCreate R tenantID (userService.buildUser d req hashed) w1).2 :=
          hcall _ _ _ h1 rfl
        generalize callCreate R tenantID (userService.buildUser d req hashed) w1 = r2 at h2 ⊢
        obtain ⟨e2, w2⟩ := r2
        cases e2 with
        | some err => exact hErr _ _ _ h2
        | none =>
          dsimp only
          have h3 : P (callGetByID R tenantID (userService.buildUser d req hashed).ID w2).2 :=
            hcall _ _ _ h2 rfl
          generalize callGetByID R tenantID (userService.buildUser d req hashed).ID w2 = r3
            at h3 ⊢
          obtain ⟨⟨x3, e3⟩, w3⟩ := r3
          cases e3 with
          | some err => cases x3 <;> exact hErr _ _ _ h3
          | none =>
            cases x3 with
            | some u => exact hInfo _ _ _ h3
            | none => exact h3

/-- Every repository call of `CreateUser` carries the tenant it was given. -/
theorem createUser_calls_tenant {σ : Type} (R : UserRepository σ) (d : Deps)
    (tenantID : String) (req : CreateUserRequest) (w : World σ) :
    ∃ newCalls, (userService.CreateUser R d tenantID req w).2.calls = w.calls ++ newCalls ∧
      ∀ c ∈ newCalls, c.tenant = tenantID := by
  apply createUser_world_induction R d tenantID req w
    (fun w1 => ∃ newCalls, w1.calls = w.calls ++ newCalls ∧ ∀ c ∈ newCalls, c.tenant = tenantID)
  · exact ⟨[], by simp, by simp⟩
  · rintro w1 c s ⟨nc, h1, h2⟩ hc
    refine ⟨nc ++ [c], by simp [World.after, h1], ?_⟩
    intro c1 hc1
    rw [List.mem_append, List.mem_singleton] at hc1
    rcases hc1 with h | rfl
    · exact h2 _ h
    · exact hc
  · rintro w1 f a ⟨nc, h1, h2⟩
    exact ⟨nc, h1, h2⟩
  · rintro w1 f a ⟨nc, h1, h2⟩
    exact ⟨nc, h1, h2⟩

theorem createUser_memory_store (parse : String → Option UUID) (d : Deps) (tenantID : String)
    (req : CreateUserRequest) (w : World Store) :
    (userService.CreateUser (newUserRepository parse) d tenantID req w).2.store = w.store ∨
    ∃ u, (userService.CreateUser (newUserRepository parse) d tenantID req w).2.store
      = { tenant := tenantID, user := u } :: w.store := by
  obtain ⟨x, hx⟩ : ∃ x, (userRepository.GetByEmail tenantID req.Email w.store).1 = (x, none) :=
    ⟨_, rfl⟩
  cases x with
  | some u => exact Or.inl (createUser_memory_exists parse d tenantID req w u hx).2
  | none =>
    cases hh : d.generateFromPassword req.Password with
    | error e => exact Or.inl (createUser_memory_hash_error parse d tenantID req w e hx hh).2
    | ok hashed => exact Or.inr ⟨_, (createUser_memory_ok parse d tenantID req w hashed hx hh).2⟩

/-- The outcome of `CreateUser` on the in-memory repository is decided by the
email lookup in its own tenant. -/
theorem createUser_memory_result_congr (parse : String → Option UUID) (d : Deps)
    (tenantID : String) (req : CreateUserRequest) (w w1 : World Store)
    (h : (userRepository.GetByEmail tenantID req.Email w1.store).1
      = (userRepository.GetByEmail tenantID req.Email w.store).1) :
    (userService.CreateUser (newUserRepository parse) d tenantID req w1).1
      = (userService.CreateUser (newUserRepository parse) d tenantID req w).1 := by
  obtain ⟨x, hx⟩ : ∃ x, (userRepository.GetByEmail tenantID req.Email w.store).1 = (x, none) :=
    ⟨_, rfl⟩
  have hx1 := h.trans hx
  cases x with
  | some u =>
    rw [(createUser_memory_exists parse d tenantID req w u hx).1,
      (createUser_memory_exists parse d tenantID req w1 u hx1).1]
  | none =>
    cases hh : d.generateFromPassword req.Password with
    | error e =>
      rw [(createUser_memory_hash_error parse d tenantID req w e hx hh).1,
        (createUser_memory_hash_error parse d tenantID req w1 e hx1 hh).1]
    | ok hashed =>
      rw [(createUser_memory_ok parse d tenantID req w hashed hx hh).1,
        (createUser_memory_ok parse d tenantID req w1 hashed hx1 hh).1]

/-- C7: over the in-memory store, whose rows are keyed by tenant, for tenants
`t1 != t2` and one email: the outcome of `CreateUser` in `t2` after a
`CreateUser` in `t1` is the outcome it has without it (so it never fails with
`ErrUserExists` because of the other); when the email is free in both tenants
and both passwords hash, both calls succeed; and every repository call of
each `CreateUser` carries exactly the tenant it was given. -/
theorem createUser_tenant_isolation (parse : String → Option UUID) (d1 d2 : Deps)
    (t1 t2 : String) (req1 req2 : CreateUserRequest) (w : World Store)
    (hne : t1 ≠ t2) (hemail : req1.Email = req2.Email) :
    (userService.CreateUser (newUserRepository parse) d2 t2 req2
        (userService.CreateUser (newUserRepository parse) d1 t1 req1 w).2).1
      = (userService.CreateUser (newUserRepository parse) d2 t2 req2 w).1 ∧
    ((∀ r ∈ w.store, r.tenant = t1 → r.user.Email ≠ req1.Email) →
      (∀ r ∈ w.store, r.tenant = t2 → r.user.Email ≠ req2.Email) →
      ∀ hashed1 hashed2, d1.generateFromPassword req1.Password = Except.ok hashed1 →
        d2.generateFromPassword req2.Password = Except.ok hashed2 →
        ∃ r1 r2,
          (userService.CreateUser (newUserRepository parse) d1 t1 req1 w).1 = Result.ok r1 ∧
          (userService.CreateUser (newUserRepository parse) d2 t2 req2
            (userService.CreateUser (newUserRepository parse) d1 t1 req1 w).2).1
            = Result.ok r2 ∧
          r1.Email = req1.Email ∧ r2.Email = req1.Email) ∧
    (∃ calls1, (userService.CreateUser (newUserRepository parse) d1 t1 req1 w).2.calls
        = w.calls ++ calls1 ∧ ∀ c ∈ calls1, c.tenant = t1) ∧
    (∃ calls2, (userService.CreateUser (newUserRepository parse) d2 t2 req2
          (userService.CreateUser (newUserRepository parse) d1 t1 req1 w).2).2.calls
        = (userService.CreateUser (newUserRepository parse) d1 t1 req1 w).2.calls ++ calls2 ∧
      ∀ c ∈ calls2, c.tenant = t2) := by
  have hlook : (userRepository.GetByEmail t2 req2.Email
      (userService.CreateUser (newUserRepository parse) d1 t1 req1 w).2.store).1
      = (userRepository.GetByEmail t2 req2.Email w.store).1 := by
    rcases createUser_memory_store parse d1 t1 req1 w with h | ⟨u, h⟩
    · rw [h]
    · rw [h]
      exact getByEmail_other_tenant t1 t2 req2.Email u w.store hne
  have hA := createUser_memory_result_congr parse d2 t2 req2 w _ hlook
  refine ⟨hA, ?_, createUser_calls_tenant _ d1 t1 req1 w, createUser_calls_tenant _ d2 t2 req2 _⟩
  intro hfree1 hfree2 hashed1 hashed2 hh1 hh2
  refine ⟨ToUserResponse (userService.buildUser d1 req1 hashed1),
    ToUserResponse (userService.buildUser d2 req2 hashed2),
    (createUser_memory_ok parse d1 t1 req1 w hashed1
      (getByEmail_of_free t1 req1.Email w.store hfree1) hh1).1, ?_, rfl, ?_⟩
  · rw [hA]
    exact (createUser_memory_ok parse d2 t2 req2 w hashed2
      (getByEmail_of_free t2 req2.Email w.store hfree2) hh2).1
  · exact hemail.symm

/-- Witness of C7: the same request in tenants `default` and `acme` of the
sample store; both calls succeed with the requested email. -/
theorem createUser_tenant_isolation_witness :
    "acme" ≠ "default" ∧ freshCreate.Email = freshCreate.Email ∧
    ∃ r1 r2,
      (userService.CreateUser (newUserRepository sampleParse) sampleDeps "acme" freshCreate
        (freshWorld sampleStore)).1 = Result.ok r1 ∧
      (userService.CreateUser (newUserRepository sampleParse) sampleDeps "default" freshCreate
        (userService.CreateUser (newUserRepository sampleParse) sampleDeps "acme" freshCreate
          (freshWorld sampleStore)).2).1 = Result.ok r2 ∧
      r1.Email = "new.user@example.com" ∧ r2.Email = "new.user@example.com" :=
  ⟨by decide, rfl,
    (createUser_tenant_isolation sampleParse sampleDeps sampleDeps "acme" "default" freshCreate
      freshCreate (freshWorld sampleStore) (by decide) rfl).2.1 (by decide) (by decide)
      "$2a$10$securepassword123" "$2a$10$securepassword123" rfl rfl⟩

/-! ### Filters of `List` -/

theorem toLower_ne_meta (c d : Char) (hd : d = '%' ∨ d = '_' ∨ d = '\\') (h : c ≠ d) :
    c.toLower ≠ d := by
  unfold Char.toLower
  simp only
  split_ifs with hr
  · generalize c.toNat = n at hr
    obtain ⟨h1, h2⟩ := hr
    interval_cases n <;> rcases hd with rfl | rfl | rfl <;> decide
  · exact h

theorem likeTokens_cons_literal (c : Char) (l : List Char) (h1 : c ≠ '%') (h2 : c ≠ '_')
    (h3 : c ≠ '\\') : likeTokens (c :: l) = LikeTok.lit c :: likeTokens l := by
  cases l <;> simp [likeTokens, h1, h2, h3]

theorem likeTokens_literal (l rest : List Char)
    (h : ∀ c ∈ l, c ≠ '%' ∧ c ≠ '_' ∧ c ≠ '\\') :
    likeTokens (l ++ '%' :: rest) = l.map LikeTok.lit ++ LikeTok.any :: likeTokens rest := by
  induction l with
  | nil => simp [likeTokens]
  | cons c cs ih =>
    obtain ⟨h1, h2, h3⟩ := h c (List.mem_cons_self _ _)
    have ih2 := ih (fun x hx => h x (List.mem_cons_of_mem _ hx))
    simp only [List.cons_append, List.map_cons]
    rw [likeTokens_cons_literal c _ h1 h2 h3, ih2]

theorem matchSomeSuffix_iff (f : List Char → Bool) (t : List Char) :
    matchSomeSuffix f t = true ↔ ∃ t1, t1 <:+ t ∧ f t1 = true := by
  induction t with
  | nil => simp [matchSomeSuffix]
  | cons c cs ih =>
    simp only [matchSomeSuffix, Bool.or_eq_true, ih, List.suffix_cons_iff]
    constructor
    · rintro (h | ⟨t1, h1, h2⟩)
      · exact ⟨c :: cs, Or.inl rfl, h⟩
      · exact ⟨t1, Or.inr h1, h2⟩
    · rintro ⟨t1, rfl | h1, h2⟩
      · exact Or.inl h2
      · exact Or.inr ⟨t1, h1, h2⟩

theorem likeMatch_any (t : List Char) : likeMatch [LikeTok.any] t = true := by
  simp only [likeMatch]
  rw [matchSomeSuffix_iff]
  exact ⟨[], List.nil_suffix, rfl⟩

theorem likeMatch_literal_any (l t : List Char) :
    likeMatch (l.map LikeTok.lit ++ [LikeTok.any]) t = true ↔ l <+: t := by
  induction l generalizing t with
  | nil => simp [likeMatch_any]
  | cons c cs ih =>
    cases t with
    | nil => simp [likeMatch]
    | cons d ds => simp [likeMatch, ih, List.cons_prefix_cons]

theorem likeMatch_any_cons (ps : List LikeTok) (t : List Char) :
    likeMatch (LikeTok.any :: ps) t = true ↔ ∃ t1, t1 <:+ t ∧ likeMatch ps t1 = true := by
  simp only [likeMatch]
  exact matchSomeSuffix_iff _ t

/-- For a search text without `LIKE` metacharacters, `ILIKE '%text%'` is
case-insensitive substring containment. -/
theorem pgILike_iff_substring (text search : String)
    (h : ∀ c ∈ search.data, c ≠ '%' ∧ c ≠ '_' ∧ c ≠ '\\') :
    pgILike text ("%" ++ search ++ "%") = true ↔ pgLower search <:+: pgLower text := by
  have hlow : ∀ c ∈ search.data.map Char.toLower, c ≠ '%' ∧ c ≠ '_' ∧ c ≠ '\\' := by
    intro c hc
    rw [List.mem_map] at hc
    obtain ⟨c0, hc0, rfl⟩ := hc
    obtain ⟨h1, h2, h3⟩ := h c0 hc0
    exact ⟨toLower_ne_meta c0 _ (Or.inl rfl) h1, toLower_ne_meta c0 _ (Or.inr (Or.inl rfl)) h2,
      toLower_ne_meta c0 _ (Or.inr (Or.inr rfl)) h3⟩
  have hpat : pgLower ("%" ++ search ++ "%")
      = '%' :: (search.data.map Char.toLower ++ '%' :: []) := by
    simp [pgLower, String.data_append]
  unfold pgILike
  rw [hpat]
  have htok : likeTokens ('%' :: (search.data.map Char.toLower ++ '%' :: []))
      = LikeTok.any :: ((search.data.map Char.toLower).map LikeTok.lit ++ [LikeTok.any]) := by
    have := likeTokens_literal (search.data.map Char.toLower) [] hlow
    rw [show likeTokens ('%' :: (search.data.map Char.toLower ++ '%' :: []))
      = LikeTok.any :: likeTokens (search.data.map Char.toLower ++ '%' :: []) from by
        simp [likeTokens]]
    rw [this]
    simp [likeTokens]
  rw [htok, likeMatch_any_cons, List.infix_iff_prefix_suffix]
  simp only [likeMatch_literal_any, pgLower]
  constructor
  · rintro ⟨t1, h1, h2⟩
    exact ⟨t1, h2, h1⟩
  · rintro ⟨t1, h1, h2⟩
    exact ⟨t1, h2, h1⟩

theorem filterQuery_shape (parse : String → Option UUID) (tenantID : String)
    (query : UserQueryRequest) :
    (userRepository.filterQuery parse tenantID query).tenantID = tenantID ∧
    (userRepository.filterQuery parse tenantID query).preloads = ["Roles"] ∧
    (userRepository.filterQuery parse tenantID query).joins
      = (if query.RoleIDs.length > 0 then [userRolesJoin] else []) ∧
    (userRepository.filterQuery parse tenantID query).wheres
      = (if query.Status ≠ "" then [Cond.statusEq query.Status] else []) ++
        (if query.Search ≠ "" then
          [Cond.searchILike ("%" ++ query.Search ++ "%") ("%" ++ query.Search ++ "%")
            ("%" ++ query.Search ++ "%")] else []) ++
        (if query.RoleIDs.length > 0 then
          [Cond.roleIDIn (userRepository.roleUUIDs parse query.RoleIDs)] else []) := by
  unfold userRepository.filterQuery
  simp only [Query.Where, Query.Joins, Query.Preload, WithTenant]
  split_ifs <;> simp

theorem findQuery_shape (parse : String → Option UUID) (tenantID : String)
    (query : UserQueryRequest) :
    (userRepository.findQuery parse tenantID query).tenantID
      = (userRepository.filterQuery parse tenantID query).tenantID ∧
    (userRepository.findQuery parse tenantID query).preloads
      = (userRepository.filterQuery parse tenantID query).preloads ∧
    (userRepository.findQuery parse tenantID query).joins
      = (userRepository.filterQuery parse tenantID query).joins ∧
    (userRepository.findQuery parse tenantID query).wheres
      = (userRepository.filterQuery parse tenantID query).wheres := by
  unfold userRepository.findQuery userRepository.applySorting
  simp only [Query.Order, Query.Offset, Query.Limit]
  split_ifs <;> (try split) <;> simp

theorem rows_congr (q1 q2 : Query) (s : Store) (ht : q1.tenantID = q2.tenantID)
    (hj : q1.joins = q2.joins) (hw : q1.wheres = q2.wheres) : q1.rows s = q2.rows s := by
  unfold Query.rows Query.source
  rw [ht, hj, hw]

theorem sortBy_perm (clause : String) (l : List User) : (Query.sortBy clause l).Perm l := by
  unfold Query.sortBy
  split
  · exact List.perm_insertionSort _ _
  · exact List.Perm.refl _

theorem ordered_perm (q : Query) (l : List User) : (q.ordered l).Perm l := by
  unfold Query.ordered
  induction q.orders with
  | nil => exact List.Perm.refl _
  | cons c cs ih => exact (sortBy_perm c _).trans ih

theorem mem_find (q : Query) (s : Store) (u : User) (h : u ∈ q.Find s) :
    ∃ u0 ∈ q.rows s, u = q.loaded u0 := by
  unfold Query.Find at h
  rw [List.mem_map] at h
  obtain ⟨u0, h0, rfl⟩ := h
  exact ⟨u0, (ordered_perm q _).subset ((paged_sublist q _).subset h0), rfl⟩

theorem mem_rows (q : Query) (s : Store) (u : User) (h : u ∈ q.rows s) :
    ∃ jr ∈ q.source s, jr.1 = u ∧ ∀ c ∈ q.wheres, c.eval jr = true := by
  unfold Query.rows at h
  rw [List.mem_map] at h
  obtain ⟨jr, hjr, rfl⟩ := h
  rw [List.mem_filter] at hjr
  exact ⟨jr, hjr.1, rfl, by simpa [List.all_eq_true] using hjr.2⟩

theorem mem_source_join (q : Query) (s : Store) (jr : JoinedRow) (hj : userRolesJoin ∈ q.joins)
    (h : jr ∈ q.source s) : ∃ role ∈ jr.1.Roles, jr.2 = some role.ID := by
  unfold Query.source at h
  rw [if_pos hj, List.mem_flatMap] at h
  obtain ⟨u, -, hu⟩ := h
  rw [List.mem_map] at hu
  obtain ⟨role, hrole, rfl⟩ := hu
  exact ⟨role, hrole, rfl⟩

theorem mem_roleUUIDs (parse : String → Option UUID) (roleIDs : List String) (id : UUID)
    (hall : ∀ rid ∈ roleIDs, (parse rid).isSome = true)
    (h : id ∈ userRepository.roleUUIDs parse roleIDs) : ∃ rid ∈ roleIDs, parse rid = some id := by
  unfold userRepository.roleUUIDs at h
  rw [List.mem_map] at h
  obtain ⟨rid, hrid, hid⟩ := h
  refine ⟨rid, hrid, ?_⟩
  have := hall rid hrid
  cases hp : parse rid with
  | none => rw [hp] at this; cases this
  | some v => rw [hp] at hid; rw [← hid]

/-- C10 as stated fails. The search text `_` is a `LIKE` wildcard, so `List`
returns the sample user although none of its first name, last name and email
contains `_` as a substring. And a role ID that does not parse stays
`uuid.Nil` in the `IN` list, so `List` returns a user holding a role with
that ID although no entry of the role-ID list names one of the user's roles. -/
theorem list_filters_wildcard_and_nil_role :
    (((userRepository.List sampleParse "default" (searchQuery "" "_") sampleStore).1).1
      = [sampleUser] ∧
    ¬ (pgLower "_" <:+: pgLower sampleUser.FirstName ∨
        pgLower "_" <:+: pgLower sampleUser.LastName ∨
        pgLower "_" <:+: pgLower sampleUser.Email)) ∧
    (((userRepository.List sampleParse "default" (roleQuery ["not-a-uuid"])
        [{ tenant := "default", user := nilRoleUser }]).1).1 = [nilRoleUser] ∧
    ¬ ∃ role ∈ nilRoleUser.Roles, ∃ rid ∈ ["not-a-uuid"], sampleParse rid = some role.ID) := by
  refine ⟨⟨?_, ?_⟩, ?_, ?_⟩
  · decide
  · decide
  · decide
  · decide

/-! ### Total and pagination of `List` -/

theorem filterQuery_congr (parse : String → Option UUID) (tenantID : String)
    (q1 q2 : UserQueryRequest) (hStatus : q1.Status = q2.Status) (hSearch : q1.Search = q2.Search)
    (hRoles : q1.RoleIDs = q2.RoleIDs) :
    userRepository.filterQuery parse tenantID q1 = userRepository.filterQuery parse tenantID q2 := by
  unfold userRepository.filterQuery
  rw [hStatus, hSearch, hRoles]

theorem findQuery_paging (parse : String → Option UUID) (tenantID : String)
    (query : UserQueryRequest) :
    (userRepository.findQuery parse tenantID query).offset
      = (if query.Page > 0 ∧ query.Limit > 0 then
          some (wrapInt64 ((query.Page - 1) * query.Limit)) else none) ∧
    (userRepository.findQuery parse tenantID query).limit
      = (if query.Page > 0 ∧ query.Limit > 0 then some query.Limit else none) := by
  have h0 : (userRepository.filterQuery parse tenantID query).offset = none ∧
      (userRepository.filterQuery parse tenantID query).limit = none := by
    unfold userRepository.filterQuery
    simp only [Query.Where, Query.Joins, Query.Preload, WithTenant]
    split_ifs <;> exact ⟨rfl, rfl⟩
  unfold userRepository.findQuery userRepository.applySorting
  simp only [Query.Order, Query.Offset, Query.Limit]
  split_ifs <;> (try split) <;> simp [h0.1, h0.2]

theorem findQuery_rows (parse : String → Option UUID) (tenantID : String)
    (query : UserQueryRequest) (s : Store) :
    (userRepository.findQuery parse tenantID query).rows s
      = (userRepository.filterQuery parse tenantID query).rows s := by
  obtain ⟨h1, -, h3, h4⟩ := findQuery_shape parse tenantID query
  exact rows_congr _ _ s h1 h3 h4

theorem findQuery_loaded (parse : String → Option UUID) (tenantID : String)
    (query : UserQueryRequest) (u : User) :
    (userRepository.findQuery parse tenantID query).loaded u = u := by
  unfold Query.loaded
  rw [(findQuery_shape parse tenantID query).2.1, (filterQuery_shape parse tenantID query).2.1,
    if_pos (by simp)]

/-- The users `List` returns: the filtered rows of the statement the total is
counted on, sorted, then sliced by offset and limit. -/
theorem list_users_eq (parse : String → Option UUID) (tenantID : String)
    (query : UserQueryRequest) (s : Store) :
    ((userRepository.List parse tenantID query s).1).1
      = (userRepository.findQuery parse tenantID query).paged
          ((userRepository.findQuery parse tenantID query).ordered
            ((userRepository.filterQuery parse tenantID query).rows s)) := by
  show (userRepository.findQuery parse tenantID query).Find s = _
  unfold Query.Find
  rw [findQuery_rows]
  have : (userRepository.findQuery parse tenantID query).loaded = id := by
    funext u
    exact findQuery_loaded parse tenantID query u
  rw [this, List.map_id]

theorem wheres_all_eq (parse : String → Option UUID) (tenantID : String)
    (query : UserQueryRequest) (jr : JoinedRow) :
    (userRepository.filterQuery parse tenantID query).wheres.all (fun c => c.eval jr)
      = ((decide (query.Status = "") || jr.1.Status == query.Status) &&
        (decide (query.Search = "") ||
          (pgILike jr.1.FirstName ("%" ++ query.Search ++ "%") ||
            pgILike jr.1.LastName ("%" ++ query.Search ++ "%") ||
            pgILike jr.1.Email ("%" ++ query.Search ++ "%"))) &&
        (query.RoleIDs.isEmpty ||
          jr.2.any (fun rid => (userRepository.roleUUIDs parse query.RoleIDs).contains rid))) := by
  rw [(filterQuery_shape parse tenantID query).2.2.2]
  obtain ⟨u, r⟩ := jr
  by_cases h1 : query.Status = "" <;> by_cases h2 : query.Search = "" <;>
    rcases query.RoleIDs with _ | ⟨a, l⟩ <;> cases r <;>
    simp [h1, h2, Cond.eval, List.all_append, Bool.and_assoc]

theorem roleUUIDs_contains (parse : String → Option UUID) (roleIDs : List String) (id : UUID) :
    (userRepository.roleUUIDs parse roleIDs).contains id
      = roleIDs.any (fun rid => (parse rid).getD 0 == id) := by
  unfold userRepository.roleUUIDs
  induction roleIDs with
  | nil => rfl
  | cons r rs ih =>
    simp only [List.map_cons, List.contains_cons, List.any_cons, ih]
    congr 1
    cases parse r <;> simp [Bool.beq_comm, eq_comm]

theorem length_filter_flatMap {α β : Type} (l : List α) (g : α → List β) (P : β → Bool) :
    ((l.flatMap g).filter P).length = (l.map (fun a => ((g a).filter P).length)).sum := by
  induction l with
  | nil => rfl
  | cons a as ih => simp [List.flatMap_cons, List.filter_append, ih]

theorem sum_map_ite_eq_sum_filter {α : Type} (l : List α) (c : α → Bool) (k : α → Nat) :
    (l.map (fun a => if c a then k a else 0)).sum = ((l.filter c).map k).sum := by
  induction l with
  | nil => rfl
  | cons a as ih =>
    by_cases h : c a = true <;> simp [List.filter_cons, h, ih]

theorem sum_map_le_one {α : Type} (l : List α) (k : α → Nat) (h : ∀ a ∈ l, k a ≤ 1) :
    (l.map k).sum = (l.filter (fun a => decide (0 < k a))).length := by
  induction l with
  | nil => rfl
  | cons a as ih =>
    have h1 := h a (List.mem_cons_self _ _)
    have ih2 := ih (fun x hx => h x (List.mem_cons_of_mem _ hx))
    by_cases h0 : 0 < k a
    · have : k a = 1 := by omega
      simp [List.filter_cons, h0, ih2, this]
      omega
    · have : k a = 0 := by omega
      simp [List.filter_cons, ih2, this]

theorem filterQuery_source (parse : String → Option UUID) (tenantID : String)
    (query : UserQueryRequest) (s : Store) :
    (userRepository.filterQuery parse tenantID query).source s
      = if query.RoleIDs = [] then
          ((s.filter (fun r => r.tenant == tenantID)).map (fun r => r.user)).map
            (fun u => (u, none))
        else
          ((s.filter (fun r => r.tenant == tenantID)).map (fun r => r.user)).flatMap
            (fun u => u.Roles.map (fun role => (u, some role.ID))) := by
  obtain ⟨hT, -, hJ, -⟩ := filterQuery_shape parse tenantID query
  unfold Query.source
  rw [hT, hJ]
  rcases hq : query.RoleIDs with _ | ⟨a, l⟩
  · simp
  · simp

/-- The rows the total of `List` is counted on, as users of the tenant: each
user passing the status and search conditions counts once without a role
filter, and once per role it holds among the requested ones with a role
filter. -/
theorem filterQuery_rows_length (parse : String → Option UUID) (tenantID : String)
    (query : UserQueryRequest) (s : Store) :
    ((userRepository.filterQuery parse tenantID query).rows s).length
      = if query.RoleIDs = [] then
          (((s.filter (fun r => r.tenant == tenantID)).map (fun r => r.user)).filter (fun u =>
            (decide (query.Status = "") || u.Status == query.Status) &&
            (decide (query.Search = "") ||
              (pgILike u.FirstName ("%" ++ query.Search ++ "%") ||
                pgILike u.LastName ("%" ++ query.Search ++ "%") ||
                pgILike u.Email ("%" ++ query.Search ++ "%"))))).length
        else
          ((((s.filter (fun r => r.tenant == tenantID)).map (fun r => r.user)).filter (fun u =>
            (decide (query.Status = "") || u.Status == query.Status) &&
            (decide (query.Search = "") ||
              (pgILike u.FirstName ("%" ++ query.Search ++ "%") ||
                pgILike u.LastName ("%" ++ query.Search ++ "%") ||
                pgILike u.Email ("%" ++ query.Search ++ "%"))))).map (fun u =>
            (u.Roles.filter (fun role =>
              query.RoleIDs.any (fun rid => (parse rid).getD 0 == role.ID))).length)).sum := by
  unfold Query.rows
  rw [List.length_map, filterQuery_source]
  have hP : ∀ jr : JoinedRow,
      (userRepository.filterQuery parse tenantID query).wheres.all (fun c => c.eval jr)
        = ((decide (query.Status = "") || jr.1.Status == query.Status) &&
          (decide (query.Search = "") ||
            (pgILike jr.1.FirstName ("%" ++ query.Search ++ "%") ||
              pgILike jr.1.LastName ("%" ++ query.Search ++ "%") ||
              pgILike jr.1.Email ("%" ++ query.Search ++ "%"))) &&
          (query.RoleIDs.isEmpty ||
            jr.2.any (fun id => query.RoleIDs.any (fun rid => (parse rid).getD 0 == id)))) := by
    intro jr
    rw [wheres_all_eq]
    congr 2
    cases jr.2 with
    | none => rfl
    | some id => simp only [Option.any_some, roleUUIDs_contains]
  simp only [hP]
  by_cases hr : query.RoleIDs = []
  · rw [if_pos hr, if_pos hr, List.filter_map, List.length_map]
    congr 1
    apply List.filter_congr
    intro u _
    simp [hr]
  · rw [if_neg hr, if_neg hr, length_filter_flatMap, ← sum_map_ite_eq_sum_filter]
    congr 1
    apply List.map_congr_left
    intro u _
    have he : query.RoleIDs.isEmpty = false := by
      cases hq : query.RoleIDs with
      | nil => exact absurd hq hr
      | cons a l => rfl
    rw [List.filter_map, List.length_map]
    simp only [Function.comp_def, he, Bool.false_or, Option.any_some]
    by_cases hc : ((decide (query.Status = "") || u.Status == query.Status) &&
        (decide (query.Search = "") ||
          (pgILike u.FirstName ("%" ++ query.Search ++ "%") ||
            pgILike u.LastName ("%" ++ query.Search ++ "%") ||
            pgILike u.Email ("%" ++ query.Search ++ "%")))) = true
    · rw [hc]
      simp
    · rw [Bool.not_eq_true] at hc
      rw [hc]
      simp

/-- Which users are among the rows the total of `List` is counted on. -/
theorem mem_filterQuery_rows (parse : String → Option UUID) (tenantID : String)
    (query : UserQueryRequest) (s : Store) (u : User) :
    u ∈ (userRepository.filterQuery parse tenantID query).rows s ↔
      (∃ r ∈ s, r.tenant = tenantID ∧ r.user = u) ∧
      (query.Status ≠ "" → u.Status = query.Status) ∧
      (query.Search ≠ "" →
        pgILike u.FirstName ("%" ++ query.Search ++ "%") = true ∨
        pgILike u.LastName ("%" ++ query.Search ++ "%") = true ∨
        pgILike u.Email ("%" ++ query.Search ++ "%") = true) ∧
      (query.RoleIDs ≠ [] →
        ∃ role ∈ u.Roles, ∃ rid ∈ query.RoleIDs, (parse rid).getD 0 = role.ID) := by
  unfold Query.rows
  rw [filterQuery_source]
  by_cases hr : query.RoleIDs = []
  · rw [if_pos hr]
    simp only [List.mem_map, List.mem_filter, wheres_all_eq, roleUUIDs_contains]
    constructor
    · rintro ⟨jr, ⟨⟨u0, ⟨r, ⟨hr1, hr2⟩, rfl⟩, rfl⟩, hc⟩, rfl⟩
      refine ⟨⟨r, hr1, by simpa using hr2, rfl⟩, ?_⟩
      simp only [Bool.and_eq_true, Bool.or_eq_true, decide_eq_true_eq, beq_iff_eq] at hc
      refine ⟨fun h => ?_, fun h => ?_, fun h => absurd hr h⟩
      · exact hc.1.1.resolve_left h
      · simpa [or_assoc] using hc.1.2.resolve_left h
    · rintro ⟨⟨r, hr1, hr2, rfl⟩, h1, h2, -⟩
      refine ⟨(r.user, none),
        ⟨⟨r.user, ⟨r, ⟨hr1, by simpa using hr2⟩, rfl⟩, rfl⟩, ?_⟩, rfl⟩
      simp only [Bool.and_eq_true, Bool.or_eq_true, decide_eq_true_eq, beq_iff_eq]
      refine ⟨⟨?_, ?_⟩, by simp [hr]⟩
      · by_cases h : query.Status = ""
        · exact Or.inl h
        · exact Or.inr (h1 h)
      · by_cases h : query.Search = ""
        · exact Or.inl h
        · exact Or.inr (by simpa [or_assoc] using h2 h)
  · have he : query.RoleIDs.isEmpty = false := by
      cases hq : query.RoleIDs with
      | nil => exact absurd hq hr
      | cons a l => rfl
    rw [if_neg hr]
    simp only [List.mem_flatMap, List.mem_map, List.mem_filter, wheres_all_eq,
      roleUUIDs_contains, he]
    constructor
    · rintro ⟨jr, ⟨⟨u0, ⟨r, ⟨hr1, hr2⟩, rfl⟩, role, hrole, rfl⟩, hc⟩, rfl⟩
      refine ⟨⟨r, hr1, by simpa using hr2, rfl⟩, ?_⟩
      simp only [Bool.and_eq_true, Bool.or_eq_true, decide_eq_true_eq, beq_iff_eq,
        Bool.false_or, Option.any_some, List.any_eq_true] at hc
      refine ⟨fun h => ?_, fun h => ?_, fun _ => ?_⟩
      · exact hc.1.1.resolve_left h
      · simpa [or_assoc] using hc.1.2.resolve_left h
      · obtain ⟨rid, hrid, hid⟩ := hc.2
        exact ⟨role, hrole, rid, hrid, hid⟩
    · rintro ⟨⟨r, hr1, hr2, rfl⟩, h1, h2, h3⟩
      obtain ⟨role, hrole, rid, hrid, hid⟩ := h3 hr
      refine ⟨(r.user, some role.ID),
        ⟨⟨r.user, ⟨r, ⟨hr1, by simpa using hr2⟩, rfl⟩, role, hrole, rfl⟩, ?_⟩, rfl⟩
      simp only [Bool.and_eq_true, Bool.or_eq_true, decide_eq_true_eq, beq_iff_eq,
        Bool.false_or, Option.any_some, List.any_eq_true]
      refine ⟨⟨?_, ?_⟩, rid, hrid, hid⟩
      · by_cases h : query.Status = ""
        · exact Or.inl h
        · exact Or.inr (h1 h)
      · by_cases h : query.Search = ""
        · exact Or.inl h
        · exact Or.inr (by simpa [or_assoc] using h2 h)

theorem list_total_eq (parse : String → Option UUID) (tenantID : String)
    (query : UserQueryRequest) (s : Store) :
    ((userRepository.List parse tenantID query s).1).2.1
      = (((userRepository.filterQuery parse tenantID query).rows s).length : Int) := rfl

theorem list_unpaged_users (parse : String → Option UUID) (tenantID : String)
    (query : UserQueryRequest) (s : Store) (hp : ¬ (0 < query.Page ∧ 0 < query.Limit)) :
    ((userRepository.List parse tenantID query s).1).1
      = (userRepository.findQuery parse tenantID query).ordered
          ((userRepository.filterQuery parse tenantID query).rows s) := by
  rw [list_users_eq]
  obtain ⟨ho, hl⟩ := findQuery_paging parse tenantID query
  rw [if_neg hp] at ho hl
  unfold Query.paged
  rw [ho, hl]

theorem list_length_le_total (parse : String → Option UUID) (tenantID : String)
    (query : UserQueryRequest) (s : Store) :
    (((userRepository.List parse tenantID query s).1).1.length : Int)
      ≤ ((userRepository.List parse tenantID query s).1).2.1 := by
  rw [list_total_eq, list_users_eq]
  have h1 := (paged_sublist (userRepository.findQuery parse tenantID query)
    ((userRepository.findQuery parse tenantID query).ordered
      ((userRepository.filterQuery parse tenantID query).rows s))).length_le
  rw [(ordered_perm _ _).length_eq] at h1
  exact_mod_cast h1

theorem list_unpaged_length (parse : String → Option UUID) (tenantID : String)
    (query : UserQueryRequest) (s : Store) (hp : ¬ (0 < query.Page ∧ 0 < query.Limit)) :
    (((userRepository.List parse tenantID query s).1).1.length : Int)
      = ((userRepository.List parse tenantID query s).1).2.1 := by
  rw [list_total_eq, list_unpaged_users parse tenantID query s hp,
    (ordered_perm _ _).length_eq]

theorem mem_list_users (parse : String → Option UUID) (tenantID : String)
    (query : UserQueryRequest) (s : Store) (u : User)
    (h : u ∈ ((userRepository.List parse tenantID query s).1).1) :
    u ∈ (userRepository.filterQuery parse tenantID query).rows s := by
  rw [list_users_eq] at h
  exact (ordered_perm _ _).subset ((paged_sublist _ _).subset h)

theorem mem_list_unpaged_users (parse : String → Option UUID) (tenantID : String)
    (query : UserQueryRequest) (s : Store) (u : User)
    (hp : ¬ (0 < query.Page ∧ 0 < query.Limit)) :
    u ∈ ((userRepository.List parse tenantID query s).1).1
      ↔ u ∈ (userRepository.filterQuery parse tenantID query).rows s := by
  rw [list_unpaged_users parse tenantID query s hp]
  exact (ordered_perm _ _).mem_iff

theorem getD_of_all_parse (parse : String → Option UUID) (roleIDs : List String) (id : UUID)
    (hall : ∀ rid ∈ roleIDs, (parse rid).isSome = true) (rid : String)
    (hrid : rid ∈ roleIDs) :
    (parse rid).getD 0 = id ↔ parse rid = some id := by
  have := hall rid hrid
  cases hp : parse rid with
  | none => rw [hp] at this; cases this
  | some v => simp

/-! ### Which users `List` selects and counts -/

/-- C10 (amended): filters of `List` are conjunctive, and nothing else is.
Every returned user is a user of the tenant that satisfies every supplied
filter at once: status equal to `query.Status` when it is non-empty, AND first
name, last name or email matching the pattern `%Search%` under `ILIKE` when
`Search` is non-empty (which is containing `Search` as a case-insensitive
substring when `Search` has none of the pattern characters `%`, `_` and
backslash), AND holding a role whose ID is that of an entry of the role-ID
list when the list is non-empty, an entry that does not parse standing for
`uuid.Nil` (so: one of the role IDs, when all entries parse). An empty filter
imposes no condition: without pagination every user of the tenant that
satisfies the supplied filters is returned, whichever of the three filters
are empty; with all three empty the total is the number of rows of the
tenant. -/
theorem list_filters_conjunctive (parse : String → Option UUID) (tenantID : String)
    (query : UserQueryRequest) (s : Store) :
    (∀ u ∈ ((userRepository.List parse tenantID query s).1).1,
      (∃ r ∈ s, r.tenant = tenantID ∧ r.user = u) ∧
      (query.Status ≠ "" → u.Status = query.Status) ∧
      (query.Search ≠ "" →
        (pgILike u.FirstName ("%" ++ query.Search ++ "%") = true ∨
          pgILike u.LastName ("%" ++ query.Search ++ "%") = true ∨
          pgILike u.Email ("%" ++ query.Search ++ "%") = true) ∧
        ((∀ c ∈ query.Search.data, c ≠ '%' ∧ c ≠ '_' ∧ c ≠ '\\') →
          (pgLower query.Search <:+: pgLower u.FirstName ∨
            pgLower query.Search <:+: pgLower u.LastName ∨
            pgLower query.Search <:+: pgLower u.Email))) ∧
      (query.RoleIDs ≠ [] →
        (∃ role ∈ u.Roles, ∃ rid ∈ query.RoleIDs, (parse rid).getD 0 = role.ID) ∧
        ((∀ rid ∈ query.RoleIDs, (parse rid).isSome = true) →
          ∃ role ∈ u.Roles, ∃ rid ∈ query.RoleIDs, parse rid = some role.ID))) ∧
    (¬ (0 < query.Page ∧ 0 < query.Limit) → ∀ r ∈ s, r.tenant = tenantID →
      (query.Status ≠ "" → r.user.Status = query.Status) →
      (query.Search ≠ "" →
        pgILike r.user.FirstName ("%" ++ query.Search ++ "%") = true ∨
        pgILike r.user.LastName ("%" ++ query.Search ++ "%") = true ∨
        pgILike r.user.Email ("%" ++ query.Search ++ "%") = true) →
      (query.RoleIDs ≠ [] →
        ∃ role ∈ r.user.Roles, ∃ rid ∈ query.RoleIDs, (parse rid).getD 0 = role.ID) →
      r.user ∈ ((userRepository.List parse tenantID query s).1).1) ∧
    (¬ (0 < query.Page ∧ 0 < query.Limit) →
      (∀ c ∈ query.Search.data, c ≠ '%' ∧ c ≠ '_' ∧ c ≠ '\\') →
      (∀ rid ∈ query.RoleIDs, (parse rid).isSome = true) →
      ∀ r ∈ s, r.tenant = tenantID →
      (query.Status ≠ "" → r.user.Status = query.Status) →
      (query.Search ≠ "" →
        pgLower query.Search <:+: pgLower r.user.FirstName ∨
        pgLower query.Search <:+: pgLower r.user.LastName ∨
        pgLower query.Search <:+: pgLower r.user.Email) →
      (query.RoleIDs ≠ [] →
        ∃ role ∈ r.user.Roles, ∃ rid ∈ query.RoleIDs, parse rid = some role.ID) →
      r.user ∈ ((userRepository.List parse tenantID query s).1).1) ∧
    (query.Status = "" → query.Search = "" → query.RoleIDs = [] →
      ((userRepository.List parse tenantID query s).1).2.1
        = ((s.filter (fun r => r.tenant == tenantID)).length : Int)) := by
  refine ⟨?_, ?_, ?_, ?_⟩
  · intro u hu
    obtain ⟨hrow, hstatus, hsearch, hrole⟩ :=
      (mem_filterQuery_rows parse tenantID query s u).1
        (mem_list_users parse tenantID query s u hu)
    refine ⟨hrow, hstatus, fun hs => ⟨hsearch hs, fun hm => ?_⟩,
      fun hr => ⟨hrole hr, fun hall => ?_⟩⟩
    · rcases hsearch hs with h | h | h
      · exact Or.inl ((pgILike_iff_substring _ _ hm).1 h)
      · exact Or.inr (Or.inl ((pgILike_iff_substring _ _ hm).1 h))
      · exact Or.inr (Or.inr ((pgILike_iff_substring _ _ hm).1 h))
    · obtain ⟨role, hrole1, rid, hrid, hid⟩ := hrole hr
      exact ⟨role, hrole1, rid, hrid,
        (getD_of_all_parse parse query.RoleIDs role.ID hall rid hrid).1 hid⟩
  · intro hp r hr ht hstatus hsearch hrole
    rw [mem_list_unpaged_users parse tenantID query s r.user hp, mem_filterQuery_rows]
    exact ⟨⟨r, hr, ht, rfl⟩, hstatus, hsearch, hrole⟩
  · intro hp hm hall r hr ht hstatus hsearch hrole
    rw [mem_list_unpaged_users parse tenantID query s r.user hp, mem_filterQuery_rows]
    refine ⟨⟨r, hr, ht, rfl⟩, hstatus, fun hs => ?_, fun hne => ?_⟩
    · rcases hsearch hs with h | h | h
      · exact Or.inl ((pgILike_iff_substring _ _ hm).2 h)
      · exact Or.inr (Or.inl ((pgILike_iff_substring _ _ hm).2 h))
      · exact Or.inr (Or.inr ((pgILike_iff_substring _ _ hm).2 h))
    · obtain ⟨role, hrole1, rid, hrid, hid⟩ := hrole hne
      exact ⟨role, hrole1, rid, hrid,
        (getD_of_all_parse parse query.RoleIDs role.ID hall rid hrid).2 hid⟩
  · intro h1 h2 h3
    rw [list_total_eq, filterQuery_rows_length, if_pos h3]
    simp [h1, h2]

/-- Witness of C10: on the two sample users, `status=active` with
`search="test"` returns only the active user matching "test", and
`search="alice"` with no status and no role filter returns the inactive user
Alice. -/
theorem list_filters_conjunctive_witness :
    (((userRepository.List sampleParse "default" (searchQuery "active" "test") twoUserStore).1).1
      = [sampleUser] ∧
    ∀ u ∈ ((userRepository.List sampleParse "default" (searchQuery "active" "test")
        twoUserStore).1).1,
      u.Status = "active" ∧
      (pgLower "test" <:+: pgLower u.FirstName ∨ pgLower "test" <:+: pgLower u.LastName ∨
        pgLower "test" <:+: pgLower u.Email)) ∧
    sampleUserB ∈ ((userRepository.List sampleParse "default" (searchQuery "" "alice")
        twoUserStore).1).1 := by
  refine ⟨⟨by decide, fun u hu => ?_⟩, ?_⟩
  · obtain ⟨-, hstatus, hsearch, -⟩ :=
      (list_filters_conjunctive sampleParse "default" (searchQuery "active" "test")
        twoUserStore).1 u hu
    exact ⟨hstatus (by decide), (hsearch (by decide)).2 (by decide)⟩
  · exact (list_filters_conjunctive sampleParse "default" (searchQuery "" "alice")
      twoUserStore).2.2.1 (by decide) (by decide) (by decide)
      { tenant := "default", user := sampleUserB } (by decide) rfl
      (fun h => absurd rfl h) (fun _ => Or.inl (by decide)) (fun h => absurd rfl h)

theorem length_filter_pos_iff_any {α : Type} (l : List α) (p : α → Bool) :
    decide (0 < (l.filter p).length) = l.any p := by
  induction l with
  | nil => rfl
  | cons a as ih =>
    by_cases h : p a = true
    · simp [List.filter_cons, h]
    · simp only [Bool.not_eq_true] at h
      simp [List.filter_cons, h, ih]

/-- C11 fails as stated: for a store whose only row is a user holding the
roles 7 and 8, the role filter `["7", "8"]` gives the total 2, and the user is
returned twice, although the store has one row of `users` to match the
filters. -/
theorem list_total_counts_user_per_role :
    twoRoleStore.length = 1 ∧
    ((userRepository.List sampleParse "default" (roleQuery ["7", "8"]) twoRoleStore).1).2.1
      = 2 ∧
    ((userRepository.List sampleParse "default" (roleQuery ["7", "8"]) twoRoleStore).1).1
      = [twoRoleUser, twoRoleUser] := by
  refine ⟨by decide, by decide, by decide⟩

/-- C11 (amended): the total `List` returns is counted on the filtered
statement, before sorting and pagination. Two queries over the same store that
agree on status, search and role IDs (and differ in page, limit or sort only)
get equal totals. Without a role filter the total is the number of users of
the tenant that pass the status and search filters. With a role filter the
total counts rows of the join with `user_roles`: every user of the tenant that
passes the status and search filters counts once for each role it holds whose
ID is that of an entry of the role-ID list (an entry that does not parse
standing for `uuid.Nil`); so the total is the number of users passing all
three filters when no user of the tenant holds two such roles. The users
returned are never more than the total and are exactly that many when no
pagination applies. -/
theorem list_total_counts_joined_rows (parse : String → Option UUID) (tenantID : String)
    (q1 q2 : UserQueryRequest) (s : Store)
    (hStatus : q1.Status = q2.Status) (hSearch : q1.Search = q2.Search)
    (hRoles : q1.RoleIDs = q2.RoleIDs) :
    ((userRepository.List parse tenantID q1 s).1).2.1
      = ((userRepository.List parse tenantID q2 s).1).2.1 ∧
    (q1.RoleIDs = [] →
      ((userRepository.List parse tenantID q1 s).1).2.1
        = ((((s.filter (fun r => r.tenant == tenantID)).map (fun r => r.user)).filter (fun u =>
            (decide (q1.Status = "") || u.Status == q1.Status) &&
            (decide (q1.Search = "") ||
              (pgILike u.FirstName ("%" ++ q1.Search ++ "%") ||
                pgILike u.LastName ("%" ++ q1.Search ++ "%") ||
                pgILike u.Email ("%" ++ q1.Search ++ "%"))))).length : Int)) ∧
    (q1.RoleIDs ≠ [] →
      ((userRepository.List parse tenantID q1 s).1).2.1
        = ((((((s.filter (fun r => r.tenant == tenantID)).map (fun r => r.user)).filter (fun u =>
            (decide (q1.Status = "") || u.Status == q1.Status) &&
            (decide (q1.Search = "") ||
              (pgILike u.FirstName ("%" ++ q1.Search ++ "%") ||
                pgILike u.LastName ("%" ++ q1.Search ++ "%") ||
                pgILike u.Email ("%" ++ q1.Search ++ "%"))))).map (fun u =>
            (u.Roles.filter (fun role =>
              q1.RoleIDs.any (fun rid =>
                (parse rid).getD 0 == role.ID))).length)).sum : Nat) : Int)) ∧
    (q1.RoleIDs ≠ [] →
      (∀ r ∈ s, r.tenant = tenantID →
        (r.user.Roles.filter (fun role =>
          q1.RoleIDs.any (fun rid => (parse rid).getD 0 == role.ID))).length ≤ 1) →
      ((userRepository.List parse tenantID q1 s).1).2.1
        = ((((s.filter (fun r => r.tenant == tenantID)).map (fun r => r.user)).filter (fun u =>
            (decide (q1.Status = "") || u.Status == q1.Status) &&
            (decide (q1.Search = "") ||
              (pgILike u.FirstName ("%" ++ q1.Search ++ "%") ||
                pgILike u.LastName ("%" ++ q1.Search ++ "%") ||
                pgILike u.Email ("%" ++ q1.Search ++ "%"))) &&
            u.Roles.any (fun role =>
              q1.RoleIDs.any (fun rid => (parse rid).getD 0 == role.ID)))).length : Int)) ∧
    ((((userRepository.List parse tenantID q1 s).1).1.length : Int)
      ≤ ((userRepository.List parse tenantID q1 s).1).2.1) ∧
    (¬ (0 < q1.Page ∧ 0 < q1.Limit) →
      (((userRepository.List parse tenantID q1 s).1).1.length : Int)
        = ((userRepository.List parse tenantID q1 s).1).2.1) := by
  refine ⟨?_, ?_, ?_, ?_, list_length_le_total parse tenantID q1 s,
    list_unpaged_length parse tenantID q1 s⟩
  · rw [list_total_eq, list_total_eq,
      filterQuery_congr parse tenantID q1 q2 hStatus hSearch hRoles]
  · intro hr
    rw [list_total_eq, filterQuery_rows_length, if_pos hr]
  · intro hr
    rw [list_total_eq, filterQuery_rows_length, if_neg hr]
  · intro hr hone
    rw [list_total_eq, filterQuery_rows_length, if_neg hr, sum_map_le_one]
    · rw [List.filter_filter]
      congr 2
      apply List.filter_congr
      intro u _
      rw [length_filter_pos_iff_any, Bool.and_comm]
    · intro u hu
      rw [List.mem_filter, List.mem_map] at hu
      obtain ⟨⟨r, hr1, rfl⟩, -⟩ := hu
      rw [List.mem_filter] at hr1
      exact hone r hr1.1 (by simpa using hr1.2)

/-- Witness of C11 amended: on the two sample users with the role filter
`["7"]`, page 1 of size 1 sorted by email and the unpaginated default listing
both report the total 1: the one user holding role 7. -/
theorem list_total_counts_joined_rows_witness :
    ((userRepository.List sampleParse "default"
        { Page := 1, Limit := 1, Status := "", Role := "", Sort_ := "email:asc", Search := "",
          RoleIDs := ["7"] } twoUserStore).1).2.1
      = ((userRepository.List sampleParse "default" (roleQuery ["7"]) twoUserStore).1).2.1 ∧
    ((userRepository.List sampleParse "default"
        { Page := 1, Limit := 1, Status := "", Role := "", Sort_ := "email:asc", Search := "",
          RoleIDs := ["7"] } twoUserStore).1).2.1 = 1 := by
  obtain ⟨h1, -, -, h4, -, -⟩ := list_total_counts_joined_rows sampleParse "default"
    { Page := 1, Limit := 1, Status := "", Role := "", Sort_ := "email:asc", Search := "",
      RoleIDs := ["7"] } (roleQuery ["7"]) twoUserStore rfl rfl rfl
  refine ⟨h1, ?_⟩
  rw [h4 (by decide) (by decide)]
  decide

theorem wrapInt64_of_range (x : Int) (h0 : 0 ≤ x) (h1 : x < 2 ^ 63) : wrapInt64 x = x := by
  unfold wrapInt64
  omega

theorem list_unpaged_eq (parse : String → Option UUID) (tenantID : String)
    (query : UserQueryRequest) (s : Store) :
    ((userRepository.List parse tenantID { query with Page := 0 } s).1).1
      = (userRepository.findQuery parse tenantID query).ordered
          ((userRepository.filterQuery parse tenantID query).rows s) := by
  rw [list_users_eq]
  obtain ⟨ho, hl⟩ := findQuery_paging parse tenantID { query with Page := 0 }
  rw [if_neg (by simp)] at ho hl
  unfold Query.paged
  rw [ho, hl]
  simp only
  have h1 : userRepository.filterQuery parse tenantID { query with Page := 0 }
      = userRepository.filterQuery parse tenantID query :=
    filterQuery_congr parse tenantID _ _ rfl rfl rfl
  have h2 : (userRepository.findQuery parse tenantID { query with Page := 0 }).orders
      = (userRepository.findQuery parse tenantID query).orders := by
    rw [findQuery_orders, findQuery_orders]
  unfold Query.ordered
  rw [h1, h2]

/-- C12 (amended): `List` applies an offset and a limit exactly when
`page > 0` and `limit > 0`. Then the row limit is `limit` and the offset is
`(page - 1) * limit` computed in Go `int` arithmetic, which is that product
whenever it is below `2 ^ 63` (page 1 gives offset 0), and the users returned
are the slice of the unpaginated listing at that offset and of that length.
When `page <= 0` or `limit <= 0` no offset and no limit are applied and all
filtered rows are returned. -/
theorem list_pagination (parse : String → Option UUID) (tenantID : String)
    (query : UserQueryRequest) (s : Store) :
    (0 < query.Page ∧ 0 < query.Limit →
      (userRepository.findQuery parse tenantID query).offset
        = some (wrapInt64 ((query.Page - 1) * query.Limit)) ∧
      (userRepository.findQuery parse tenantID query).limit = some query.Limit ∧
      (query.Page = 1 → (userRepository.findQuery parse tenantID query).offset = some 0) ∧
      ((query.Page - 1) * query.Limit < 2 ^ 63 →
        (userRepository.findQuery parse tenantID query).offset
          = some ((query.Page - 1) * query.Limit) ∧
        ((userRepository.List parse tenantID query s).1).1
          = ((((userRepository.List parse tenantID { query with Page := 0 } s).1).1).drop
              ((query.Page - 1) * query.Limit).toNat).take query.Limit.toNat)) ∧
    (¬ (0 < query.Page ∧ 0 < query.Limit) →
      (userRepository.findQuery parse tenantID query).offset = none ∧
      (userRepository.findQuery parse tenantID query).limit = none ∧
      ((userRepository.List parse tenantID query s).1).1
        = ((userRepository.List parse tenantID { query with Page := 0 } s).1).1 ∧
      ((((userRepository.List parse tenantID query s).1).1.length : Int)
        = ((userRepository.List parse tenantID query s).1).2.1)) := by
  obtain ⟨ho, hl⟩ := findQuery_paging parse tenantID query
  constructor
  · intro hp
    rw [if_pos hp] at ho hl
    refine ⟨ho, hl, ?_, ?_⟩
    · intro h1
      rw [ho, h1]
      simp [wrapInt64]
    · intro hlt
      have hnn : 0 ≤ (query.Page - 1) * query.Limit :=
        Int.mul_nonneg (by omega) (by omega)
      have hw := wrapInt64_of_range _ hnn hlt
      refine ⟨by rw [ho, hw], ?_⟩
      rw [list_unpaged_eq, list_users_eq]
      unfold Query.paged
      rw [ho, hl, hw]
      simp only
      rw [if_pos (by omega)]
  · intro hp
    rw [if_neg hp] at ho hl
    refine ⟨ho, hl, ?_, ?_⟩
    · rw [list_unpaged_eq, list_users_eq]
      unfold Query.paged
      rw [ho, hl]
    · exact list_unpaged_length parse tenantID query s hp

/-- Witness of C12: page 2 of size 1 over the two sample users, newest first,
is the second user; offset 1, limit 1. -/
theorem list_pagination_witness :
    (userRepository.findQuery sampleParse "default" (pageQuery 2 1)).offset = some 1 ∧
    (userRepository.findQuery sampleParse "default" (pageQuery 2 1)).limit = some 1 ∧
    ((userRepository.List sampleParse "default" (pageQuery 2 1) twoUserStore).1).1
      = [sampleUser] := by
  obtain ⟨-, hl, -, hslice⟩ :=
    (list_pagination sampleParse "default" (pageQuery 2 1) twoUserStore).1 (by decide)
  obtain ⟨ho, hs⟩ := hslice (by decide)
  refine ⟨?_, hl, ?_⟩
  · rw [ho]; rfl
  · rw [hs]; decide

/-- C12 as stated fails: with page `2 ^ 62 + 1` and limit 4 the product
`(page - 1) * limit` is `2 ^ 64`, which wraps to 0 in Go `int` arithmetic, so
`List` applies offset 0 and returns the first rows, not the rows at offset
`2 ^ 64` (there are none). -/
theorem list_offset_wraps_around :
    0 < (pageQuery (2 ^ 62 + 1) 4).Page ∧ 0 < (pageQuery (2 ^ 62 + 1) 4).Limit ∧
    ((pageQuery (2 ^ 62 + 1) 4).Page - 1) * (pageQuery (2 ^ 62 + 1) 4).Limit = 2 ^ 64 ∧
    (userRepository.findQuery sampleParse "default" (pageQuery (2 ^ 62 + 1) 4)).offset
      = some 0 ∧
    ((userRepository.List sampleParse "default" (pageQuery (2 ^ 62 + 1) 4) sampleStore).1).1
      = [sampleUser] ∧
    ((((userRepository.List sampleParse "default" (pageQuery 0 0) sampleStore).1).1).drop
      (2 ^ 64)).take 4 = [] := by
  refine ⟨by decide, by decide, by decide, by decide, by decide, ?_⟩
  have : ((userRepository.List sampleParse "default" (pageQuery 0 0) sampleStore).1).1
      = [sampleUser] := by decide
  rw [this]
  simp

/-! ### Paths of the service methods

Each lemma fixes what the repository (and the hash function) returns along one
path of a method and gives the result and the final world of that path. -/

section Paths

variable {σ : Type} (R : UserRepository σ) (d : Deps) (tenantID : String) (w : World σ)

theorem createUser_path_lookup_error (req : CreateUserRequest) (x : Option User) (e : Error)
    (s1 : σ) (h1 : R.GetByEmail tenantID req.Email w.store = ((x, some e), s1)) :
    userService.CreateUser R d tenantID req w
      = (Result.err e,
          { store := s1
            calls := w.calls ++ [RepoCall.GetByEmail tenantID req.Email]
            logs := w.logs ++
              [LogEntry.mk Level.error "Error checking existing user: %v" e.message] }) := by
  simp [userService.CreateUser, callGetByEmail, World.after, World.Errorf, h1]

theorem createUser_path_exists (req : CreateUserRequest) (u : User) (s1 : σ)
    (h1 : R.GetByEmail tenantID req.Email w.store = ((some u, none), s1)) :
    userService.CreateUser R d tenantID req w
      = (Result.err Error.ErrUserExists,
          { store := s1
            calls := w.calls ++ [RepoCall.GetByEmail tenantID req.Email]
            logs := w.logs }) := by
  simp [userService.CreateUser, callGetByEmail, World.after, h1]

theorem createUser_path_hash_error (req : CreateUserRequest) (e : Error) (s1 : σ)
    (h1 : R.GetByEmail tenantID req.Email w.store = ((none, none), s1))
    (hh : d.generateFromPassword req.Password = Except.error e) :
    userService.CreateUser R d tenantID req w
      = (Result.err e,
          { store := s1
            calls := w.calls ++ [RepoCall.GetByEmail tenantID req.Email]
            logs := w.logs ++
              [LogEntry.mk Level.error "Error hashing password: %v" e.message] }) := by
  simp [userService.CreateUser, callGetByEmail, World.after, World.Errorf, h1, hh]

theorem createUser_path_create_error (req : CreateUserRequest) (hashed : String) (e : Error)
    (s1 s2 : σ) (h1 : R.GetByEmail tenantID req.Email w.store = ((none, none), s1))
    (hh : d.generateFromPassword req.Password = Except.ok hashed)
    (h2 : R.Create tenantID (userService.buildUser d req hashed) s1 = (some e, s2)) :
    userService.CreateUser R d tenantID req w
      = (Result.err e,
          { store := s2
            calls := w.calls ++ [RepoCall.GetByEmail tenantID req.Email,
              RepoCall.Create tenantID (userService.buildUser d req hashed)]
            logs := w.logs ++
              [LogEntry.mk Level.error "Error creating user: %v" e.message] }) := by
  simp [userService.CreateUser, callGetByEmail, callCreate, World.after, World.Errorf, h1, hh, h2]

theorem createUser_path_refetch_error (req : CreateUserRequest) (hashed : String)
    (x : Option User) (e : Error) (s1 s2 s3 : σ)
    (h1 : R.GetByEmail tenantID req.Email w.store = ((none, none), s1))
    (hh : d.generateFromPassword req.Password = Except.ok hashed)
    (h2 : R.Create tenantID (userService.buildUser d req hashed) s1 = (none, s2))
    (h3 : R.GetByID tenantID (userService.buildUser d req hashed).ID s2 = ((x, some e), s3)) :
    userService.CreateUser R d tenantID req w
      = (Result.err e,
          { store := s3
            calls := w.calls ++ [RepoCall.GetByEmail tenantID req.Email,
              RepoCall.Create tenantID (userService.buildUser d req hashed),
              RepoCall.GetByID tenantID (userService.buildUser d req hashed).ID]
            logs := w.logs ++
              [LogEntry.mk Level.error "Error fetching created user: %v" e.message] }) := by
  simp [userService.CreateUser, callGetByEmail, callCreate, callGetByID, World.after,
    World.Errorf, h1, hh, h2, h3]

theorem createUser_path_refetch_missing (req : CreateUserRequest) (hashed : String)
    (s1 s2 s3 : σ)
    (h1 : R.GetByEmail tenantID req.Email w.store = ((none, none), s1))
    (hh : d.generateFromPassword req.Password = Except.ok hashed)
    (h2 : R.Create tenantID (userService.buildUser d req hashed) s1 = (none, s2))
    (h3 : R.GetByID tenantID (userService.buildUser d req hashed).ID s2 = ((none, none), s3)) :
    userService.CreateUser R d tenantID req w
      = (Result.panic,
          { store := s3
            calls := w.calls ++ [RepoCall.GetByEmail tenantID req.Email,
              RepoCall.Create tenantID (userService.buildUser d req hashed),
              RepoCall.GetByID tenantID (userService.buildUser d req hashed).ID]
            logs := w.logs }) := by
  simp [userService.CreateUser, callGetByEmail, callCreate, callGetByID, World.after,
    h1, hh, h2, h3]

theorem createUser_path_success (req : CreateUserRequest) (hashed : String) (u : User)
    (s1 s2 s3 : σ)
    (h1 : R.GetByEmail tenantID req.Email w.store = ((none, none), s1))
    (hh : d.generateFromPassword req.Password = Except.ok hashed)
    (h2 : R.Create tenantID (userService.buildUser d req hashed) s1 = (none, s2))
    (h3 : R.GetByID tenantID (userService.buildUser d req hashed).ID s2 = ((some u, none), s3)) :
    userService.CreateUser R d tenantID req w
      = (Result.ok (ToUserResponse u),
          { store := s3
            calls := w.calls ++ [RepoCall.GetByEmail tenantID req.Email,
              RepoCall.Create tenantID (userService.buildUser d req hashed),
              RepoCall.GetByID tenantID (userService.buildUser d req hashed).ID]
            logs := w.logs ++
              [LogEntry.mk Level.info "User created successfully: %s" req.Email] }) := by
  simp [userService.CreateUser, callGetByEmail, callCreate, callGetByID, World.after,
    World.Infof, h1, hh, h2, h3]
  rfl

theorem getUser_path_error (id : UUID) (x : Option User) (e : Error) (s1 : σ)
    (h1 : R.GetByID tenantID id w.store = ((x, some e), s1)) :
    userService.GetUser R tenantID id w
      = (Result.err e,
          { store := s1
            calls := w.calls ++ [RepoCall.GetByID tenantID id]
            logs := w.logs ++ [LogEntry.mk Level.error "Error fetching user: %v" e.message] }) := by
  simp [userService.GetUser, callGetByID, World.after, World.Errorf, h1]

theorem getUser_path_missing (id : UUID) (s1 : σ)
    (h1 : R.GetByID tenantID id w.store = ((none, none), s1)) :
    userService.GetUser R tenantID id w
      = (Result.err Error.ErrUserNotFound,
          { store := s1, calls := w.calls ++ [RepoCall.GetByID tenantID id], logs := w.logs }) := by
  simp [userService.GetUser, callGetByID, World.after, h1]

theorem getUser_path_success (id : UUID) (u : User) (s1 : σ)
    (h1 : R.GetByID tenantID id w.store = ((some u, none), s1)) :
    userService.GetUser R tenantID id w
      = (Result.ok (ToUserResponse u),
          { store := s1, calls := w.calls ++ [RepoCall.GetByID tenantID id], logs := w.logs }) := by
  simp [userService.GetUser, callGetByID, World.after, h1]

theorem getUserByEmail_path_error (email : String) (x : Option User) (e : Error) (s1 : σ)
    (h1 : R.GetByEmail tenantID email w.store = ((x, some e), s1)) :
    userService.GetUserByEmail R tenantID email w
      = (Result.err e,
          { store := s1
            calls := w.calls ++ [RepoCall.GetByEmail tenantID email]
            logs := w.logs ++
              [LogEntry.mk Level.error "Error fetching user by email: %v" e.message] }) := by
  simp [userService.GetUserByEmail, callGetByEmail, World.after, World.Errorf, h1]

theorem getUserByEmail_path_missing (email : String) (s1 : σ)
    (h1 : R.GetByEmail tenantID email w.store = ((none, none), s1)) :
    userService.GetUserByEmail R tenantID email w
      = (Result.err Error.ErrUserNotFound,
          { store := s1, calls := w.calls ++ [RepoCall.GetByEmail tenantID email],
            logs := w.logs }) := by
  simp [userService.GetUserByEmail, callGetByEmail, World.after, h1]

theorem getUserByEmail_path_success (email : String) (u : User) (s1 : σ)
    (h1 : R.GetByEmail tenantID email w.store = ((some u, none), s1)) :
    userService.GetUserByEmail R tenantID email w
      = (Result.ok (ToUserResponse u),
          { store := s1, calls := w.calls ++ [RepoCall.GetByEmail tenantID email],
            logs := w.logs }) := by
  simp [userService.GetUserByEmail, callGetByEmail, World.after, h1]

theorem updateUser_path_error (id : UUID) (req : UpdateUserRequest) (x : Option User)
    (e : Error) (s1 : σ) (h1 : R.GetByID tenantID id w.store = ((x, some e), s1)) :
    userService.UpdateUser R tenantID id req w
      = (Result.err e,
          { store := s1
            calls := w.calls ++ [RepoCall.GetByID tenantID id]
            logs := w.logs ++ [LogEntry.mk Level.error "Error fetching user: %v" e.message] }) := by
  simp [userService.UpdateUser, callGetByID, World.after, World.Errorf, h1]

theorem updateUser_path_missing (id : UUID) (req : UpdateUserRequest) (s1 : σ)
    (h1 : R.GetByID tenantID id w.store = ((none, none), s1)) :
    userService.UpdateUser R tenantID id req w
      = (Result.err Error.ErrUserNotFound,
          { store := s1, calls := w.calls ++ [RepoCall.GetByID tenantID id], logs := w.logs }) := by
  simp [userService.UpdateUser, callGetByID, World.after, h1]

theorem updateUser_path_update_error (id : UUID) (req : UpdateUserRequest) (u : User)
    (e : Error) (s1 s2 : σ) (h1 : R.GetByID tenantID id w.store = ((some u, none), s1))
    (h2 : R.Update tenantID id (userService.updateUserUpdates req) s1 = (some e, s2)) :
    userService.UpdateUser R tenantID id req w
      = (Result.err e,
          { store := s2
            calls := w.calls ++ [RepoCall.GetByID tenantID id,
              RepoCall.Update tenantID id (userService.updateUserUpdates req)]
            logs := w.logs ++ [LogEntry.mk Level.error "Error updating user: %v" e.message] }) := by
  simp [userService.UpdateUser, callGetByID, callUpdate, World.after, World.Errorf, h1, h2]

theorem updateUser_path_refetch_error (id : UUID) (req : UpdateUserRequest) (u : User)
    (x : Option User) (e : Error) (s1 s2 s3 : σ)
    (h1 : R.GetByID tenantID id w.store = ((some u, none), s1))
    (h2 : R.Update tenantID id (userService.updateUserUpdates req) s1 = (none, s2))
    (h3 : R.GetByID tenantID id s2 = ((x, some e), s3)) :
    userService.UpdateUser R tenantID id req w
      = (Result.err e,
          { store := s3
            calls := w.calls ++ [RepoCall.GetByID tenantID id,
              RepoCall.Update tenantID id (userService.updateUserUpdates req),
              RepoCall.GetByID tenantID id]
            logs := w.logs ++
              [LogEntry.mk Level.error "Error fetching updated user: %v" e.message] }) := by
  simp [userService.UpdateUser, callGetByID, callUpdate, World.after, World.Errorf, h1, h2, h3]

theorem updateUser_path_refetch_missing (id : UUID) (req : UpdateUserRequest) (u : User)
    (s1 s2 s3 : σ) (h1 : R.GetByID tenantID id w.store = ((some u, none), s1))
    (h2 : R.Update tenantID id (userService.updateUserUpdates req) s1 = (none, s2))
    (h3 : R.GetByID tenantID id s2 = ((none, none), s3)) :
    userService.UpdateUser R tenantID id req w
      = (Result.panic,
          { store := s3
            calls := w.calls ++ [RepoCall.GetByID tenantID id,
              RepoCall.Update tenantID id (userService.updateUserUpdates req),
              RepoCall.GetByID tenantID id]
            logs := w.logs }) := by
  simp [userService.UpdateUser, callGetByID, callUpdate, World.after, h1, h2, h3]

theorem updateUser_path_success (id : UUID) (req : UpdateUserRequest) (u u2 : User)
    (s1 s2 s3 : σ) (h1 : R.GetByID tenantID id w.store = ((some u, none), s1))
    (h2 : R.Update tenantID id (userService.updateUserUpdates req) s1 = (none, s2))
    (h3 : R.GetByID tenantID id s2 = ((some u2, none), s3)) :
    userService.UpdateUser R tenantID id req w
      = (Result.ok (ToUserResponse u2),
          { store := s3
            calls := w.calls ++ [RepoCall.GetByID tenantID id,
              RepoCall.Update tenantID id (userService.updateUserUpdates req),
              RepoCall.GetByID tenantID id]
            logs := w.logs ++
              [LogEntry.mk Level.info "User updated successfully: %s" u2.Email] }) := by
  simp [userService.UpdateUser, callGetByID, callUpdate, World.after, World.Infof, h1, h2, h3]

theorem deleteUser_path_error (id : UUID) (x : Option User) (e : Error) (s1 : σ)
    (h1 : R.GetByID tenantID id w.store = ((x, some e), s1)) :
    userService.DeleteUser R tenantID id w
      = (Result.err e,
          { store := s1
            calls := w.calls ++ [RepoCall.GetByID tenantID id]
            logs := w.logs ++ [LogEntry.mk Level.error "Error fetching user: %v" e.message] }) := by
  simp [userService.DeleteUser, callGetByID, World.after, World.Errorf, h1]

theorem deleteUser_path_missing (id : UUID) (s1 : σ)
    (h1 : R.GetByID tenantID id w.store = ((none, none), s1)) :
    userService.DeleteUser R tenantID id w
      = (Result.err Error.ErrUserNotFound,
          { store := s1, calls := w.calls ++ [RepoCall.GetByID tenantID id], logs := w.logs }) := by
  simp [userService.DeleteUser, callGetByID, World.after, h1]

theorem deleteUser_path_delete_error (id : UUID) (u : User) (e : Error) (s1 s2 : σ)
    (h1 : R.GetByID tenantID id w.store = ((some u, none), s1))
    (h2 : R.Delete tenantID id s1 = (some e, s2)) :
    userService.DeleteUser R tenantID id w
      = (Result.err e,
          { store := s2
            calls := w.calls ++ [RepoCall.GetByID tenantID id, RepoCall.Delete tenantID id]
            logs := w.logs ++ [LogEntry.mk Level.error "Error deleting user: %v" e.message] }) := by
  simp [userService.DeleteUser, callGetByID, callDelete, World.after, World.Errorf, h1, h2]

theorem deleteUser_path_success (id : UUID) (u : User) (s1 s2 : σ)
    (h1 : R.GetByID tenantID id w.store = ((some u, none), s1))
    (h2 : R.Delete tenantID id s1 = (none, s2)) :
    userService.DeleteUser R tenantID id w
      = (Result.ok (),
          { store := s2
            calls := w.calls ++ [RepoCall.GetByID tenantID id, RepoCall.Delete tenantID id]
            logs := w.logs ++
              [LogEntry.mk Level.info "User deleted successfully: %s" u.Email] }) := by
  simp [userService.DeleteUser, callGetByID, callDelete, World.after, World.Infof, h1, h2]

theorem listUsers_path_error (query : UserQueryRequest) (users : List User) (total : Int)
    (e : Error) (s1 : σ)
    (h1 : R.List tenantID (userService.normalizeQuery query) w.store
      = ((users, total, some e), s1)) :
    userService.ListUsers R tenantID query w
      = (Result.err e,
          { store := s1
            calls := w.calls ++ [RepoCall.List tenantID (userService.normalizeQuery query)]
            logs := w.logs ++ [LogEntry.mk Level.error "Error listing users: %v" e.message] }) := by
  simp [userService.ListUsers, callList, World.after, World.Errorf, h1]

theorem listUsers_path_success (query : UserQueryRequest) (users : List User) (total : Int)
    (s1 : σ)
    (h1 : R.List tenantID (userService.normalizeQuery query) w.store
      = ((users, total, none), s1)) :
    userService.ListUsers R tenantID query w
      = (Result.ok
          { Users := users.map ToUserResponse
            Total := total
            Page := (userService.normalizeQuery query).Page
            Limit := (userService.normalizeQuery query).Limit
            TotalPages := totalPagesOf total (userService.normalizeQuery query).Limit },
          { store := s1
            calls := w.calls ++ [RepoCall.List tenantID (userService.normalizeQuery query)]
            logs := w.logs }) := by
  simp [userService.ListUsers, callList, World.after, h1]

theorem updateProfile_path_error (id : UUID) (req : UpdateProfileRequest) (x : Option User)
    (e : Error) (s1 : σ) (h1 : R.GetByID tenantID id w.store = ((x, some e), s1)) :
    userService.UpdateProfile R tenantID id req w
      = (Result.err e,
          { store := s1
            calls := w.calls ++ [RepoCall.GetByID tenantID id]
            logs := w.logs ++ [LogEntry.mk Level.error "Error fetching user: %v" e.message] }) := by
  simp [userService.UpdateProfile, callGetByID, World.after, World.Errorf, h1]

theorem updateProfile_path_missing (id : UUID) (req : UpdateProfileRequest) (s1 : σ)
    (h1 : R.GetByID tenantID id w.store = ((none, none), s1)) :
    userService.UpdateProfile R tenantID id req w
      = (Result.err Error.ErrUserNotFound,
          { store := s1, calls := w.calls ++ [RepoCall.GetByID tenantID id], logs := w.logs }) := by
  simp [userService.UpdateProfile, callGetByID, World.after, h1]

theorem updateProfile_path_noop (id : UUID) (req : UpdateProfileRequest) (u : User) (s1 : σ)
    (h1 : R.GetByID tenantID id w.store = ((some u, none), s1))
    (h0 : userService.updateProfileUpdates req = []) :
    userService.UpdateProfile R tenantID id req w
      = (Result.ok (ToUserResponse u),
          { store := s1, calls := w.calls ++ [RepoCall.GetByID tenantID id], logs := w.logs }) := by
  simp [userService.UpdateProfile, callGetByID, World.after, h1, h0]

theorem updateProfile_path_update_error (id : UUID) (req : UpdateProfileRequest) (u : User)
    (e : Error) (s1 s2 : σ) (h1 : R.GetByID tenantID id w.store = ((some u, none), s1))
    (h0 : userService.updateProfileUpdates req ≠ [])
    (h2 : R.Update tenantID id (userService.updateProfileUpdates req) s1 = (some e, s2)) :
    userService.UpdateProfile R tenantID id req w
      = (Result.err e,
          { store := s2
            calls := w.calls ++ [RepoCall.GetByID tenantID id,
              RepoCall.Update tenantID id (userService.updateProfileUpdates req)]
            logs := w.logs ++
              [LogEntry.mk Level.error "Error updating user profile: %v" e.message] }) := by
  simp [userService.UpdateProfile, callGetByID, callUpdate, World.after, World.Errorf, h1, h0,
    h2]

theorem updateProfile_path_refetch_error (id : UUID) (req : UpdateProfileRequest) (u : User)
    (x : Option User) (e : Error) (s1 s2 s3 : σ)
    (h1 : R.GetByID tenantID id w.store = ((some u, none), s1))
    (h0 : userService.updateProfileUpdates req ≠ [])
    (h2 : R.Update tenantID id (userService.updateProfileUpdates req) s1 = (none, s2))
    (h3 : R.GetByID tenantID id s2 = ((x, some e), s3)) :
    userService.UpdateProfile R tenantID id req w
      = (Result.err e,
          { store := s3
            calls := w.calls ++ [RepoCall.GetByID tenantID id,
              RepoCall.Update tenantID id (userService.updateProfileUpdates req),
              RepoCall.GetByID tenantID id]
            logs := w.logs ++
              [LogEntry.mk Level.error "Error fetching updated user: %v" e.message] }) := by
  simp [userService.UpdateProfile, callGetByID, callUpdate, World.after, World.Errorf, h1, h0,
    h2, h3]

theorem updateProfile_path_refetch_missing (id : UUID) (req : UpdateProfileRequest) (u : User)
    (s1 s2 s3 : σ) (h1 : R.GetByID tenantID id w.store = ((some u, none), s1))
    (h0 : userService.updateProfileUpdates req ≠ [])
    (h2 : R.Update tenantID id (userService.updateProfileUpdates req) s1 = (none, s2))
    (h3 : R.GetByID tenantID id s2 = ((none, none), s3)) :
    userService.UpdateProfile R tenantID id req w
      = (Result.panic,
          { store := s3
            calls := w.calls ++ [RepoCall.GetByID tenantID id,
              RepoCall.Update tenantID id (userService.updateProfileUpdates req),
              RepoCall.GetByID tenantID id]
            logs := w.logs }) := by
  simp [userService.UpdateProfile, callGetByID, callUpdate, World.after, h1, h0, h2, h3]

theorem updateProfile_path_success (id : UUID) (req : UpdateProfileRequest) (u u2 : User)
    (s1 s2 s3 : σ) (h1 : R.GetByID tenantID id w.store = ((some u, none), s1))
    (h0 : userService.updateProfileUpdates req ≠ [])
    (h2 : R.Update tenantID id (userService.updateProfileUpdates req) s1 = (none, s2))
    (h3 : R.GetByID tenantID id s2 = ((some u2, none), s3)) :
    userService.UpdateProfile R tenantID id req w
      = (Result.ok (ToUserResponse u2),
          { store := s3
            calls := w.calls ++ [RepoCall.GetByID tenantID id,
              RepoCall.Update tenantID id (userService.updateProfileUpdates req),
              RepoCall.GetByID tenantID id]
            logs := w.logs ++
              [LogEntry.mk Level.info "User profile updated successfully: %s" u2.Email] }) := by
  simp [userService.UpdateProfile, callGetByID, callUpdate, World.after, World.Infof, h1, h0,
    h2, h3]

end Paths

theorem updateUserUpdates_mem (req : UpdateUserRequest) (k v : String) :
    (k, v) ∈ userService.updateUserUpdates req ↔
      (k = "first_name" ∧ req.FirstName = some v) ∨
      (k = "last_name" ∧ req.LastName = some v) ∨
      (k = "status" ∧ req.Status = some v) := by
  obtain ⟨f, l, st, r⟩ := req
  cases f <;> cases l <;> cases st <;> simp [userService.updateUserUpdates, eq_comm]

theorem updateProfileUpdates_mem (req : UpdateProfileRequest) (k v : String) :
    (k, v) ∈ userService.updateProfileUpdates req ↔
      (k = "first_name" ∧ req.FirstName = some v) ∨
      (k = "last_name" ∧ req.LastName = some v) := by
  obtain ⟨f, l⟩ := req
  cases f <;> cases l <;> simp [userService.updateProfileUpdates, eq_comm]

theorem updateUserUpdates_keys_nodup (req : UpdateUserRequest) :
    ((userService.updateUserUpdates req).map Prod.fst).Nodup := by
  obtain ⟨f, l, st, r⟩ := req
  cases f <;> cases l <;> cases st <;> simp [userService.updateUserUpdates]

theorem updateProfileUpdates_keys_nodup (req : UpdateProfileRequest) :
    ((userService.updateProfileUpdates req).map Prod.fst).Nodup := by
  obtain ⟨f, l⟩ := req
  cases f <;> cases l <;> simp [userService.updateProfileUpdates]

theorem updateProfileUpdates_eq_nil (req : UpdateProfileRequest) :
    userService.updateProfileUpdates req = [] ↔ req.FirstName = none ∧ req.LastName = none := by
  obtain ⟨f, l⟩ := req
  cases f <;> cases l <;> simp [userService.updateProfileUpdates]

/-- After a successful existence check `UpdateUser` calls `Update` once, with
the updates built from the request, and then at most a re-fetch. -/
theorem updateUser_calls {σ : Type} (R : UserRepository σ) (tenantID : String) (id : UUID)
    (req : UpdateUserRequest) (w : World σ) (u : User) (s1 : σ)
    (h1 : R.GetByID tenantID id w.store = ((some u, none), s1)) :
    (userService.UpdateUser R tenantID id req w).2.calls
      = w.calls ++ [RepoCall.GetByID tenantID id,
          RepoCall.Update tenantID id (userService.updateUserUpdates req)] ∨
    (userService.UpdateUser R tenantID id req w).2.calls
      = w.calls ++ [RepoCall.GetByID tenantID id,
          RepoCall.Update tenantID id (userService.updateUserUpdates req),
          RepoCall.GetByID tenantID id] := by
  rcases h2 : R.Update tenantID id (userService.updateUserUpdates req) s1 with ⟨e2, s2⟩
  cases e2 with
  | some e2 =>
    rw [updateUser_path_update_error R tenantID w id req u e2 s1 s2 h1 h2]
    exact Or.inl rfl
  | none =>
    rcases h3 : R.GetByID tenantID id s2 with ⟨⟨x3, e3⟩, s3⟩
    cases e3 with
    | some e3 =>
      rw [updateUser_path_refetch_error R tenantID w id req u x3 e3 s1 s2 s3 h1 h2 h3]
      exact Or.inr rfl
    | none =>
      cases x3 with
      | none =>
        rw [updateUser_path_refetch_missing R tenantID w id req u s1 s2 s3 h1 h2 h3]
        exact Or.inr rfl
      | some u3 =>
        rw [updateUser_path_success R tenantID w id req u u3 s1 s2 s3 h1 h2 h3]
        exact Or.inr rfl

/-- After a successful existence check `UpdateProfile` with a non-empty update
set calls `Update` once, with the updates built from the request, and then at
most a re-fetch. -/
theorem updateProfile_calls {σ : Type} (R : UserRepository σ) (tenantID : String) (id : UUID)
    (req : UpdateProfileRequest) (w : World σ) (u : User) (s1 : σ)
    (h1 : R.GetByID tenantID id w.store = ((some u, none), s1))
    (h0 : userService.updateProfileUpdates req ≠ []) :
    (userService.UpdateProfile R tenantID id req w).2.calls
      = w.calls ++ [RepoCall.GetByID tenantID id,
          RepoCall.Update tenantID id (userService.updateProfileUpdates req)] ∨
    (userService.UpdateProfile R tenantID id req w).2.calls
      = w.calls ++ [RepoCall.GetByID tenantID id,
          RepoCall.Update tenantID id (userService.updateProfileUpdates req),
          RepoCall.GetByID tenantID id] := by
  rcases h2 : R.Update tenantID id (userService.updateProfileUpdates req) s1 with ⟨e2, s2⟩
  cases e2 with
  | some e2 =>
    rw [updateProfile_path_update_error R tenantID w id req u e2 s1 s2 h1 h0 h2]
    exact Or.inl rfl
  | none =>
    rcases h3 : R.GetByID tenantID id s2 with ⟨⟨x3, e3⟩, s3⟩
    cases e3 with
    | some e3 =>
      rw [updateProfile_path_refetch_error R tenantID w id req u x3 e3 s1 s2 s3 h1 h0 h2 h3]
      exact Or.inr rfl
    | none =>
      cases x3 with
      | none =>
        rw [updateProfile_path_refetch_missing R tenantID w id req u s1 s2 s3 h1 h0 h2 h3]
        exact Or.inr rfl
      | some u3 =>
        rw [updateProfile_path_success R tenantID w id req u u3 s1 s2 s3 h1 h0 h2 h3]
        exact Or.inr rfl

/-- C14: when the user exists, `UpdateUser` passes to `Update` a field set
holding a key exactly for each non-nil request field, with its value:
`first_name`, `last_name` and `status`, each key at most once. `UpdateProfile`
does so with `first_name` and `last_name` only (it makes the call when at
least one of them is non-nil), so its set never holds `status` or a role
field; and neither set ever holds `id`, `email` or the password hash. -/
theorem update_field_set_is_sparse {σ : Type} (R : UserRepository σ) (tenantID : String)
    (id : UUID) (reqU : UpdateUserRequest) (reqP : UpdateProfileRequest) (w : World σ)
    (u : User) (s1 : σ) (h1 : R.GetByID tenantID id w.store = ((some u, none), s1)) :
    (∃ updates rest, (userService.UpdateUser R tenantID id reqU w).2.calls
        = w.calls ++ RepoCall.GetByID tenantID id :: RepoCall.Update tenantID id updates :: rest ∧
      (∀ c ∈ rest, c = RepoCall.GetByID tenantID id) ∧
      (∀ k v, (k, v) ∈ updates ↔
        (k = "first_name" ∧ reqU.FirstName = some v) ∨
        (k = "last_name" ∧ reqU.LastName = some v) ∨
        (k = "status" ∧ reqU.Status = some v)) ∧
      (updates.map Prod.fst).Nodup ∧
      (∀ k v, (k, v) ∈ updates → k ≠ "id" ∧ k ≠ "email" ∧ k ≠ "password_hash")) ∧
    ((reqP.FirstName ≠ none ∨ reqP.LastName ≠ none) →
      ∃ updates rest, (userService.UpdateProfile R tenantID id reqP w).2.calls
        = w.calls ++ RepoCall.GetByID tenantID id :: RepoCall.Update tenantID id updates :: rest ∧
      (∀ c ∈ rest, c = RepoCall.GetByID tenantID id) ∧
      (∀ k v, (k, v) ∈ updates ↔
        (k = "first_name" ∧ reqP.FirstName = some v) ∨
        (k = "last_name" ∧ reqP.LastName = some v)) ∧
      (updates.map Prod.fst).Nodup ∧
      (∀ k v, (k, v) ∈ updates →
        k ≠ "status" ∧ k ≠ "roles" ∧ k ≠ "role_ids" ∧ k ≠ "id" ∧ k ≠ "email" ∧
        k ≠ "password_hash")) := by
  constructor
  · refine ⟨userService.updateUserUpdates reqU, ?_⟩
    have hkeys : ∀ k v, (k, v) ∈ userService.updateUserUpdates reqU →
        k ≠ "id" ∧ k ≠ "email" ∧ k ≠ "password_hash" := by
      intro k v hkv
      rw [updateUserUpdates_mem] at hkv
      rcases hkv with ⟨rfl, -⟩ | ⟨rfl, -⟩ | ⟨rfl, -⟩ <;> decide
    rcases updateUser_calls R tenantID id reqU w u s1 h1 with h | h
    · exact ⟨[], h, by simp, updateUserUpdates_mem reqU,
        updateUserUpdates_keys_nodup reqU, hkeys⟩
    · exact ⟨[RepoCall.GetByID tenantID id], h, by simp,
        updateUserUpdates_mem reqU, updateUserUpdates_keys_nodup reqU, hkeys⟩
  · intro hsome
    have h0 : userService.updateProfileUpdates reqP ≠ [] := by
      rw [Ne, updateProfileUpdates_eq_nil]
      tauto
    refine ⟨userService.updateProfileUpdates reqP, ?_⟩
    have hkeys : ∀ k v, (k, v) ∈ userService.updateProfileUpdates reqP →
        k ≠ "status" ∧ k ≠ "roles" ∧ k ≠ "role_ids" ∧ k ≠ "id" ∧ k ≠ "email" ∧
        k ≠ "password_hash" := by
      intro k v hkv
      rw [updateProfileUpdates_mem] at hkv
      rcases hkv with ⟨rfl, -⟩ | ⟨rfl, -⟩ <;> decide
    rcases updateProfile_calls R tenantID id reqP w u s1 h1 h0 with h | h
    · exact ⟨[], h, by simp, updateProfileUpdates_mem reqP,
        updateProfileUpdates_keys_nodup reqP, hkeys⟩
    · exact ⟨[RepoCall.GetByID tenantID id], h, by simp,
        updateProfileUpdates_mem reqP, updateProfileUpdates_keys_nodup reqP, hkeys⟩

/-- Witness of C14: updating first name and status of the sample user passes
these two fields, and no last name, to `Update`. -/
theorem update_field_set_is_sparse_witness :
    ∃ updates rest, (userService.UpdateUser (newUserRepository sampleParse) "default" 42
        { FirstName := some "Updated", LastName := none, Status := some "inactive",
          RoleIDs := ["7"] } (freshWorld sampleStore)).2.calls
        = RepoCall.GetByID "default" 42 :: RepoCall.Update "default" 42 updates :: rest ∧
      ("first_name", "Updated") ∈ updates ∧ ("status", "inactive") ∈ updates ∧
      ∀ v, ("last_name", v) ∉ updates := by
  obtain ⟨updates, rest, hcalls, -, hmem, -, -⟩ :=
    (update_field_set_is_sparse (newUserRepository sampleParse) "default" 42
      { FirstName := some "Updated", LastName := none, Status := some "inactive",
        RoleIDs := ["7"] } { FirstName := none, LastName := none } (freshWorld sampleStore)
      sampleUser sampleStore (by decide)).1
  refine ⟨updates, rest, hcalls, (hmem _ _).2 (Or.inl ⟨rfl, rfl⟩),
    (hmem _ _).2 (Or.inr (Or.inr ⟨rfl, rfl⟩)), fun v hv => ?_⟩
  have := (hmem _ _).1 hv
  simp at this

/-- The paths of `CreateUser`: for every repository and hash function the run
is one of the seven paths, with the trace and the log entries of that path. -/
theorem createUser_paths {σ : Type} (R : UserRepository σ) (d : Deps) (tenantID : String)
    (req : CreateUserRequest) (w : World σ) :
    (∃ e s1, userService.CreateUser R d tenantID req w
      = (Result.err e,
          { store := s1
            calls := w.calls ++ [RepoCall.GetByEmail tenantID req.Email]
            logs := w.logs ++
              [LogEntry.mk Level.error "Error checking existing user: %v" e.message] })) ∨
    (∃ s1, userService.CreateUser R d tenantID req w
      = (Result.err Error.ErrUserExists,
          { store := s1
            calls := w.calls ++ [RepoCall.GetByEmail tenantID req.Email]
            logs := w.logs })) ∨
    (∃ e s1, d.generateFromPassword req.Password = Except.error e ∧
      userService.CreateUser R d tenantID req w
        = (Result.err e,
            { store := s1
              calls := w.calls ++ [RepoCall.GetByEmail tenantID req.Email]
              logs := w.logs ++
                [LogEntry.mk Level.error "Error hashing password: %v" e.message] })) ∨
    (∃ hashed, d.generateFromPassword req.Password = Except.ok hashed ∧
      ((∃ e s2, userService.CreateUser R d tenantID req w
        = (Result.err e,
            { store := s2
              calls := w.calls ++ [RepoCall.GetByEmail tenantID req.Email,
                RepoCall.Create tenantID (userService.buildUser d req hashed)]
              logs := w.logs ++
                [LogEntry.mk Level.error "Error creating user: %v" e.message] })) ∨
      (∃ e s3, userService.CreateUser R d tenantID req w
        = (Result.err e,
            { store := s3
              calls := w.calls ++ [RepoCall.GetByEmail tenantID req.Email,
                RepoCall.Create tenantID (userService.buildUser d req hashed),
                RepoCall.GetByID tenantID (userService.buildUser d req hashed).ID]
              logs := w.logs ++
                [LogEntry.mk Level.error "Error fetching created user: %v" e.message] })) ∨
      (∃ s3, userService.CreateUser R d tenantID req w
        = (Result.panic,
            { store := s3
              calls := w.calls ++ [RepoCall.GetByEmail tenantID req.Email,
                RepoCall.Create tenantID (userService.buildUser d req hashed),
                RepoCall.GetByID tenantID (userService.buildUser d req hashed).ID]
              logs := w.logs })) ∨
      (∃ u s3, userService.CreateUser R d tenantID req w
        = (Result.ok (ToUserResponse u),
            { store := s3
              calls := w.calls ++ [RepoCall.GetByEmail tenantID req.Email,
                RepoCall.Create tenantID (userService.buildUser d req hashed),
                RepoCall.GetByID tenantID (userService.buildUser d req hashed).ID]
              logs := w.logs ++
                [LogEntry.mk Level.info "User created successfully: %s" req.Email] })))) := by
  rcases h1 : R.GetByEmail tenantID req.Email w.store with ⟨⟨x, e1⟩, s1⟩
  cases e1 with
  | some e1 => exact Or.inl ⟨e1, s1, createUser_path_lookup_error R d tenantID w req x e1 s1 h1⟩
  | none =>
    cases x with
    | some u => exact Or.inr (Or.inl ⟨s1, createUser_path_exists R d tenantID w req u s1 h1⟩)
    | none =>
      cases hh : d.generateFromPassword req.Password with
      | error e =>
        exact Or.inr (Or.inr (Or.inl
          ⟨e, s1, rfl, createUser_path_hash_error R d tenantID w req e s1 h1 hh⟩))
      | ok hashed =>
        refine Or.inr (Or.inr (Or.inr ⟨hashed, rfl, ?_⟩))
        rcases h2 : R.Create tenantID (userService.buildUser d req hashed) s1 with ⟨e2, s2⟩
        cases e2 with
        | some e2 =>
          exact Or.inl
            ⟨e2, s2, createUser_path_create_error R d tenantID w req hashed e2 s1 s2 h1 hh h2⟩
        | none =>
          rcases h3 : R.GetByID tenantID (userService.buildUser d req hashed).ID s2
            with ⟨⟨x3, e3⟩, s3⟩
          cases e3 with
          | some e3 =>
            exact Or.inr (Or.inl ⟨e3, s3,
              createUser_path_refetch_error R d tenantID w req hashed x3 e3 s1 s2 s3 h1 hh h2 h3⟩)
          | none =>
            cases x3 with
            | none =>
              exact Or.inr (Or.inr (Or.inl ⟨s3,
                createUser_path_refetch_missing R d tenantID w req hashed s1 s2 s3 h1 hh h2 h3⟩))
            | some u3 =>
              exact Or.inr (Or.inr (Or.inr ⟨u3, s3,
                createUser_path_success R d tenantID w req hashed u3 s1 s2 s3 h1 hh h2 h3⟩))

/-- Every record `CreateUser` passes to `Create` is the record built from the
request and the hash of its password, for the tenant given. -/
theorem createUser_create_calls {σ : Type} (R : UserRepository σ) (d : Deps)
    (tenantID : String) (req : CreateUserRequest) (w : World σ) :
    ∃ newCalls, (userService.CreateUser R d tenantID req w).2.calls = w.calls ++ newCalls ∧
      ∀ t1 user, RepoCall.Create t1 user ∈ newCalls →
        t1 = tenantID ∧ ∃ hashed, d.generateFromPassword req.Password = Except.ok hashed ∧
          user = userService.buildUser d req hashed := by
  rcases createUser_paths R d tenantID req w with
    ⟨e, s1, h⟩ | ⟨s1, h⟩ | ⟨e, s1, -, h⟩ |
    ⟨hashed, hh, ⟨e, s2, h⟩ | ⟨e, s3, h⟩ | ⟨s3, h⟩ | ⟨u, s3, h⟩⟩
  all_goals
    rw [h]
    refine ⟨_, rfl, ?_⟩
    intro t1 user hmem
    simp only [List.mem_cons, List.mem_singleton, List.mem_nil_iff, or_false, RepoCall.Create.injEq,
      false_or, reduceCtorEq] at hmem
  · obtain ⟨rfl, rfl⟩ := hmem
    exact ⟨rfl, hashed, hh, rfl⟩
  · obtain ⟨rfl, rfl⟩ := hmem
    exact ⟨rfl, hashed, hh, rfl⟩
  · obtain ⟨rfl, rfl⟩ := hmem
    exact ⟨rfl, hashed, hh, rfl⟩
  · obtain ⟨rfl, rfl⟩ := hmem
    exact ⟨rfl, hashed, hh, rfl⟩

/-- When the existence check passes and the password hashes, `CreateUser`
calls `Create` right after `GetByEmail`, with the record built from the
request. -/
theorem createUser_reaches_create {σ : Type} (R : UserRepository σ) (d : Deps)
    (tenantID : String) (req : CreateUserRequest) (w : World σ) (s1 : σ) (hashed : String)
    (h1 : R.GetByEmail tenantID req.Email w.store = ((none, none), s1))
    (hh : d.generateFromPassword req.Password = Except.ok hashed) :
    ∃ rest, (userService.CreateUser R d tenantID req w).2.calls
      = w.calls ++ RepoCall.GetByEmail tenantID req.Email ::
          RepoCall.Create tenantID (userService.buildUser d req hashed) :: rest := by
  rcases h2 : R.Create tenantID (userService.buildUser d req hashed) s1 with ⟨e2, s2⟩
  cases e2 with
  | some e2 =>
    rw [createUser_path_create_error R d tenantID w req hashed e2 s1 s2 h1 hh h2]
    exact ⟨[], rfl⟩
  | none =>
    rcases h3 : R.GetByID tenantID (userService.buildUser d req hashed).ID s2
      with ⟨⟨x3, e3⟩, s3⟩
    cases e3 with
    | some e3 =>
      rw [createUser_path_refetch_error R d tenantID w req hashed x3 e3 s1 s2 s3 h1 hh h2 h3]
      exact ⟨_, rfl⟩
    | none =>
      cases x3 with
      | none =>
        rw [createUser_path_refetch_missing R d tenantID w req hashed s1 s2 s3 h1 hh h2 h3]
        exact ⟨_, rfl⟩
      | some u3 =>
        rw [createUser_path_success R d tenantID w req hashed u3 s1 s2 s3 h1 hh h2 h3]
        exact ⟨_, rfl⟩

/-- C15: the record `CreateUser` passes to `Create` has status `active` when
the request's status is the empty string and the request's status unchanged
otherwise, and has the request's email, first name and last name. This holds
of every `Create` call the method makes, and `Create` is called with such a
record whenever the existence check passes (and the password hashes). -/
theorem createUser_record_defaults_status {σ : Type} (R : UserRepository σ) (d : Deps)
    (tenantID : String) (req : CreateUserRequest) (w : World σ) :
    (∃ newCalls, (userService.CreateUser R d tenantID req w).2.calls = w.calls ++ newCalls ∧
      ∀ t1 user, RepoCall.Create t1 user ∈ newCalls →
        (req.Status = "" → user.Status = "active") ∧
        (req.Status ≠ "" → user.Status = req.Status) ∧
        user.Email = req.Email ∧ user.FirstName = req.FirstName ∧
        user.LastName = req.LastName) ∧
    (∀ s1 hashed, R.GetByEmail tenantID req.Email w.store = ((none, none), s1) →
      d.generateFromPassword req.Password = Except.ok hashed →
      ∃ user rest, (userService.CreateUser R d tenantID req w).2.calls
          = w.calls ++ RepoCall.GetByEmail tenantID req.Email ::
              RepoCall.Create tenantID user :: rest ∧
        (req.Status = "" → user.Status = "active") ∧
        (req.Status ≠ "" → user.Status = req.Status) ∧
        user.Email = req.Email ∧ user.FirstName = req.FirstName ∧
        user.LastName = req.LastName) := by
  have hrec : ∀ hashed,
      (req.Status = "" → (userService.buildUser d req hashed).Status = "active") ∧
      (req.Status ≠ "" → (userService.buildUser d req hashed).Status = req.Status) ∧
      (userService.buildUser d req hashed).Email = req.Email ∧
      (userService.buildUser d req hashed).FirstName = req.FirstName ∧
      (userService.buildUser d req hashed).LastName = req.LastName := by
    intro hashed
    refine ⟨fun h => ?_, fun h => ?_, rfl, rfl, rfl⟩
    · simp [userService.buildUser, h]
    · simp [userService.buildUser, h]
  constructor
  · obtain ⟨newCalls, hcalls, hprop⟩ := createUser_create_calls R d tenantID req w
    refine ⟨newCalls, hcalls, fun t1 user hmem => ?_⟩
    obtain ⟨-, hashed, -, rfl⟩ := hprop t1 user hmem
    exact hrec hashed
  · intro s1 hashed h1 hh
    obtain ⟨rest, hrest⟩ := createUser_reaches_create R d tenantID req w s1 hashed h1 hh
    exact ⟨_, rest, hrest, hrec hashed⟩

/-- Witness of C15: creating `new.user@example.com` with an empty status in
the sample store passes a record with status `active` to `Create`. -/
theorem createUser_record_defaults_status_witness :
    ∃ user rest, (userService.CreateUser (newUserRepository sampleParse) sampleDeps "default"
        freshCreate (freshWorld sampleStore)).2.calls
        = RepoCall.GetByEmail "default" "new.user@example.com" ::
            RepoCall.Create "default" user :: rest ∧
      user.Status = "active" ∧ user.Email = "new.user@example.com" ∧
      user.FirstName = "New" ∧ user.LastName = "User" := by
  obtain ⟨user, rest, hcalls, hs, -, he, hf, hl⟩ :=
    (createUser_record_defaults_status (newUserRepository sampleParse) sampleDeps "default"
      freshCreate (freshWorld sampleStore)).2 sampleStore "$2a$10$securepassword123"
      (by decide) rfl
  exact ⟨user, rest, hcalls, hs rfl, he, hf, hl⟩

/-- C16: the plaintext password is not what is persisted. Every record
`CreateUser` passes to `Create` carries, as `PasswordHash`, the output of the
hash function on `req.Password`; no other field of the record depends on the
password (a request that differs in the password only leads to a record that
differs in `PasswordHash` only); and when hashing fails `CreateUser` returns
that error and calls `Create` not at all. -/
theorem createUser_persists_only_the_hash {σ : Type} (R : UserRepository σ) (d : Deps)
    (tenantID : String) (req : CreateUserRequest) (w : World σ) :
    (∃ newCalls, (userService.CreateUser R d tenantID req w).2.calls = w.calls ++ newCalls ∧
      (∀ t1 user, RepoCall.Create t1 user ∈ newCalls →
        d.generateFromPassword req.Password = Except.ok user.PasswordHash) ∧
      (∀ e, d.generateFromPassword req.Password = Except.error e →
        ∀ t1 user, RepoCall.Create t1 user ∉ newCalls)) ∧
    (∀ password : String,
      ∃ calls1 calls2,
        (userService.CreateUser R d tenantID req w).2.calls = w.calls ++ calls1 ∧
        (userService.CreateUser R d tenantID { req with Password := password } w).2.calls
          = w.calls ++ calls2 ∧
        ∀ t1 user1 t2 user2, RepoCall.Create t1 user1 ∈ calls1 →
          RepoCall.Create t2 user2 ∈ calls2 →
          { user1 with PasswordHash := "" } = { user2 with PasswordHash := "" }) ∧
    (∀ s1 e, R.GetByEmail tenantID req.Email w.store = ((none, none), s1) →
      d.generateFromPassword req.Password = Except.error e →
      (userService.CreateUser R d tenantID req w).1 = Result.err e ∧
      (userService.CreateUser R d tenantID req w).2.calls
        = w.calls ++ [RepoCall.GetByEmail tenantID req.Email]) := by
  refine ⟨?_, ?_, ?_⟩
  · obtain ⟨newCalls, hcalls, hprop⟩ := createUser_create_calls R d tenantID req w
    refine ⟨newCalls, hcalls, fun t1 user hmem => ?_, fun e he t1 user hmem => ?_⟩
    · obtain ⟨-, hashed, hh, rfl⟩ := hprop t1 user hmem
      exact hh
    · obtain ⟨-, hashed, hh, -⟩ := hprop t1 user hmem
      rw [he] at hh
      cases hh
  · intro password
    obtain ⟨calls1, hc1, hp1⟩ := createUser_create_calls R d tenantID req w
    obtain ⟨calls2, hc2, hp2⟩ :=
      createUser_create_calls R d tenantID { req with Password := password } w
    refine ⟨calls1, calls2, hc1, hc2, fun t1 user1 t2 user2 hm1 hm2 => ?_⟩
    obtain ⟨-, hashed1, -, rfl⟩ := hp1 t1 user1 hm1
    obtain ⟨-, hashed2, -, rfl⟩ := hp2 t2 user2 hm2
    rfl
  · intro s1 e h1 hh
    rw [createUser_path_hash_error R d tenantID w req e s1 h1 hh]
    exact ⟨rfl, rfl⟩

/-- Witness of C16: with the sample hash function, creating a user with an
80-byte password in an empty store returns the hashing error after the single
`GetByEmail` call. -/
theorem createUser_persists_only_the_hash_witness :
    (userService.CreateUser (newUserRepository sampleParse) sampleDeps "default"
      longPasswordCreate (freshWorld [])).1
      = Result.err (Error.other "bcrypt: password length exceeds 72 bytes") ∧
    (userService.CreateUser (newUserRepository sampleParse) sampleDeps "default"
      longPasswordCreate (freshWorld [])).2.calls
      = [RepoCall.GetByEmail "default" "new.user@example.com"] :=
  (createUser_persists_only_the_hash (newUserRepository sampleParse) sampleDeps "default"
    longPasswordCreate (freshWorld [])).2.2 []
    (Error.other "bcrypt: password length exceeds 72 bytes") (by decide) rfl

/-! ### Errors and log entries -/

section ErrorsLogged

variable {σ : Type} (R : UserRepository σ) (d : Deps) (tenantID : String) (w : World σ)

theorem createUser_error_logged (req : CreateUserRequest) (e : Error)
    (he : (userService.CreateUser R d tenantID req w).1 = Result.err e) :
    (e = Error.ErrUserExists ∧ (userService.CreateUser R d tenantID req w).2.logs = w.logs) ∨
    ∃ entry, (userService.CreateUser R d tenantID req w).2.logs = w.logs ++ [entry] ∧
      entry.level = Level.error := by
  rcases createUser_paths R d tenantID req w with
    ⟨e1, s1, h⟩ | ⟨s1, h⟩ | ⟨e1, s1, -, h⟩ |
    ⟨hashed, hh, ⟨e1, s2, h⟩ | ⟨e1, s3, h⟩ | ⟨s3, h⟩ | ⟨u, s3, h⟩⟩
  all_goals
    rw [h] at he ⊢
    simp only [Result.err.injEq, reduceCtorEq] at he
  · exact Or.inr ⟨_, rfl, rfl⟩
  · exact Or.inl ⟨he.symm, rfl⟩
  · exact Or.inr ⟨_, rfl, rfl⟩
  · exact Or.inr ⟨_, rfl, rfl⟩
  · exact Or.inr ⟨_, rfl, rfl⟩

theorem getUser_error_logged (id : UUID) (e : Error)
    (he : (userService.GetUser R tenantID id w).1 = Result.err e) :
    (e = Error.ErrUserNotFound ∧ (userService.GetUser R tenantID id w).2.logs = w.logs) ∨
    ∃ entry, (userService.GetUser R tenantID id w).2.logs = w.logs ++ [entry] ∧
      entry.level = Level.error := by
  rcases h1 : R.GetByID tenantID id w.store with ⟨⟨x, e1⟩, s1⟩
  cases e1 with
  | some e1 =>
    rw [getUser_path_error R tenantID w id x e1 s1 h1]
    exact Or.inr ⟨_, rfl, rfl⟩
  | none =>
    cases x with
    | none =>
      rw [getUser_path_missing R tenantID w id s1 h1] at he ⊢
      simp only [Result.err.injEq] at he
      exact Or.inl ⟨he.symm, rfl⟩
    | some u =>
      rw [getUser_path_success R tenantID w id u s1 h1] at he
      simp only [reduceCtorEq] at he

theorem getUserByEmail_error_logged (email : String) (e : Error)
    (he : (userService.GetUserByEmail R tenantID email w).1 = Result.err e) :
    (e = Error.ErrUserNotFound ∧
      (userService.GetUserByEmail R tenantID email w).2.logs = w.logs) ∨
    ∃ entry, (userService.GetUserByEmail R tenantID email w).2.logs = w.logs ++ [entry] ∧
      entry.level = Level.error := by
  rcases h1 : R.GetByEmail tenantID email w.store with ⟨⟨x, e1⟩, s1⟩
  cases e1 with
  | some e1 =>
    rw [getUserByEmail_path_error R tenantID w email x e1 s1 h1]
    exact Or.inr ⟨_, rfl, rfl⟩
  | none =>
    cases x with
    | none =>
      rw [getUserByEmail_path_missing R tenantID w email s1 h1] at he ⊢
      simp only [Result.err.injEq] at he
      exact Or.inl ⟨he.symm, rfl⟩
    | some u =>
      rw [getUserByEmail_path_success R tenantID w email u s1 h1] at he
      simp only [reduceCtorEq] at he

theorem updateUser_error_logged (id : UUID) (req : UpdateUserRequest) (e : Error)
    (he : (userService.UpdateUser R tenantID id req w).1 = Result.err e) :
    (e = Error.ErrUserNotFound ∧
      (userService.UpdateUser R tenantID id req w).2.logs = w.logs) ∨
    ∃ entry, (userService.UpdateUser R tenantID id req w).2.logs = w.logs ++ [entry] ∧
      entry.level = Level.error := by
  rcases h1 : R.GetByID tenantID id w.store with ⟨⟨x, e1⟩, s1⟩
  cases e1 with
  | some e1 =>
    rw [updateUser_path_error R tenantID w id req x e1 s1 h1]
    exact Or.inr ⟨_, rfl, rfl⟩
  | none =>
    cases x with
    | none =>
      rw [updateUser_path_missing R tenantID w id req s1 h1] at he ⊢
      simp only [Result.err.injEq] at he
      exact Or.inl ⟨he.symm, rfl⟩
    | some u =>
      rcases h2 : R.Update tenantID id (userService.updateUserUpdates req) s1 with ⟨e2, s2⟩
      cases e2 with
      | some e2 =>
        rw [updateUser_path_update_error R tenantID w id req u e2 s1 s2 h1 h2]
        exact Or.inr ⟨_, rfl, rfl⟩
      | none =>
        rcases h3 : R.GetByID tenantID id s2 with ⟨⟨x3, e3⟩, s3⟩
        cases e3 with
        | some e3 =>
          rw [updateUser_path_refetch_error R tenantID w id req u x3 e3 s1 s2 s3 h1 h2 h3]
          exact Or.inr ⟨_, rfl, rfl⟩
        | none =>
          cases x3 with
          | none =>
            rw [updateUser_path_refetch_missing R tenantID w id req u s1 s2 s3 h1 h2 h3] at he
            simp only [reduceCtorEq] at he
          | some u3 =>
            rw [updateUser_path_success R tenantID w id req u u3 s1 s2 s3 h1 h2 h3] at he
            simp only [reduceCtorEq] at he

theorem deleteUser_error_logged (id : UUID) (e : Error)
    (he : (userService.DeleteUser R tenantID id w).1 = Result.err e) :
    (e = Error.ErrUserNotFound ∧ (userService.DeleteUser R tenantID id w).2.logs = w.logs) ∨
    ∃ entry, (userService.DeleteUser R tenantID id w).2.logs = w.logs ++ [entry] ∧
      entry.level = Level.error := by
  rcases h1 : R.GetByID tenantID id w.store with ⟨⟨x, e1⟩, s1⟩
  cases e1 with
  | some e1 =>
    rw [deleteUser_path_error R tenantID w id x e1 s1 h1]
    exact Or.inr ⟨_, rfl, rfl⟩
  | none =>
    cases x with
    | none =>
      rw [deleteUser_path_missing R tenantID w id s1 h1] at he ⊢
      simp only [Result.err.injEq] at he
      exact Or.inl ⟨he.symm, rfl⟩
    | some u =>
      rcases h2 : R.Delete tenantID id s1 with ⟨e2, s2⟩
      cases e2 with
      | some e2 =>
        rw [deleteUser_path_delete_error R tenantID w id u e2 s1 s2 h1 h2]
        exact Or.inr ⟨_, rfl, rfl⟩
      | none =>
        rw [deleteUser_path_success R tenantID w id u s1 s2 h1 h2] at he
        simp only [reduceCtorEq] at he

theorem listUsers_error_logged (query : UserQueryRequest) (e : Error)
    (he : (userService.ListUsers R tenantID query w).1 = Result.err e) :
    ∃ entry, (userService.ListUsers R tenantID query w).2.logs = w.logs ++ [entry] ∧
      entry.level = Level.error := by
  rcases h1 : R.List tenantID (userService.normalizeQuery query) w.store
    with ⟨⟨users, total, e1⟩, s1⟩
  cases e1 with
  | some e1 =>
    rw [listUsers_path_error R tenantID w query users total e1 s1 h1]
    exact ⟨_, rfl, rfl⟩
  | none =>
    rw [listUsers_path_success R tenantID w query users total s1 h1] at he
    simp only [reduceCtorEq] at he

theorem updateProfile_error_logged (id : UUID) (req : UpdateProfileRequest) (e : Error)
    (he : (userService.UpdateProfile R tenantID id req w).1 = Result.err e) :
    (e = Error.ErrUserNotFound ∧
      (userService.UpdateProfile R tenantID id req w).2.logs = w.logs) ∨
    ∃ entry, (userService.UpdateProfile R tenantID id req w).2.logs = w.logs ++ [entry] ∧
      entry.level = Level.error := by
  rcases h1 : R.GetByID tenantID id w.store with ⟨⟨x, e1⟩, s1⟩
  cases e1 with
  | some e1 =>
    rw [updateProfile_path_error R tenantID w id req x e1 s1 h1]
    exact Or.inr ⟨_, rfl, rfl⟩
  | none =>
    cases x with
    | none =>
      rw [updateProfile_path_missing R tenantID w id req s1 h1] at he ⊢
      simp only [Result.err.injEq] at he
      exact Or.inl ⟨he.symm, rfl⟩
    | some u =>
      by_cases h0 : userService.updateProfileUpdates req = []
      · rw [updateProfile_path_noop R tenantID w id req u s1 h1 h0] at he
        simp only [reduceCtorEq] at he
      · rcases h2 : R.Update tenantID id (userService.updateProfileUpdates req) s1
          with ⟨e2, s2⟩
        cases e2 with
        | some e2 =>
          rw [updateProfile_path_update_error R tenantID w id req u e2 s1 s2 h1 h0 h2]
          exact Or.inr ⟨_, rfl, rfl⟩
        | none =>
          rcases h3 : R.GetByID tenantID id s2 with ⟨⟨x3, e3⟩, s3⟩
          cases e3 with
          | some e3 =>
            rw [updateProfile_path_refetch_error R tenantID w id req u x3 e3 s1 s2 s3 h1 h0
              h2 h3]
            exact Or.inr ⟨_, rfl, rfl⟩
          | none =>
            cases x3 with
            | none =>
              rw [updateProfile_path_refetch_missing R tenantID w id req u s1 s2 s3 h1 h0
                h2 h3] at he
              simp only [reduceCtorEq] at he
            | some u3 =>
              rw [updateProfile_path_success R tenantID w id req u u3 s1 s2 s3 h1 h0 h2 h3]
                at he
              simp only [reduceCtorEq] at he

end ErrorsLogged

/-- C13 fails on the code: `UpdateUser` has no check for an empty field set.
With no field set in the request (`updateUserUpdates emptyUpdate = []`) and the
sample user present, it still calls `Update`, with the empty field set, and
then fetches the user again. -/
theorem updateUser_empty_request_still_updates :
    userService.updateUserUpdates emptyUpdate = [] ∧
    (userService.UpdateUser (newUserRepository sampleParse) "default" 42 emptyUpdate
      (freshWorld sampleStore)).2.calls
      = [RepoCall.GetByID "default" 42, RepoCall.Update "default" 42 [],
          RepoCall.GetByID "default" 42] := by
  refine ⟨by decide, by decide⟩

/-- C17: store failures pass through the service unchanged and stop the
operation. For every service method and every repository call it makes: when
that call returns an error `e` (the calls before it having succeeded), the
method returns exactly `e` and no response, and that call is the last one of
its trace. So a failing `Create` makes `CreateUser` return its error without
the `GetByID` re-fetch, and a failing `GetByID` makes `GetUser` return its
error, not `ErrUserNotFound`. -/
theorem store_errors_pass_through {σ : Type} (R : UserRepository σ) (d : Deps)
    (tenantID : String) (w : World σ) (create : CreateUserRequest) (id : UUID)
    (email : String) (update : UpdateUserRequest) (profile : UpdateProfileRequest)
    (query : UserQueryRequest) :
    (∀ x e s1, R.GetByEmail tenantID create.Email w.store = ((x, some e), s1) →
      (userService.CreateUser R d tenantID create w).1 = Result.err e ∧
      (userService.CreateUser R d tenantID create w).2.calls
        = w.calls ++ [RepoCall.GetByEmail tenantID create.Email]) ∧
    (∀ hashed e s1 s2, R.GetByEmail tenantID create.Email w.store = ((none, none), s1) →
      d.generateFromPassword create.Password = Except.ok hashed →
      R.Create tenantID (userService.buildUser d create hashed) s1 = (some e, s2) →
      (userService.CreateUser R d tenantID create w).1 = Result.err e ∧
      (userService.CreateUser R d tenantID create w).2.calls
        = w.calls ++ [RepoCall.GetByEmail tenantID create.Email,
            RepoCall.Create tenantID (userService.buildUser d create hashed)]) ∧
    (∀ hashed x e s1 s2 s3, R.GetByEmail tenantID create.Email w.store = ((none, none), s1) →
      d.generateFromPassword create.Password = Except.ok hashed →
      R.Create tenantID (userService.buildUser d create hashed) s1 = (none, s2) →
      R.GetByID tenantID (userService.buildUser d create hashed).ID s2 = ((x, some e), s3) →
      (userService.CreateUser R d tenantID create w).1 = Result.err e ∧
      (userService.CreateUser R d tenantID create w).2.calls
        = w.calls ++ [RepoCall.GetByEmail tenantID create.Email,
            RepoCall.Create tenantID (userService.buildUser d create hashed),
            RepoCall.GetByID tenantID (userService.buildUser d create hashed).ID]) ∧
    (∀ x e s1, R.GetByID tenantID id w.store = ((x, some e), s1) →
      (userService.GetUser R tenantID id w).1 = Result.err e ∧
      (userService.GetUser R tenantID id w).2.calls
        = w.calls ++ [RepoCall.GetByID tenantID id]) ∧
    (∀ x e s1, R.GetByEmail tenantID email w.store = ((x, some e), s1) →
      (userService.GetUserByEmail R tenantID email w).1 = Result.err e ∧
      (userService.GetUserByEmail R tenantID email w).2.calls
        = w.calls ++ [RepoCall.GetByEmail tenantID email]) ∧
    (∀ x e s1, R.GetByID tenantID id w.store = ((x, some e), s1) →
      (userService.UpdateUser R tenantID id update w).1 = Result.err e ∧
      (userService.UpdateUser R tenantID id update w).2.calls
        = w.calls ++ [RepoCall.GetByID tenantID id]) ∧
    (∀ u e s1 s2, R.GetByID tenantID id w.store = ((some u, none), s1) →
      R.Update tenantID id (userService.updateUserUpdates update) s1 = (some e, s2) →
      (userService.UpdateUser R tenantID id update w).1 = Result.err e ∧
      (userService.UpdateUser R tenantID id update w).2.calls
        = w.calls ++ [RepoCall.GetByID tenantID id,
            RepoCall.Update tenantID id (userService.updateUserUpdates update)]) ∧
    (∀ u x e s1 s2 s3, R.GetByID tenantID id w.store = ((some u, none), s1) →
      R.Update tenantID id (userService.updateUserUpdates update) s1 = (none, s2) →
      R.GetByID tenantID id s2 = ((x, some e), s3) →
      (userService.UpdateUser R tenantID id update w).1 = Result.err e ∧
      (userService.UpdateUser R tenantID id update w).2.calls
        = w.calls ++ [RepoCall.GetByID tenantID id,
            RepoCall.Update tenantID id (userService.updateUserUpdates update),
            RepoCall.GetByID tenantID id]) ∧
    (∀ x e s1, R.GetByID tenantID id w.store = ((x, some e), s1) →
      (userService.DeleteUser R tenantID id w).1 = Result.err e ∧
      (userService.DeleteUser R tenantID id w).2.calls
        = w.calls ++ [RepoCall.GetByID tenantID id]) ∧
    (∀ u e s1 s2, R.GetByID tenantID id w.store = ((some u, none), s1) →
      R.Delete tenantID id s1 = (some e, s2) →
      (userService.DeleteUser R tenantID id w).1 = Result.err e ∧
      (userService.DeleteUser R tenantID id w).2.calls
        = w.calls ++ [RepoCall.GetByID tenantID id, RepoCall.Delete tenantID id]) ∧
    (∀ users total e s1,
      R.List tenantID (userService.normalizeQuery query) w.store = ((users, total, some e), s1) →
      (userService.ListUsers R tenantID query w).1 = Result.err e ∧
      (userService.ListUsers R tenantID query w).2.calls
        = w.calls ++ [RepoCall.List tenantID (userService.normalizeQuery query)]) ∧
    (∀ x e s1, R.GetByID tenantID id w.store = ((x, some e), s1) →
      (userService.UpdateProfile R tenantID id profile w).1 = Result.err e ∧
      (userService.UpdateProfile R tenantID id profile w).2.calls
        = w.calls ++ [RepoCall.GetByID tenantID id]) ∧
    (∀ u e s1 s2, R.GetByID tenantID id w.store = ((some u, none), s1) →
      userService.updateProfileUpdates profile ≠ [] →
      R.Update tenantID id (userService.updateProfileUpdates profile) s1 = (some e, s2) →
      (userService.UpdateProfile R tenantID id profile w).1 = Result.err e ∧
      (userService.UpdateProfile R tenantID id profile w).2.calls
        = w.calls ++ [RepoCall.GetByID tenantID id,
            RepoCall.Update tenantID id (userService.updateProfileUpdates profile)]) ∧
    (∀ u x e s1 s2 s3, R.GetByID tenantID id w.store = ((some u, none), s1) →
      userService.updateProfileUpdates profile ≠ [] →
      R.Update tenantID id (userService.updateProfileUpdates profile) s1 = (none, s2) →
      R.GetByID tenantID id s2 = ((x, some e), s3) →
      (userService.UpdateProfile R tenantID id profile w).1 = Result.err e ∧
      (userService.UpdateProfile R tenantID id profile w).2.calls
        = w.calls ++ [RepoCall.GetByID tenantID id,
            RepoCall.Update tenantID id (userService.updateProfileUpdates profile),
            RepoCall.GetByID tenantID id]) := by
  refine ⟨?_, ?_, ?_, ?_, ?_, ?_, ?_, ?_, ?_, ?_, ?_, ?_, ?_, ?_⟩
  · intro x e s1 h1
    rw [createUser_path_lookup_error R d tenantID w create x e s1 h1]
    exact ⟨rfl, rfl⟩
  · intro hashed e s1 s2 h1 hh h2
    rw [createUser_path_create_error R d tenantID w create hashed e s1 s2 h1 hh h2]
    exact ⟨rfl, rfl⟩
  · intro hashed x e s1 s2 s3 h1 hh h2 h3
    rw [createUser_path_refetch_error R d tenantID w create hashed x e s1 s2 s3 h1 hh h2 h3]
    exact ⟨rfl, rfl⟩
  · intro x e s1 h1
    rw [getUser_path_error R tenantID w id x e s1 h1]
    exact ⟨rfl, rfl⟩
  · intro x e s1 h1
    rw [getUserByEmail_path_error R tenantID w email x e s1 h1]
    exact ⟨rfl, rfl⟩
  · intro x e s1 h1
    rw [updateUser_path_error R tenantID w id update x e s1 h1]
    exact ⟨rfl, rfl⟩
  · intro u e s1 s2 h1 h2
    rw [updateUser_path_update_error R tenantID w id update u e s1 s2 h1 h2]
    exact ⟨rfl, rfl⟩
  · intro u x e s1 s2 s3 h1 h2 h3
    rw [updateUser_path_refetch_error R tenantID w id update u x e s1 s2 s3 h1 h2 h3]
    exact ⟨rfl, rfl⟩
  · intro x e s1 h1
    rw [deleteUser_path_error R tenantID w id x e s1 h1]
    exact ⟨rfl, rfl⟩
  · intro u e s1 s2 h1 h2
    rw [deleteUser_path_delete_error R tenantID w id u e s1 s2 h1 h2]
    exact ⟨rfl, rfl⟩
  · intro users total e s1 h1
    rw [listUsers_path_error R tenantID w query users total e s1 h1]
    exact ⟨rfl, rfl⟩
  · intro x e s1 h1
    rw [updateProfile_path_error R tenantID w id profile x e s1 h1]
    exact ⟨rfl, rfl⟩
  · intro u e s1 s2 h1 h0 h2
    rw [updateProfile_path_update_error R tenantID w id profile u e s1 s2 h1 h0 h2]
    exact ⟨rfl, rfl⟩
  · intro u x e s1 s2 s3 h1 h0 h2 h3
    rw [updateProfile_path_refetch_error R tenantID w id profile u x e s1 s2 s3 h1 h0 h2 h3]
    exact ⟨rfl, rfl⟩

/-- Witness of C17: the `CreateError` and `GetUser/Error` tests. A repository
whose `Create` fails with "db error" makes `CreateUser` return "db error"
after `GetByEmail` and `Create`, with no `GetByID`; one whose `GetByID` fails
makes `GetUser` return that error. -/
theorem store_errors_pass_through_witness :
    ((userService.CreateUser
        (mockRepository (none, none) (some (Error.other "db error")) (none, none) none none)
        sampleDeps "default" sampleCreate { store := (), calls := [], logs := [] }).1
      = Result.err (Error.other "db error") ∧
    (userService.CreateUser
        (mockRepository (none, none) (some (Error.other "db error")) (none, none) none none)
        sampleDeps "default" sampleCreate { store := (), calls := [], logs := [] }).2.calls
      = [RepoCall.GetByEmail "default" sampleCreate.Email,
          RepoCall.Create "default"
            (userService.buildUser sampleDeps sampleCreate "$2a$10$securepassword123")]) ∧
    ((userService.GetUser
        (mockRepository (none, none) none (none, some (Error.other "db error")) none none)
        "default" 42 { store := (), calls := [], logs := [] }).1
      = Result.err (Error.other "db error") ∧
    (userService.GetUser
        (mockRepository (none, none) none (none, some (Error.other "db error")) none none)
        "default" 42 { store := (), calls := [], logs := [] }).2.calls
      = [RepoCall.GetByID "default" 42]) :=
  ⟨(store_errors_pass_through
      (mockRepository (none, none) (some (Error.other "db error")) (none, none) none none)
      sampleDeps "default" { store := (), calls := [], logs := [] } sampleCreate 42 ""
      emptyUpdate { FirstName := none, LastName := none } (pageQuery 1 20)).2.1
      "$2a$10$securepassword123" (Error.other "db error") () () rfl rfl rfl,
    (store_errors_pass_through
      (mockRepository (none, none) none (none, some (Error.other "db error")) none none)
      sampleDeps "default" { store := (), calls := [], logs := [] } sampleCreate 42 ""
      emptyUpdate { FirstName := none, LastName := none } (pageQuery 1 20)).2.2.2.1
      none (Error.other "db error") () rfl⟩

/-- C18: the handlers map a service error to the HTTP status by a fixed rule,
whatever the service is. When the request binds, the path id parses and the
caller is authenticated, and the service call returns the error `e`: the
handler `CreateUser` replies 409 if `e` is `ErrUserExists` and 500 otherwise;
the handlers `GetUser`, `UpdateUser`, `DeleteUser`, `GetProfile` and
`UpdateProfile` reply 404 if `e` is `ErrUserNotFound` and 500 otherwise; the
handler `ListUsers` replies 500. -/
theorem handlers_map_errors_to_status {τ : Type} (parse : String → Option UUID)
    (svc : UserService τ) (c : Context) (st : τ) (e : Error) :
    (∀ req, (svc.CreateUser (UserHandler.getTenantID c) req st).1 = Result.err e →
      (UserHandler.CreateUser svc c (some req) st).1.errorStatus
        = some (if e = Error.ErrUserExists then 409 else 500)) ∧
    (∀ id, parse c.idParam = some id →
      (svc.GetUser (UserHandler.getTenantID c) id st).1 = Result.err e →
      (UserHandler.GetUser parse svc c st).1.errorStatus
        = some (if e = Error.ErrUserNotFound then 404 else 500)) ∧
    (∀ id req, parse c.idParam = some id →
      (svc.UpdateUser (UserHandler.getTenantID c) id req st).1 = Result.err e →
      (UserHandler.UpdateUser parse svc c (some req) st).1.errorStatus
        = some (if e = Error.ErrUserNotFound then 404 else 500)) ∧
    (∀ id, parse c.idParam = some id →
      (svc.DeleteUser (UserHandler.getTenantID c) id st).1 = Result.err e →
      (UserHandler.DeleteUser parse svc c st).1.errorStatus
        = some (if e = Error.ErrUserNotFound then 404 else 500)) ∧
    (∀ query, (svc.ListUsers (UserHandler.getTenantID c) query st).1 = Result.err e →
      (UserHandler.ListUsers svc c (some query) st).1.errorStatus = some 500) ∧
    (UserHandler.getUserID parse c ≠ 0 →
      (svc.GetUser (UserHandler.getTenantID c) (UserHandler.getUserID parse c) st).1
        = Result.err e →
      (UserHandler.GetProfile parse svc c st).1.errorStatus
        = some (if e = Error.ErrUserNotFound then 404 else 500)) ∧
    (∀ req, UserHandler.getUserID parse c ≠ 0 →
      (svc.UpdateProfile (UserHandler.getTenantID c) (UserHandler.getUserID parse c) req st).1
        = Result.err e →
      (UserHandler.UpdateProfile parse svc c (some req) st).1.errorStatus
        = some (if e = Error.ErrUserNotFound then 404 else 500)) := by
  refine ⟨?_, ?_, ?_, ?_, ?_, ?_, ?_⟩
  · intro req he
    rcases h : svc.CreateUser (UserHandler.getTenantID c) req st with ⟨r, st1⟩
    rw [h] at he
    simp only at he
    subst he
    simp only [UserHandler.CreateUser, h]
    split <;> simp [Reply.errorStatus, StatusConflict, StatusInternalServerError]
  · intro id hid he
    rcases h : svc.GetUser (UserHandler.getTenantID c) id st with ⟨r, st1⟩
    rw [h] at he
    simp only at he
    subst he
    simp only [UserHandler.GetUser, hid, h]
    split <;> simp [Reply.errorStatus, StatusNotFound, StatusInternalServerError]
  · intro id req hid he
    rcases h : svc.UpdateUser (UserHandler.getTenantID c) id req st with ⟨r, st1⟩
    rw [h] at he
    simp only at he
    subst he
    simp only [UserHandler.UpdateUser, hid, h]
    split <;> simp [Reply.errorStatus, StatusNotFound, StatusInternalServerError]
  · intro id hid he
    rcases h : svc.DeleteUser (UserHandler.getTenantID c) id st with ⟨r, st1⟩
    rw [h] at he
    simp only at he
    subst he
    simp only [UserHandler.DeleteUser, hid, h]
    split <;> simp [Reply.errorStatus, StatusNotFound, StatusInternalServerError]
  · intro query he
    rcases h : svc.ListUsers (UserHandler.getTenantID c) query st with ⟨r, st1⟩
    rw [h] at he
    simp only at he
    subst he
    simp [UserHandler.ListUsers, h, Reply.errorStatus, StatusInternalServerError]
  · intro hu he
    rcases h : svc.GetUser (UserHandler.getTenantID c) (UserHandler.getUserID parse c) st
      with ⟨r, st1⟩
    rw [h] at he
    simp only at he
    subst he
    simp only [UserHandler.GetProfile, hu, if_false, h]
    split <;> simp [Reply.errorStatus, StatusNotFound, StatusInternalServerError]
  · intro req hu he
    rcases h : svc.UpdateProfile (UserHandler.getTenantID c) (UserHandler.getUserID parse c)
      req st with ⟨r, st1⟩
    rw [h] at he
    simp only at he
    subst he
    simp only [UserHandler.UpdateProfile, hu, if_false, h]
    split <;> simp [Reply.errorStatus, StatusNotFound, StatusInternalServerError]

/-- Witness of C18 on the service over the in-memory repository: creating a
user whose email is taken is answered 409, and a profile update that the
store refuses with "db error" is answered 500. -/
theorem handlers_map_errors_to_status_witness :
    (UserHandler.CreateUser (NewUserService (newUserRepository sampleParse) sampleDeps)
      sampleContext (some sampleCreate) (freshWorld sampleStore)).1.errorStatus = some 409 ∧
    (UserHandler.UpdateProfile sampleParse
      (NewUserService
        (mockRepository (none, none) none (some sampleUser, none)
          (some (Error.other "db error")) none) sampleDeps)
      sampleContext (some { FirstName := some "New", LastName := none })
      { store := (), calls := [], logs := [] }).1.errorStatus = some 500 :=
  ⟨(handlers_map_errors_to_status sampleParse
      (NewUserService (newUserRepository sampleParse) sampleDeps) sampleContext
      (freshWorld sampleStore) Error.ErrUserExists).1 sampleCreate (by decide),
    (handlers_map_errors_to_status sampleParse
      (NewUserService
        (mockRepository (none, none) none (some sampleUser, none)
          (some (Error.other "db error")) none) sampleDeps)
      sampleContext { store := (), calls := [], logs := [] }
      (Error.other "db error")).2.2.2.2.2.2 { FirstName := some "New", LastName := none }
      (by decide) (by decide)⟩

/-- C19 fails on the code: creating a user whose email is taken returns
`ErrUserExists` and writes no log entry. -/
theorem createUser_exists_is_not_logged :
    (userService.CreateUser (newUserRepository sampleParse) sampleDeps "default" sampleCreate
      (freshWorld sampleStore)).1 = Result.err Error.ErrUserExists ∧
    (userService.CreateUser (newUserRepository sampleParse) sampleDeps "default" sampleCreate
      (freshWorld sampleStore)).2.logs = [] := by
  refine ⟨by decide, by decide⟩

/-- C19, amended: a service method that returns an error has either written
exactly one log entry, of level error, or the error is the method's domain
error (`ErrUserExists` for `CreateUser`, `ErrUserNotFound` for the others) and
it has written none; `ListUsers` always writes the entry. So every returned
error other than the domain error is logged. -/
theorem service_errors_logged_or_domain {σ : Type} (R : UserRepository σ) (d : Deps)
    (tenantID : String) (w : World σ) (e : Error) (create : CreateUserRequest) (id : UUID)
    (email : String) (update : UpdateUserRequest) (profile : UpdateProfileRequest)
    (query : UserQueryRequest) :
    ((userService.CreateUser R d tenantID create w).1 = Result.err e →
      (e = Error.ErrUserExists ∧
        (userService.CreateUser R d tenantID create w).2.logs = w.logs) ∨
      ∃ entry, (userService.CreateUser R d tenantID create w).2.logs = w.logs ++ [entry] ∧
        entry.level = Level.error) ∧
    ((userService.GetUser R tenantID id w).1 = Result.err e →
      (e = Error.ErrUserNotFound ∧ (userService.GetUser R tenantID id w).2.logs = w.logs) ∨
      ∃ entry, (userService.GetUser R tenantID id w).2.logs = w.logs ++ [entry] ∧
        entry.level = Level.error) ∧
    ((userService.GetUserByEmail R tenantID email w).1 = Result.err e →
      (e = Error.ErrUserNotFound ∧
        (userService.GetUserByEmail R tenantID email w).2.logs = w.logs) ∨
      ∃ entry, (userService.GetUserByEmail R tenantID email w).2.logs = w.logs ++ [entry] ∧
        entry.level = Level.error) ∧
    ((userService.UpdateUser R tenantID id update w).1 = Result.err e →
      (e = Error.ErrUserNotFound ∧
        (userService.UpdateUser R tenantID id update w).2.logs = w.logs) ∨
      ∃ entry, (userService.UpdateUser R tenantID id update w).2.logs = w.logs ++ [entry] ∧
        entry.level = Level.error) ∧
    ((userService.DeleteUser R tenantID id w).1 = Result.err e →
      (e = Error.ErrUserNotFound ∧ (userService.DeleteUser R tenantID id w).2.logs = w.logs) ∨
      ∃ entry, (userService.DeleteUser R tenantID id w).2.logs = w.logs ++ [entry] ∧
        entry.level = Level.error) ∧
    ((userService.ListUsers R tenantID query w).1 = Result.err e →
      ∃ entry, (userService.ListUsers R tenantID query w).2.logs = w.logs ++ [entry] ∧
        entry.level = Level.error) ∧
    ((userService.UpdateProfile R tenantID id profile w).1 = Result.err e →
      (e = Error.ErrUserNotFound ∧
        (userService.UpdateProfile R tenantID id profile w).2.logs = w.logs) ∨
      ∃ entry, (userService.UpdateProfile R tenantID id profile w).2.logs = w.logs ++ [entry] ∧
        entry.level = Level.error) :=
  ⟨createUser_error_logged R d tenantID w create e,
    getUser_error_logged R tenantID w id e,
    getUserByEmail_error_logged R tenantID w email e,
    updateUser_error_logged R tenantID w id update e,
    deleteUser_error_logged R tenantID w id e,
    listUsers_error_logged R tenantID w query e,
    updateProfile_error_logged R tenantID w id profile e⟩

/-- Witness of C19 amended: `GetUser` on a repository whose `GetByID` fails
with "db error" returns that error, which is not `ErrUserNotFound`, and has
written one entry of level error. -/
theorem service_errors_logged_or_domain_witness :
    (userService.GetUser
        (mockRepository (none, none) none (none, some (Error.other "db error")) none none)
        "default" 42 { store := (), calls := [], logs := [] }).1
      = Result.err (Error.other "db error") ∧
    ((Error.other "db error" = Error.ErrUserNotFound ∧
      (userService.GetUser
        (mockRepository (none, none) none (none, some (Error.other "db error")) none none)
        "default" 42 { store := (), calls := [], logs := [] }).2.logs = []) ∨
    ∃ entry, (userService.GetUser
        (mockRepository (none, none) none (none, some (Error.other "db error")) none none)
        "default" 42 { store := (), calls := [], logs := [] }).2.logs = [] ++ [entry] ∧
      entry.level = Level.error) :=
  ⟨by decide,
    (service_errors_logged_or_domain
      (mockRepository (none, none) none (none, some (Error.other "db error")) none none)
      sampleDeps "default" { store := (), calls := [], logs := [] } (Error.other "db error")
      sampleCreate 42 "" emptyUpdate { FirstName := none, LastName := none }
      (pageQuery 1 20)).2.1 (by decide)⟩

/-- C20 fails on the code: when the re-fetch by `GetByID` after a successful
`Create` or `Update` finds no record (nil record, nil error), `CreateUser`,
`UpdateUser` and `UpdateProfile` dereference the nil record: the call yields
neither a response nor an error. -/
theorem refetch_not_found_panics :
    (userService.CreateUser vanishingRepository sampleDeps "default" freshCreate
      { store := true, calls := [], logs := [] }).1 = Result.panic ∧
    (userService.UpdateUser vanishingRepository "default" 42 emptyUpdate
      { store := true, calls := [], logs := [] }).1 = Result.panic ∧
    (userService.UpdateProfile vanishingRepository "default" 42
      { FirstName := some "New", LastName := none }
      { store := true, calls := [], logs := [] }).1 = Result.panic := by
  refine ⟨by decide, by decide, by decide⟩

/-! ### Role IDs of a request -/

theorem buildUser_roleIDs (d : Deps) (req : CreateUserRequest) (roleIDs : List String)
    (hashed : String) :
    userService.buildUser d { req with RoleIDs := roleIDs } hashed
      = userService.buildUser d req hashed := rfl

theorem buildUser_apart_from_id_and_hash (d1 d2 : Deps) (req : CreateUserRequest)
    (roleIDs : List String) (hashed1 hashed2 : String) :
    { userService.buildUser d1 req hashed1 with ID := 0, PasswordHash := "" }
      = { userService.buildUser d2 { req with RoleIDs := roleIDs } hashed2 with
          ID := 0, PasswordHash := "" } := rfl

theorem updateUserUpdates_roleIDs (req : UpdateUserRequest) (roleIDs : List String) :
    userService.updateUserUpdates { req with RoleIDs := roleIDs }
      = userService.updateUserUpdates req := rfl

theorem createUser_roleIDs {σ : Type} (R : UserRepository σ) (d : Deps) (tenantID : String)
    (req : CreateUserRequest) (roleIDs : List String) (w : World σ) :
    userService.CreateUser R d tenantID { req with RoleIDs := roleIDs } w
      = userService.CreateUser R d tenantID req w := rfl

theorem updateUser_roleIDs {σ : Type} (R : UserRepository σ) (tenantID : String) (id : UUID)
    (req : UpdateUserRequest) (roleIDs : List String) (w : World σ) :
    userService.UpdateUser R tenantID id { req with RoleIDs := roleIDs } w
      = userService.UpdateUser R tenantID id req w := rfl

/-- C21: the role IDs of a request have no effect on what is written. Take a
create request and the same request with other role IDs, run with any two
sources of IDs and password hashes. Every record either run passes to
`Create` carries no roles, and a record of the first run and one of the second
go to the same tenant and are equal apart from `ID` and `PasswordHash`; when
the existence check passes and both hashes succeed, each run does pass such a
record; and with the same source of IDs and hashes the two runs are equal
altogether. For an update request and the same request with other role IDs,
the field set built is the same, the two runs of `UpdateUser` are equal, and
when the user exists that field set is what `Update` receives. -/
theorem role_ids_do_not_reach_the_store {σ : Type} (R : UserRepository σ) (d1 d2 : Deps)
    (tenantID : String) (w : World σ) (create : CreateUserRequest)
    (update : UpdateUserRequest) (roleIDs : List String) (id : UUID) :
    (∃ calls1 calls2,
      (userService.CreateUser R d1 tenantID create w).2.calls = w.calls ++ calls1 ∧
      (userService.CreateUser R d2 tenantID { create with RoleIDs := roleIDs } w).2.calls
        = w.calls ++ calls2 ∧
      (∀ t user, RepoCall.Create t user ∈ calls1 ++ calls2 → user.Roles = []) ∧
      ∀ t1 user1 t2 user2, RepoCall.Create t1 user1 ∈ calls1 →
        RepoCall.Create t2 user2 ∈ calls2 →
        t1 = t2 ∧
        { user1 with ID := 0, PasswordHash := "" }
          = { user2 with ID := 0, PasswordHash := "" }) ∧
    (∀ s1 hashed1 hashed2,
      R.GetByEmail tenantID create.Email w.store = ((none, none), s1) →
      d1.generateFromPassword create.Password = Except.ok hashed1 →
      d2.generateFromPassword create.Password = Except.ok hashed2 →
      ∃ user1 user2 rest1 rest2,
        (userService.CreateUser R d1 tenantID create w).2.calls
          = w.calls ++ RepoCall.GetByEmail tenantID create.Email ::
              RepoCall.Create tenantID user1 :: rest1 ∧
        (userService.CreateUser R d2 tenantID { create with RoleIDs := roleIDs } w).2.calls
          = w.calls ++ RepoCall.GetByEmail tenantID create.Email ::
              RepoCall.Create tenantID user2 :: rest2 ∧
        user1.Roles = [] ∧ user2.Roles = [] ∧
        { user1 with ID := 0, PasswordHash := "" }
          = { user2 with ID := 0, PasswordHash := "" }) ∧
    userService.CreateUser R d1 tenantID { create with RoleIDs := roleIDs } w
      = userService.CreateUser R d1 tenantID create w ∧
    userService.updateUserUpdates { update with RoleIDs := roleIDs }
      = userService.updateUserUpdates update ∧
    userService.UpdateUser R tenantID id { update with RoleIDs := roleIDs } w
      = userService.UpdateUser R tenantID id update w ∧
    (∀ u s1, R.GetByID tenantID id w.store = ((some u, none), s1) →
      ∃ rest, (userService.UpdateUser R tenantID id { update with RoleIDs := roleIDs } w).2.calls
        = w.calls ++ RepoCall.GetByID tenantID id ::
            RepoCall.Update tenantID id (userService.updateUserUpdates update) :: rest) := by
  refine ⟨?_, ?_, createUser_roleIDs R d1 tenantID create roleIDs w,
    updateUserUpdates_roleIDs update roleIDs, updateUser_roleIDs R tenantID id update roleIDs w,
    ?_⟩
  · obtain ⟨calls1, hc1, hp1⟩ := createUser_create_calls R d1 tenantID create w
    obtain ⟨calls2, hc2, hp2⟩ :=
      createUser_create_calls R d2 tenantID { create with RoleIDs := roleIDs } w
    refine ⟨calls1, calls2, hc1, hc2, fun t user hmem => ?_,
      fun t1 user1 t2 user2 hm1 hm2 => ?_⟩
    · rcases List.mem_append.mp hmem with hm | hm
      · obtain ⟨-, hashed, -, rfl⟩ := hp1 t user hm
        rfl
      · obtain ⟨-, hashed, -, rfl⟩ := hp2 t user hm
        rfl
    · obtain ⟨rfl, hashed1, -, rfl⟩ := hp1 t1 user1 hm1
      obtain ⟨rfl, hashed2, -, rfl⟩ := hp2 t2 user2 hm2
      exact ⟨rfl, buildUser_apart_from_id_and_hash d1 d2 create roleIDs hashed1 hashed2⟩
  · intro s1 hashed1 hashed2 h1 hh1 hh2
    obtain ⟨rest1, hr1⟩ := createUser_reaches_create R d1 tenantID create w s1 hashed1 h1 hh1
    obtain ⟨rest2, hr2⟩ := createUser_reaches_create R d2 tenantID
      { create with RoleIDs := roleIDs } w s1 hashed2 h1 hh2
    exact ⟨_, _, rest1, rest2, hr1, hr2, rfl, rfl,
      buildUser_apart_from_id_and_hash d1 d2 create roleIDs hashed1 hashed2⟩
  · intro u s1 h1
    rcases updateUser_calls R tenantID id { update with RoleIDs := roleIDs } w u s1 h1
      with h | h
    · exact ⟨[], h⟩
    · exact ⟨[RepoCall.GetByID tenantID id], h⟩

/-- Witness of C21: creating `new.user@example.com` in the sample store, once
without role IDs and once with two of them and another ID and salt, passes to
`Create` two records without roles that agree apart from `ID` and
`PasswordHash`. -/
theorem role_ids_do_not_reach_the_store_witness :
    ∃ user1 user2 rest1 rest2,
      (userService.CreateUser (newUserRepository sampleParse) sampleDeps "default" freshCreate
        (freshWorld sampleStore)).2.calls
        = RepoCall.GetByEmail "default" "new.user@example.com" ::
            RepoCall.Create "default" user1 :: rest1 ∧
      (userService.CreateUser (newUserRepository sampleParse) otherDeps "default" roleCreate
        (freshWorld sampleStore)).2.calls
        = RepoCall.GetByEmail "default" "new.user@example.com" ::
            RepoCall.Create "default" user2 :: rest2 ∧
      user1.Roles = [] ∧ user2.Roles = [] ∧
      { user1 with ID := 0, PasswordHash := "" }
        = { user2 with ID := 0, PasswordHash := "" } :=
  (role_ids_do_not_reach_the_store (newUserRepository sampleParse) sampleDeps otherDeps
    "default" (freshWorld sampleStore) freshCreate roleUpdate ["7", "not-a-uuid"] 42).2.1
    sampleStore "$2a$10$securepassword123" "$2a$10$othersaltsecurepassword123"
    (by decide) rfl rfl
